import Mathlib

/-!
ParaView: IceT synchronized renderers and the kernel-convolution filter

A shallow embedding of `Servers/Filters/vtkIceTSynchronizedRenderers.cxx`:
the camera pass that computes the tiled size and origin, the image paster
pass, the composite pass's `SetupContext`, the process-wide tile map with
`FlushTiles` / `EraseTile`, and the end-of-render handler, the image capture
and the reduction-factor setter of `vtkIceTSynchronizedRenderers`; and of
`Plugins/SciberQuestToolKit/vtkSQKernelConvolution.cxx`: the discovery of the
host topology in the constructor, the setters of the CUDA settings and of the
kernel parameters, `Initialize`, `UpdateKernel`, `RequestInformation` and the
control flow of `RequestData`.

Conventions of the embedding.

* Objects reached through pointers (`vtkRenderer`, its `vtkRenderWindow`) are
  records; a method that mutates them returns the updated record.
* C++ `int` values are integers. The products of a pixel extent or origin by
  a tile count and the kernel index `W*W*k + W*j + i` are computed in 32-bit
  `int`: `mulInt32` and `addInt32` give the result reduced to the range of
  `int` (signed overflow is undefined behaviour in C++; two's-complement
  wrap-around is what the machines do), and they agree with the exact product
  and sum whenever those are in range. The C++ `/` and `%` on `int` are the
  truncating division and its remainder.
* C++ `double` and `float` values are modelled as rationals: viewport
  coordinates are stored, copied, compared and subtracted, kernel values are
  added and divided, all exactly.
* Calls made on collaborators (setters of the window and the renderer, OpenGL
  calls, image pushes) are recorded, in program order, in a list of `Call`s,
  so that statements such as "no write happens" or "exactly one paste per
  entry" can be expressed.
* Functions of VTK and of the plugin that these files call but do not define
  are parameters of the embedding. The compositing of IceT, which is not among
  the sources, is modelled as a fold of a merge rule.
-/

namespace ParaView

/-- C++ `double`. -/
abbrev Double := ℚ

/-- Whether an integer is in the range of a 32-bit `int`. -/
def InInt32 (x : Int) : Prop := -2147483648 ≤ x ∧ x ≤ 2147483647

instance (x : Int) : Decidable (InInt32 x) := by
  unfold InInt32
  infer_instance

/-- The value a 32-bit two's-complement `int` holds when the exact result of
an operation is `x`: the integer of the range of `int` that differs from `x`
by a multiple of `2^32`. -/
def wrapInt32 (x : Int) : Int := (x + 2147483648) % 4294967296 - 2147483648

/-- The C++ product `a * b` of two `int`s. -/
def mulInt32 (a b : Int) : Int := wrapInt32 (a * b)

/-- The C++ sum `a + b` of two `int`s. -/
def addInt32 (a b : Int) : Int := wrapInt32 (a + b)

/-- A `double[4]` viewport `{xmin, ymin, xmax, ymax}`. -/
structure Viewport where
  xmin : Double
  ymin : Double
  xmax : Double
  ymax : Double
deriving DecidableEq, Repr

/-- The struct `vtkSynchronizedRenderers::vtkRawImage`: a pixel buffer tagged with its
size and a validity flag. -/
structure vtkRawImage where
  Valid : Bool
  Size : Int × Int
  Data : List Nat
deriving DecidableEq, Repr

/-- The method `vtkRawImage::IsValid()`. -/
def vtkRawImage.IsValid (image : vtkRawImage) : Bool := image.Valid

/-- The part of `vtkRenderWindow` / `vtkWindow` that this file reads and
writes. -/
structure vtkRenderWindow where
  TileScale : Int × Int
  TileViewport : Viewport
  ActualSize : Int × Int
deriving DecidableEq, Repr

/-- The part of `vtkRenderer` that this file reads and writes, together with
the window it belongs to (`GetRenderWindow()` / `GetVTKWindow()`). -/
structure vtkRenderer where
  Viewport : Viewport
  RenderWindow : vtkRenderWindow
deriving DecidableEq, Repr

/-- The class `vtkRenderState`: the renderer a pass is rendering for. -/
structure vtkRenderState where
  Renderer : vtkRenderer
deriving DecidableEq, Repr

/-- The class `vtkIceTCompositePass`: the fields read through its getters here. -/
structure vtkIceTCompositePass where
  TileDimensions : Int × Int
  ImageReductionFactor : Int
  PhysicalViewport : Viewport
  LastRenderedTile : vtkRawImage
deriving DecidableEq, Repr

/-- The class `vtkMyImagePasterPass`: holds the image it pastes. -/
structure vtkMyImagePasterPass where
  Image : vtkRawImage
deriving DecidableEq, Repr

/-- Identity of a render pass object, as held in a delegate pointer. -/
inductive PassId where
  | ImagePastingPass
  | Other (n : Nat)
deriving DecidableEq, Repr

/-- The class `vtkImageProcessingPass`: the delegate pointer set on it here. -/
structure vtkImageProcessingPass where
  DelegatePass : Option PassId
deriving DecidableEq, Repr

/-- The calls this file makes on its collaborators. A `PushToViewport` entry
records the renderer as it is at the moment of the paste and the `bool` the
paste returned; `FlushTiles` marks an invocation of `::FlushTiles`. -/
inductive Call where
  | SetTileScale (x y : Int)
  | SetTileViewport (v : Viewport)
  | SetViewport (v : Viewport)
  | PushToViewport (image : vtkRawImage) (renderer : vtkRenderer) (ok : Bool)
  | glClear
  | PushToFrameBuffer (image : vtkRawImage)
  | SetDelegatePass (delegate : PassId)
  | SetImage (image : vtkRawImage)
  | UpdateViewport (renderer : vtkRenderer)
  | glPushAttrib
  | ImageProcessingPass_Render (pass : vtkImageProcessingPass)
      (ImagePastingPass : vtkMyImagePasterPass) (renderer : vtkRenderer)
  | ReleaseGraphicsResources
  | glPopAttrib
  | Capture (renderer : vtkRenderer)
  | Superclass_HandleEndRender
  | FlushTiles (renderer : vtkRenderer)
deriving DecidableEq, Repr

/-- The state a function leaves behind, the calls it made, and what it
returned. -/
structure Outcome (σ α : Type) where
  state : σ
  calls : List Call
  result : α

/-- The setter `vtkWindow::SetTileScale(x, y)` called through the renderer. -/
def vtkRenderer.SetTileScale (ren : vtkRenderer) (s : Int × Int) : vtkRenderer :=
  { ren with RenderWindow := { ren.RenderWindow with TileScale := s } }

/-- The setter `vtkWindow::SetTileViewport(...)` called through the renderer. -/
def vtkRenderer.SetTileViewport (ren : vtkRenderer) (v : ParaView.Viewport) : vtkRenderer :=
  { ren with RenderWindow := { ren.RenderWindow with TileViewport := v } }

/-- The setter `vtkViewport::SetViewport(double[4])`. -/
def vtkRenderer.SetViewport (ren : vtkRenderer) (v : ParaView.Viewport) : vtkRenderer :=
  { ren with Viewport := v }

/-- The full tile viewport `(0, 0, 1, 1)`. -/
def fullViewport : Viewport := ⟨0, 0, 1, 1⟩

/-- The four `int`s `GetTiledSizeAndOrigin` writes through its out-pointers. -/
structure TiledSizeAndOrigin where
  width : Int
  height : Int
  originX : Int
  originY : Int
deriving DecidableEq, Repr

/-- The method `vtkCameraPass::GetTiledSizeAndOrigin`, the superclass computation. It is
VTK code and a parameter here: it reads the render state and writes the four
out-parameters. It returns `void`, so it has no result through which to
report a failure; `none` stands for a call that does not return to its caller
(a C++ exception leaving it part-way). -/
abbrev SuperclassGetTiledSizeAndOrigin := vtkRenderState → Option TiledSizeAndOrigin

/-- The method `vtkMyCameraPass::GetTiledSizeAndOrigin` (lines 84-121).

`result = none` means that the call did not return, which happens exactly
when the superclass call inside it does not return: the statements after that
call are then not executed. The four `*=` of lines 112-115 are products of
`int`s. -/
def vtkMyCameraPass.GetTiledSizeAndOrigin
    (Superclass : SuperclassGetTiledSizeAndOrigin)
    (IceTCompositePass : vtkIceTCompositePass)
    (render_state : vtkRenderState) :
    Outcome vtkRenderState (Option TiledSizeAndOrigin) :=
  let tile_dims := IceTCompositePass.TileDimensions
  if tile_dims.1 > 1 ∨ tile_dims.2 > 1 then
    let tile_scale := render_state.Renderer.RenderWindow.TileScale
    let tile_viewport := render_state.Renderer.RenderWindow.TileViewport
    let s1 : vtkRenderState := ⟨render_state.Renderer.SetTileScale (1, 1)⟩
    let s2 : vtkRenderState := ⟨s1.Renderer.SetTileViewport fullViewport⟩
    match Superclass s2 with
    | none =>
      { state := s2
        calls := [Call.SetTileScale 1 1, Call.SetTileViewport fullViewport]
        result := none }
    | some r =>
      let s3 : vtkRenderState := ⟨s2.Renderer.SetTileScale tile_scale⟩
      let s4 : vtkRenderState := ⟨s3.Renderer.SetTileViewport tile_viewport⟩
      { state := s4
        calls := [Call.SetTileScale 1 1, Call.SetTileViewport fullViewport,
                  Call.SetTileScale tile_scale.1 tile_scale.2,
                  Call.SetTileViewport tile_viewport]
        result := some
          { originX := mulInt32 r.originX tile_dims.1
            originY := mulInt32 r.originY tile_dims.2
            width := mulInt32 r.width tile_dims.1
            height := mulInt32 r.height tile_dims.2 } }
  else
    { state := render_state
      calls := []
      result := Superclass render_state }

/-- The method `vtkMyImagePasterPass::Render` (lines 46-53): the OpenGL calls it makes. -/
def vtkMyImagePasterPass.Render (self : vtkMyImagePasterPass) : List Call :=
  if self.Image.IsValid then
    [Call.glClear, Call.PushToFrameBuffer self.Image]
  else
    []

/-- The method `vtkMyImagePasterPass::SetImage` (lines 55-58). -/
def vtkMyImagePasterPass.SetImage (_self : vtkMyImagePasterPass) (image : vtkRawImage) :
    vtkMyImagePasterPass :=
  { Image := image }

/-- The class `vtkTile` (lines 181-193). -/
structure vtkTile where
  TileImage : vtkRawImage
  PhysicalViewport : Viewport
  GlobalViewport : Viewport
deriving DecidableEq, Repr

/-- The key of the tile map: the address of a `vtkIceTSynchronizedRenderers`
instance. -/
abbrev Owner := Nat

/-- The type `TilesMapType`, a `std::map<vtkIceTSynchronizedRenderers*, vtkTile>`: its
entries in iteration order, which is the order of the keys. -/
abbrev TilesMapType := List (Owner × vtkTile)

/-- The lookup `TilesMap.find(ptr)`: the tile stored under a key, if any. -/
def TilesMapType.find (TilesMap : TilesMapType) (ptr : Owner) : Option vtkTile :=
  match TilesMap with
  | [] => none
  | (k, tile) :: rest => if k = ptr then some tile else TilesMapType.find rest ptr

/-- A default-constructed `vtkTile`: an invalid, empty image and two
viewport arrays that the constructor does not initialise (`indeterminate`
stands for whatever they hold). -/
def vtkTile.New (indeterminate : Viewport) : vtkTile :=
  { TileImage := { Valid := false, Size := (0, 0), Data := [] }
    PhysicalViewport := indeterminate
    GlobalViewport := indeterminate }

/-- The statement `vtkTile& tile = TilesMap[ptr]` followed by assignments `f` through the
reference: `operator[]` finds the entry of the key, inserting a
default-constructed tile at the key's place in the order when there is none. -/
def TilesMapType.subscript (indeterminate : Viewport) (ptr : Owner) (f : vtkTile → vtkTile) :
    TilesMapType → TilesMapType
  | [] => [(ptr, f (vtkTile.New indeterminate))]
  | (k, tile) :: rest =>
    if ptr < k then (ptr, f (vtkTile.New indeterminate)) :: (k, tile) :: rest
    else if ptr = k then (k, f tile) :: rest
    else (k, tile) :: TilesMapType.subscript indeterminate ptr f rest

/-- The method `vtkRawImage::PushToViewport(vtkRenderer*)`, VTK code and a parameter
here: given the image and the renderer as configured at the moment of the
paste it draws into the frame buffer and returns whether it succeeded. It
does not change the renderer's viewport nor the window's tile settings. -/
abbrev PushToViewportFn := vtkRawImage → vtkRenderer → Bool

/-- The body of the loop of `FlushTiles` for one map entry (lines 205-217).
The `bool` returned by `PushToViewport` is discarded by the source. -/
def FlushTiles.body (PushToViewport : PushToViewportFn) (tile : vtkTile)
    (renderer : vtkRenderer) : Outcome vtkRenderer Unit :=
  if tile.TileImage.IsValid then
    let viewport := renderer.Viewport
    let r1 := renderer.SetViewport tile.PhysicalViewport
    let tile_scale := r1.RenderWindow.TileScale
    let r2 := r1.SetTileScale (1, 1)
    let ok := PushToViewport tile.TileImage r2
    let r3 := r2.SetTileScale tile_scale
    let r4 := r3.SetViewport viewport
    { state := r4
      calls := [Call.SetViewport tile.PhysicalViewport, Call.SetTileScale 1 1,
                Call.PushToViewport tile.TileImage r2 ok,
                Call.SetTileScale tile_scale.1 tile_scale.2, Call.SetViewport viewport]
      result := () }
  else
    { state := renderer, calls := [], result := () }

/-- The function `FlushTiles(vtkRenderer*)` (lines 200-219): the loop over the tile map. -/
def FlushTiles (PushToViewport : PushToViewportFn) :
    TilesMapType → vtkRenderer → Outcome vtkRenderer Unit
  | [], renderer => { state := renderer, calls := [], result := () }
  | (_, tile) :: rest, renderer =>
    let o1 := FlushTiles.body PushToViewport tile renderer
    let o2 := FlushTiles PushToViewport rest o1.state
    { state := o2.state, calls := o1.calls ++ o2.calls, result := () }

/-- The function `EraseTile(ptr)` (lines 221-228): `find` the key and erase its entry. -/
def EraseTile (ptr : Owner) : TilesMapType → TilesMapType
  | [] => []
  | (k, tile) :: rest => if k = ptr then rest else (k, tile) :: EraseTile ptr rest

/-- The pastes among a list of calls: image, renderer at the moment of the
paste, and the result the paste returned. -/
def pastes : List Call → List (vtkRawImage × vtkRenderer × Bool)
  | [] => []
  | Call.PushToViewport image renderer ok :: rest => (image, renderer, ok) :: pastes rest
  | _ :: rest => pastes rest

/-- The fields of a `vtkIceTSynchronizedRenderers` instance (its own and the
ones inherited from `vtkSynchronizedRenderers`) that this file uses.
`Renderer` is taken to be set (non-null); `ImageProcessingPass` is `none`
when the pointer is `NULL`. `ImageReductionFactor` is the field of the
superclass, `IceTCompositePass.ImageReductionFactor` the one of the pass. -/
structure vtkIceTSynchronizedRenderers where
  WriteBackImages : Bool
  Renderer : vtkRenderer
  IceTCompositePass : vtkIceTCompositePass
  ImagePastingPass : vtkMyImagePasterPass
  ImageProcessingPass : Option vtkImageProcessingPass
  ImageReductionFactor : Int
  FullImage : vtkRawImage
  ReducedImage : vtkRawImage
deriving DecidableEq, Repr

/-- What `vtkIceTSynchronizedRenderers` calls and this file does not define.

* `GetImageReductionFactor`: the getter, declared in the class header.
* `Superclass_HandleEndRender`: `vtkSynchronizedRenderers::HandleEndRender`,
  acting on the instance; the tile map is a file-level static of the embedded
  file and out of its reach.
* `Capture`: `vtkRawImage::Capture(vtkRenderer*)`, the image read back from
  the frame buffer, which depends on the calls made so far and on the renderer
  as configured at that moment.
* `PushToViewport`: see `PushToViewportFn`.
* `indeterminate`: the content of an uninitialised `double[4]`. -/
structure Collaborators where
  GetImageReductionFactor : vtkIceTSynchronizedRenderers → Int
  Superclass_HandleEndRender : vtkIceTSynchronizedRenderers → vtkIceTSynchronizedRenderers
  Capture : List Call → vtkRenderer → vtkRawImage
  PushToViewport : PushToViewportFn
  indeterminate : Viewport

/-- Modelled from the spec: the setter
`vtkIceTCompositePass::SetImageReductionFactor`, which is declared in the
header of the composite pass and is not among the sources. The spec has it
take an integer factor, which the backend then renders and composites at; it
names no bound on the factor, so the setter stores the factor it is given. -/
def vtkIceTCompositePass.SetImageReductionFactor (pass : vtkIceTCompositePass) (val : Int) :
    vtkIceTCompositePass :=
  { pass with ImageReductionFactor := val }

/-- The method `vtkIceTSynchronizedRenderers::SetImageReductionFactor` (lines 337-344):
the superclass method is not called, the value goes to the composite pass. -/
def vtkIceTSynchronizedRenderers.SetImageReductionFactor
    (self : vtkIceTSynchronizedRenderers) (val : Int) : vtkIceTSynchronizedRenderers :=
  { self with IceTCompositePass := self.IceTCompositePass.SetImageReductionFactor val }

/-- Assignment through the reference `rawImage` of `CaptureRenderedImage`,
which is bound to `FullImage` or to `ReducedImage`. -/
def vtkIceTSynchronizedRenderers.assignRawImage (self : vtkIceTSynchronizedRenderers)
    (full : Bool) (image : vtkRawImage) : vtkIceTSynchronizedRenderers :=
  if full then { self with FullImage := image } else { self with ReducedImage := image }

/-- The method `vtkIceTSynchronizedRenderers::CaptureRenderedImage` (lines 347-409).
`GetLastRenderedTile(rawImage)` stores the last tile of the composite pass in
the selected buffer. -/
def vtkIceTSynchronizedRenderers.CaptureRenderedImage (ext : Collaborators)
    (self : vtkIceTSynchronizedRenderers) :
    Outcome vtkIceTSynchronizedRenderers vtkRawImage :=
  let full : Bool := decide (ext.GetImageReductionFactor self = 1)
  let rawImage := if full then self.FullImage else self.ReducedImage
  if !rawImage.IsValid then
    let tile := self.IceTCompositePass.LastRenderedTile
    let self1 := self.assignRawImage full tile
    if !tile.IsValid then
      { state := self1, calls := [], result := tile }
    else
      match self1.ImageProcessingPass with
      | none => { state := self1, calls := [], result := tile }
      | some pass =>
        let pass1 : vtkImageProcessingPass :=
          { pass with DelegatePass := some PassId.ImagePastingPass }
        let paster := self1.ImagePastingPass.SetImage tile
        let viewport := self1.Renderer.Viewport
        let tile_scale := self1.Renderer.RenderWindow.TileScale
        let tile_viewport := self1.Renderer.RenderWindow.TileViewport
        let pv := self1.IceTCompositePass.PhysicalViewport
        let physical_viewport : Viewport := ⟨0, 0, pv.xmax - pv.xmin, pv.ymax - pv.ymin⟩
        let r1 := self1.Renderer.SetViewport physical_viewport
        let r2 := r1.SetTileScale (1, 1)
        let r3 := r2.SetTileViewport fullViewport
        let before : List Call :=
          [Call.SetDelegatePass PassId.ImagePastingPass, Call.SetImage tile,
           Call.SetViewport physical_viewport, Call.SetTileScale 1 1,
           Call.SetTileViewport fullViewport, Call.UpdateViewport r3,
           Call.glPushAttrib, Call.ImageProcessingPass_Render pass1 paster r3,
           Call.ReleaseGraphicsResources, Call.glPopAttrib]
        let captured := ext.Capture before r3
        let r4 := r3.SetTileScale tile_scale
        let r5 := r4.SetTileViewport tile_viewport
        let r6 := r5.SetViewport viewport
        let self2 : vtkIceTSynchronizedRenderers :=
          { self1 with ImageProcessingPass := some pass1, ImagePastingPass := paster,
                       Renderer := r6 }
        { state := self2.assignRawImage full captured
          calls := before ++
            [Call.Capture r3, Call.SetTileScale tile_scale.1 tile_scale.2,
             Call.SetTileViewport tile_viewport, Call.SetViewport viewport]
          result := captured }
  else
    { state := self, calls := [], result := rawImage }

/-- Lines 289-298 of `HandleEndRender`: the superclass handler is called
with `WriteBackImages` switched off while it runs when it was on. -/
def vtkIceTSynchronizedRenderers.callSuperclassHandleEndRender (ext : Collaborators)
    (self : vtkIceTSynchronizedRenderers) : vtkIceTSynchronizedRenderers :=
  if self.WriteBackImages then
    { ext.Superclass_HandleEndRender { self with WriteBackImages := false } with
      WriteBackImages := true }
  else
    ext.Superclass_HandleEndRender self

/-- The method `vtkIceTSynchronizedRenderers::HandleEndRender` (lines 287-315), called
on the instance whose address (the `this` pointer) is `thisPtr`. The state is
the instance together with the static `TilesMap`. -/
def vtkIceTSynchronizedRenderers.HandleEndRender (ext : Collaborators) (thisPtr : Owner)
    (self : vtkIceTSynchronizedRenderers) (TilesMap : TilesMapType) :
    Outcome (vtkIceTSynchronizedRenderers × TilesMapType) Unit :=
  let self1 := self.callSuperclassHandleEndRender ext
  if self1.WriteBackImages then
    let captured := self1.CaptureRenderedImage ext
    let lastRenderedImage := captured.result
    let self2 := captured.state
    let TilesMap1 : TilesMapType :=
      if lastRenderedImage.IsValid then
        TilesMap.subscript ext.indeterminate thisPtr
          (fun tile => { tile with TileImage := lastRenderedImage,
                                   PhysicalViewport := self2.IceTCompositePass.PhysicalViewport })
      else
        TilesMap
    let flushed := FlushTiles ext.PushToViewport TilesMap1 self2.Renderer
    { state := ({ self2 with Renderer := flushed.state }, TilesMap1)
      calls := Call.Superclass_HandleEndRender :: captured.calls ++
        Call.FlushTiles self2.Renderer :: flushed.calls
      result := () }
  else
    { state := (self1, TilesMap), calls := [Call.Superclass_HandleEndRender], result := () }

/-- The image `HandleEndRender` captures (`lastRenderedImage`, line 302) and
the instance as `CaptureRenderedImage` leaves it. -/
def vtkIceTSynchronizedRenderers.captureAtEndRender (ext : Collaborators)
    (self : vtkIceTSynchronizedRenderers) :
    Outcome vtkIceTSynchronizedRenderers vtkRawImage :=
  (self.callSuperclassHandleEndRender ext).CaptureRenderedImage ext

/-- The destructor `~vtkIceTSynchronizedRenderers` (lines 254-265), as far as
the tile map is concerned: it erases the entry of the instance; its other
statements release the passes of the instance. -/
def vtkIceTSynchronizedRenderers.Destructor (thisPtr : Owner) (TilesMap : TilesMapType) :
    TilesMapType :=
  EraseTile thisPtr TilesMap

/-- The invariant of a `std::map`: the keys of its entries are strictly
increasing in iteration order (so each key occurs once). -/
def TilesMapType.Sorted (TilesMap : TilesMapType) : Prop :=
  List.Pairwise (fun a b => a < b) (TilesMap.map Prod.fst)

instance (TilesMap : TilesMapType) : Decidable TilesMap.Sorted :=
  inferInstanceAs (Decidable (List.Pairwise (fun a b => a < b) (TilesMap.map Prod.fst)))

/-- Whether a call is an invocation of `::FlushTiles`. -/
def Call.isFlushTiles : Call → Bool
  | Call.FlushTiles _ => true
  | _ => false

/-! ## `vtkPVIceTCompositePass::SetupContext` -/

/-- The IceT state options this file switches, and any other one. -/
inductive IceTOption where
  | ICET_DISPLAY
  | ICET_DISPLAY_INFLATE
  | ICET_CORRECT_COLORED_BACKGROUND
  | Other (n : Nat)
deriving DecidableEq, Repr

/-- The OpenGL capability this file switches, and any other one. -/
inductive GLCapability where
  | GL_SCISSOR_TEST
  | Other (n : Nat)
deriving DecidableEq, Repr

/-- An RGBA colour. -/
structure RGBA where
  red : Double
  green : Double
  blue : Double
  alpha : Double
deriving DecidableEq, Repr

/-- The IceT context and the OpenGL state `SetupContext` acts on: the IceT
options and the OpenGL capabilities that are enabled, the OpenGL viewport
`(x, y, width, height)`, the clear colour, and the pixels of the colour
buffer. -/
structure GraphicsContext where
  icetEnabled : List IceTOption
  glEnabled : List GLCapability
  glViewportBox : Int × Int × Int × Int
  glClearColorValue : RGBA
  ColorBuffer : List RGBA
deriving DecidableEq, Repr

/-- IceT `icetDisable(option)`. -/
def icetDisable (option : IceTOption) (ctx : GraphicsContext) : GraphicsContext :=
  { ctx with icetEnabled := ctx.icetEnabled.filter (fun o => decide (o ≠ option)) }

/-- IceT `icetIsEnabled(option)`. -/
def icetIsEnabled (option : IceTOption) (ctx : GraphicsContext) : Bool :=
  decide (option ∈ ctx.icetEnabled)

/-- OpenGL `glViewport(x, y, width, height)`. -/
def glViewport (x y width height : Int) (ctx : GraphicsContext) : GraphicsContext :=
  { ctx with glViewportBox := (x, y, width, height) }

/-- OpenGL `glDisable(cap)`. -/
def glDisable (cap : GLCapability) (ctx : GraphicsContext) : GraphicsContext :=
  { ctx with glEnabled := ctx.glEnabled.filter (fun c => decide (c ≠ cap)) }

/-- OpenGL `glIsEnabled(cap)`. -/
def glIsEnabled (cap : GLCapability) (ctx : GraphicsContext) : Bool :=
  decide (cap ∈ ctx.glEnabled)

/-- OpenGL `glClearColor(r, g, b, a)`: it sets the colour that later clears
use and does not touch the colour buffer. -/
def glClearColor (r g b a : Double) (ctx : GraphicsContext) : GraphicsContext :=
  { ctx with glClearColorValue := ⟨r, g, b, a⟩ }

/-- OpenGL `glClear(GL_COLOR_BUFFER_BIT)`: every pixel of the colour buffer
becomes the clear colour. `SetupContext` does not call it; it is here to say
what a cleared buffer is. -/
def glClearColorBuffer (ctx : GraphicsContext) : GraphicsContext :=
  { ctx with ColorBuffer := ctx.ColorBuffer.map (fun _ => ctx.glClearColorValue) }

/-- The method `vtkIceTCompositePass::SetupContext`, the superclass method: VTK code
and a parameter here, acting on the IceT context and the OpenGL state. -/
abbrev SuperclassSetupContext := vtkRenderState → GraphicsContext → GraphicsContext

/-- The method `vtkPVIceTCompositePass::SetupContext` (lines 141-158). -/
def vtkPVIceTCompositePass.SetupContext (Superclass : SuperclassSetupContext)
    (render_state : vtkRenderState) (ctx : GraphicsContext) : GraphicsContext :=
  let c0 := Superclass render_state ctx
  let c1 := icetDisable IceTOption.ICET_DISPLAY c0
  let c2 := icetDisable IceTOption.ICET_DISPLAY_INFLATE c1
  let c3 := icetDisable IceTOption.ICET_CORRECT_COLORED_BACKGROUND c2
  let size := render_state.Renderer.RenderWindow.ActualSize
  let c4 := glViewport 0 0 size.1 size.2 c3
  let c5 := glDisable GLCapability.GL_SCISSOR_TEST c4
  glClearColor 0 0 0 0 c5

/-! ## `vtkSQKernelConvolution`: discovery of the host topology -/

/-- The map `counts`, a `std::map<string,int>` (line 154). Only lookups by key
are made on it, so the order of its entries is immaterial. -/
abbrev CountMapType := List (String × Int)

/-- The count stored under a key, if any. -/
def CountMapType.find (counts : CountMapType) (key : String) : Option Int :=
  match counts with
  | [] => none
  | (k, c) :: rest => if k = key then some c else CountMapType.find rest key

/-- Store a count under a key (`ret.first->second = ...`), adding the entry
when the key is new. -/
def CountMapType.assign (key : String) (value : Int) : CountMapType → CountMapType
  | [] => [(key, value)]
  | (k, c) :: rest =>
    if k = key then (k, value) :: rest else (k, c) :: CountMapType.assign key value rest

/-- The first byte of the UTF-8 encoding of a character. -/
def firstByteOfChar (c : Char) : Nat :=
  if c.toNat < 128 then c.toNat
  else if c.toNat < 2048 then 192 + c.toNat / 64
  else if c.toNat < 65536 then 224 + c.toNat / 4096
  else 240 + c.toNat / 262144

/-- Line 159, `keys[i]=hostNames[i*hostNameLen]`. The right-hand side is one
element of the gathered `char` array, the first byte of the name of rank `i`
(the terminating NUL when the name is empty); assigning a `char` to a
`std::string` gives the string made of that one `char`. A host name is
modelled as the string its bytes encode in UTF-8, and a `char` as the
character with the same code. -/
def keyOfHostName (hostName : String) : String :=
  match hostName.toList with
  | [] => String.singleton (Char.ofNat 0)
  | c :: _ => String.singleton (Char.ofNat (firstByteOfChar c))

/-- The first loop of the management rank (lines 157-173) from position `i`
on: for each key, insert it with count 1 or increment its count, and record
the count minus one as the host rank of that position. Returns the final
`counts` and the `hostRanks` of the positions processed. -/
def assignHostRanks : List String → CountMapType → CountMapType × List Int
  | [], counts => (counts, [])
  | key :: rest, counts =>
    let second : Int :=
      match counts.find key with
      | none => 1
      | some c => c + 1
    let r := assignHostRanks rest (counts.assign key second)
    (r.1, (second - 1) :: r.2)

/-- The second loop of the management rank (lines 175-178):
`hostSizes[i]=counts[keys[i]]`. -/
def assignHostSizes (keys : List String) (counts : CountMapType) : List Int :=
  keys.map (fun key => (counts.find key).getD 0)

/-- The values `HostSize` and `HostRank` of one rank. -/
structure HostTopology where
  HostSize : Int
  HostRank : Int
deriving DecidableEq, Repr

/-- The topology discovery of the constructor of `vtkSQKernelConvolution`
(lines 113-205) when MPI is initialised: `hostNames` holds the host name of
every rank, in rank order, as gathered on the management rank; the result
holds, in rank order, the `HostSize` and `HostRank` scattered to every rank. -/
def discoverHostTopology (hostNames : List String) : List HostTopology :=
  let keys := hostNames.map keyOfHostName
  let r := assignHostRanks keys []
  let hostRanks := r.2
  let hostSizes := assignHostSizes keys r.1
  List.zipWith (fun size rank => { HostSize := size, HostRank := rank }) hostSizes hostRanks

/-- The values a rank has after the constructor: the scattered ones when MPI
is initialised, the initial `HostSize(1)`, `HostRank(0)` otherwise. -/
def constructorHostTopology (mpiOk : Bool) (hostNames : List String) (WorldRank : Nat) :
    HostTopology :=
  if mpiOk then
    (discoverHostTopology hostNames).getD WorldRank { HostSize := 1, HostRank := 0 }
  else
    { HostSize := 1, HostRank := 0 }

/-- The number of ranks whose host name is, as a whole string, the host name
of rank `i`: the host size the constructor is meant to compute. -/
def ranksOnSameHost (hostNames : List String) (i : Nat) : Int :=
  (hostNames.count (hostNames.getD i "") : Nat)

/-- The number of ranks below rank `i` whose host name is, as a whole string,
the host name of rank `i`: the host rank the constructor is meant to compute. -/
def ranksBelowOnSameHost (hostNames : List String) (i : Nat) : Int :=
  ((hostNames.take i).count (hostNames.getD i "") : Nat)

/-! ## `vtkSQKernelConvolution`: the filter -/

/-- The values of `CartesianExtent::DIM_MODE_*` that the `int Mode` holds;
`Other` stands for any other `int`. -/
inductive DimMode where
  | DIM_MODE_INVALID
  | DIM_MODE_3D
  | DIM_MODE_2D_XY
  | DIM_MODE_2D_XZ
  | DIM_MODE_2D_YZ
  | Other (n : Int)
deriving DecidableEq, Repr

/-- The values of `KERNEL_TYPE_*` that the `int KernelType` holds; `Other`
stands for any other `int`. -/
inductive KernelTypeId where
  | KERNEL_TYPE_GAUSSIAN
  | KERNEL_TYPE_LOG
  | KERNEL_TYPE_CONSTANT
  | Other (n : Int)
deriving DecidableEq, Repr

/-- The class `CartesianExtent`: six `int`s, `ext[0]` to `ext[5]`, the low and
high index on each axis. -/
structure CartesianExtent where
  ilo : Int
  ihi : Int
  jlo : Int
  jhi : Int
  klo : Int
  khi : Int
deriving DecidableEq, Repr

/-- Modelled from the spec: `CartesianExtent::Size()`, declared in
`CartesianExtent.h`, which is not among the sources. It is the number of
points of the extent, the product of its per-axis lengths. -/
def CartesianExtent.Size (ext : CartesianExtent) : Int :=
  (ext.ihi - ext.ilo + 1) * (ext.jhi - ext.jlo + 1) * (ext.khi - ext.klo + 1)

/-- The fields of a `vtkSQKernelConvolution` instance used here. `MTime` is
the modification time that `Modified()` advances. `Kernel` is `none` for a
null pointer; an entry of the array is `none` until it is written. C++
`float` values are modelled like `double` ones. -/
structure vtkSQKernelConvolution where
  MTime : Nat
  WorldSize : Int
  WorldRank : Int
  HostSize : Int
  HostRank : Int
  KernelWidth : Int
  KernelType : KernelTypeId
  Kernel : Option (List (Option Double))
  KernelExt : CartesianExtent
  KernelModified : Int
  Mode : DimMode
  NumberOfCUDADevices : Int
  NumberOfActiveCUDADevices : Int
  CUDADeviceId : Int
  NumberOfMPIRanksToUseCUDA : Int
  EnableCUDA : Int
deriving DecidableEq, Repr

/-- The class `CUDAConvolutionDriver`, not among the sources: the number of
devices it reports and the status `SetDeviceId` returns. -/
structure CUDAConvolutionDriver where
  GetNumberOfDevices : Int
  SetDeviceId : Int → Int

/-- The functions of `Numerics.hxx`, not among the sources, that
`UpdateKernel` calls: `linspace(lo, hi, n, X)` gives the `n` values written to
`X`; `Gaussian(x, a, B, c)` and `LaplacianOfGaussian(x, a, B, c)` give a
kernel value. -/
structure Numerics where
  linspace : Double → Double → Int → List Double
  Gaussian : Double × Double × Double → Double → Double × Double × Double → Double → Double
  LaplacianOfGaussian :
    Double × Double × Double → Double → Double × Double × Double → Double → Double

/-- The method `vtkObject::Modified()`. -/
def vtkSQKernelConvolution.Modified (self : vtkSQKernelConvolution) : vtkSQKernelConvolution :=
  { self with MTime := self.MTime + 1 }

/-- The method `vtkSQKernelConvolution::SetAllMPIRanksToUseCUDA` (lines 445-468). -/
def vtkSQKernelConvolution.SetAllMPIRanksToUseCUDA (allUse : Int)
    (self : vtkSQKernelConvolution) : vtkSQKernelConvolution :=
  let self1 : vtkSQKernelConvolution :=
    if allUse ≠ 0 ∧ self.NumberOfActiveCUDADevices ≠ 0 then
      { self with EnableCUDA := 1 }
    else
      { self with EnableCUDA := 0 }
  self1.Modified

/-- The method `vtkSQKernelConvolution::SetNumberOfMPIRanksToUseCUDA` (lines 471-510). -/
def vtkSQKernelConvolution.SetNumberOfMPIRanksToUseCUDA (nRanks : Int)
    (self : vtkSQKernelConvolution) : vtkSQKernelConvolution :=
  if nRanks = self.NumberOfMPIRanksToUseCUDA then
    self
  else
    let self1 : vtkSQKernelConvolution := { self with NumberOfMPIRanksToUseCUDA := nRanks }
    if nRanks = -1 then
      self1.SetAllMPIRanksToUseCUDA 1
    else
      let self2 : vtkSQKernelConvolution :=
        if self1.NumberOfActiveCUDADevices ≠ 0 ∧
            self1.HostRank < self1.NumberOfMPIRanksToUseCUDA then
          { self1 with EnableCUDA := 1 }
        else
          { self1 with EnableCUDA := 0 }
      self2.Modified

/-- The method `vtkSQKernelConvolution::SetCUDADeviceId` (lines 553-570): the instance
and the status returned. -/
def vtkSQKernelConvolution.SetCUDADeviceId (driver : CUDAConvolutionDriver) (deviceId : Int)
    (self : vtkSQKernelConvolution) : vtkSQKernelConvolution × Int :=
  if self.CUDADeviceId = deviceId then
    (self, 0)
  else
    ({ self.Modified with CUDADeviceId := deviceId }, driver.SetDeviceId deviceId)

/-- The method `vtkSQKernelConvolution::SetNumberOfActiveCUDADevices` (lines 513-550).
The C++ `%` is the remainder of the division that truncates. -/
def vtkSQKernelConvolution.SetNumberOfActiveCUDADevices (driver : CUDAConvolutionDriver)
    (nActive : Int) (self : vtkSQKernelConvolution) : vtkSQKernelConvolution :=
  let nActive := min nActive self.NumberOfCUDADevices
  if nActive = self.NumberOfActiveCUDADevices then
    self
  else
    let self1 : vtkSQKernelConvolution :=
      if nActive = -1 then
        { self with NumberOfActiveCUDADevices := self.NumberOfCUDADevices }
      else
        { self with NumberOfActiveCUDADevices := nActive }
    let self2 : vtkSQKernelConvolution :=
      if self1.NumberOfActiveCUDADevices ≠ 0 then
        let deviceId := self1.HostRank.tmod self1.NumberOfActiveCUDADevices
        (self1.SetCUDADeviceId driver deviceId).1
      else
        self1
    self2.Modified

/-- The method `vtkSQKernelConvolution::SetMode` (lines 622-636). -/
def vtkSQKernelConvolution.SetMode (mode : DimMode) (self : vtkSQKernelConvolution) :
    vtkSQKernelConvolution :=
  if mode = self.Mode then
    self
  else
    { ({ self with Mode := mode } : vtkSQKernelConvolution).Modified with KernelModified := 1 }

/-- The method `vtkSQKernelConvolution::SetKernelType` (lines 639-653). -/
def vtkSQKernelConvolution.SetKernelType (type : KernelTypeId) (self : vtkSQKernelConvolution) :
    vtkSQKernelConvolution :=
  if type = self.KernelType then
    self
  else
    { ({ self with KernelType := type } : vtkSQKernelConvolution).Modified with
      KernelModified := 1 }

/-- The method `vtkSQKernelConvolution::SetKernelWidth` (lines 656-676): the instance
and the error messages issued. The test of line 667 is on `this->KernelWidth`,
the width held before the call. -/
def vtkSQKernelConvolution.SetKernelWidth (width : Int) (self : vtkSQKernelConvolution) :
    vtkSQKernelConvolution × List String :=
  if width = self.KernelWidth then
    (self, [])
  else if self.KernelWidth.tmod 2 = 0 then
    (self, ["KernelWidth must be odd."])
  else
    ({ ({ self with KernelWidth := width } : vtkSQKernelConvolution).Modified with
       KernelModified := 1 }, [])

/-- The extent `UpdateKernel` gives the kernel (lines 696-715): `nk2` points
on either side of 0 on every axis, the axis the mode leaves out collapsed to
`[0, 0]`. Any other mode falls through the `switch`. -/
def UpdateKernel.extent (KernelWidth : Int) (Mode : DimMode) : CartesianExtent :=
  let nk2 := KernelWidth.tdiv 2
  let ext : CartesianExtent := ⟨-nk2, nk2, -nk2, nk2, -nk2, nk2⟩
  match Mode with
  | DimMode.DIM_MODE_2D_XY => { ext with klo := 0, khi := 0 }
  | DimMode.DIM_MODE_2D_XZ => { ext with jlo := 0, jhi := 0 }
  | DimMode.DIM_MODE_2D_YZ => { ext with ilo := 0, ihi := 0 }
  | _ => ext

/-- The bound `H` of the outer loop (lines 731 and 761). -/
def UpdateKernel.H (KernelWidth : Int) (Mode : DimMode) : Int :=
  if Mode = DimMode.DIM_MODE_3D then KernelWidth else 1

/-- The loop nest of lines 733-737 and 763-767: the values `(k, j, i)` of the
three counters, in the order in which the body is executed. -/
def UpdateKernel.loopNest (KernelWidth H : Int) : List (Int × Int × Int) :=
  (List.range H.toNat).flatMap fun (k : Nat) =>
    (List.range KernelWidth.toNat).flatMap fun (j : Nat) =>
      (List.range KernelWidth.toNat).map fun (i : Nat) => ((k : Int), (j : Int), (i : Int))

/-- The index `int q = KernelWidth*KernelWidth*k + KernelWidth*j + i` of lines
742 and 772, computed in `int`. -/
def UpdateKernel.q (KernelWidth : Int) (kji : Int × Int × Int) : Int :=
  addInt32
    (addInt32 (mulInt32 (mulInt32 KernelWidth KernelWidth) kji.1)
      (mulInt32 KernelWidth kji.2.1))
    kji.2.2

/-- The indices written by the loop nest, in the order of the writes. -/
def UpdateKernel.writtenIndices (KernelWidth : Int) (Mode : DimMode) : List Int :=
  (UpdateKernel.loopNest KernelWidth (UpdateKernel.H KernelWidth Mode)).map
    (UpdateKernel.q KernelWidth)

/-- The statement `this->Kernel[q]=v`. A write outside the array (`q < 0` or
`q` not below its length) has no defined effect in C++; here it leaves the
array as it is. -/
def UpdateKernel.store (Kernel : List (Option Double)) (q : Int) (v : Double) :
    List (Option Double) :=
  if 0 ≤ q then Kernel.set q.toNat (some v) else Kernel

/-- The loop nest with its body (lines 733-748 and 763-778): each iteration
writes `value k j i` to `Kernel[q]` and adds it to `kernelNorm`. -/
def UpdateKernel.fill (KernelWidth : Int) (Mode : DimMode) (value : Int × Int × Int → Double)
    (Kernel : List (Option Double)) : List (Option Double) × Double :=
  (UpdateKernel.loopNest KernelWidth (UpdateKernel.H KernelWidth Mode)).foldl
    (fun acc kji =>
      (UpdateKernel.store acc.1 (UpdateKernel.q KernelWidth kji) (value kji),
       acc.2 + value kji))
    (Kernel, 0)

/-- The argument `x` of lines 739-740 and 769-770 for the counters
`(k, j, i)`. -/
def UpdateKernel.x (X : List Double) (Mode : DimMode) (kji : Int × Int × Int) :
    Double × Double × Double :=
  (X.getD kji.2.2.toNat 0, X.getD kji.2.1.toNat 0,
   if Mode = DimMode.DIM_MODE_3D then X.getD kji.1.toNat 0 else 0)

/-- The method `vtkSQKernelConvolution::UpdateKernel` (lines 679-818): the instance and
the value returned. -/
def vtkSQKernelConvolution.UpdateKernel (num : Numerics) (self : vtkSQKernelConvolution) :
    vtkSQKernelConvolution × Int :=
  if self.KernelModified = 0 then
    (self, 0)
  else
    let ext := UpdateKernel.extent self.KernelWidth self.Mode
    let self1 : vtkSQKernelConvolution := { self with Kernel := none, KernelExt := ext }
    let size := ext.Size
    let fresh : List (Option Double) := List.replicate size.toNat none
    let X := num.linspace (-1) 1 self.KernelWidth
    let filled : Option (List (Option Double) × Double) :=
      match self.KernelType with
      | KernelTypeId.KERNEL_TYPE_GAUSSIAN =>
        some (UpdateKernel.fill self.KernelWidth self.Mode
          (fun kji => num.Gaussian (UpdateKernel.x X self.Mode kji) 1 (0, 0, 0) (11 / 20)) fresh)
      | KernelTypeId.KERNEL_TYPE_LOG =>
        some (UpdateKernel.fill self.KernelWidth self.Mode
          (fun kji =>
            num.LaplacianOfGaussian (UpdateKernel.x X self.Mode kji) 1 (0, 0, 0) (11 / 20))
          fresh)
      | KernelTypeId.KERNEL_TYPE_CONSTANT =>
        some (fresh.map (fun _ => some 1), (size : Double))
      | KernelTypeId.Other _ => none
    match filled with
    | none => (self1, -1)
    | some (kernel, kernelNorm) =>
      ({ self1 with
          Kernel := some (kernel.map (fun entry => entry.map (fun v => v / kernelNorm)))
          KernelModified := 0 }, 0)

/-- The method `vtkSQKernelConvolution::RequestInformation` (lines 850-917), as far as
the instance is concerned: line 874 assigns `Mode` the result of
`CartesianExtent::GetDimensionMode(inputDomain, nGhosts)`, a function that is
not among the sources and a parameter here. The rest of the method writes the
output information. Returns the instance and the error messages. -/
def vtkSQKernelConvolution.RequestInformation
    (GetDimensionMode : CartesianExtent → Int → DimMode) (inputDomain : CartesianExtent)
    (self : vtkSQKernelConvolution) : vtkSQKernelConvolution × List String :=
  let nGhosts := self.KernelWidth.tdiv 2
  let self1 : vtkSQKernelConvolution := { self with Mode := GetDimensionMode inputDomain nGhosts }
  if self1.Mode = DimMode.DIM_MODE_INVALID then
    (self1, ["Invalid problem domain."])
  else
    (self1, [])

/-- Whether the `int` a kernel type stands for is not negative. The named
kernel types are enumerators of the class, declared in its header, which is
not among the sources; they are taken to be non-negative, like every value
that passes the guard of line 275. -/
def KernelTypeId.isNonNegative : KernelTypeId → Bool
  | KernelTypeId.Other n => decide (0 ≤ n)
  | _ => true

/-- The attributes of the XML element that `Initialize` reads and that reach
the fields modelled here, each `none` when absent. `kernel_type` holds the
kernel type the attribute denotes. -/
structure InitializeAttributes where
  stencil_width : Option Int
  kernel_type : Option KernelTypeId
  number_of_mpi_ranks_to_use_cuda : Option Int
  number_of_active_cuda_devices : Option Int

/-- The method `vtkSQKernelConvolution::Initialize` (lines 253-365), as far as the
fields modelled here are concerned; `elem` is `none` when the element is
missing. The statements on the input arrays, the residual, the logging and
the driver settings are left out. Returns the instance and the value
returned. -/
def vtkSQKernelConvolution.Initialize (driver : CUDAConvolutionDriver)
    (elem : Option InitializeAttributes) (self : vtkSQKernelConvolution) :
    vtkSQKernelConvolution × Int :=
  match elem with
  | none => (self, -1)
  | some attributes =>
    let stencilWidth := attributes.stencil_width.getD 0
    let self1 := if stencilWidth > 2 then (self.SetKernelWidth stencilWidth).1 else self
    let kernelType := attributes.kernel_type.getD (KernelTypeId.Other (-1))
    let self2 := if kernelType.isNonNegative then self1.SetKernelType kernelType else self1
    let numberOfMPIRanksToUseCUDA := attributes.number_of_mpi_ranks_to_use_cuda.getD 0
    if numberOfMPIRanksToUseCUDA ≠ 0 then
      let self3 := self2.SetNumberOfMPIRanksToUseCUDA numberOfMPIRanksToUseCUDA
      let numberOfActiveCUDADevices := attributes.number_of_active_cuda_devices.getD 1
      (self3.SetNumberOfActiveCUDADevices driver numberOfActiveCUDADevices, 0)
    else
      (self2, 0)

/-- The constructor `vtkSQKernelConvolution::vtkSQKernelConvolution` (lines 87-233).
`KernelExt` is the default-constructed extent, a parameter. -/
def vtkSQKernelConvolution.New (driver : CUDAConvolutionDriver) (mpiOk : Bool)
    (hostNames : List String) (WorldRank : Nat) (KernelExt : CartesianExtent) :
    vtkSQKernelConvolution :=
  let topology := constructorHostTopology mpiOk hostNames WorldRank
  let self0 : vtkSQKernelConvolution :=
    { MTime := 0
      WorldSize := if mpiOk then (hostNames.length : Int) else 1
      WorldRank := if mpiOk then (WorldRank : Int) else 0
      HostSize := topology.HostSize
      HostRank := topology.HostRank
      KernelWidth := 3
      KernelType := KernelTypeId.KERNEL_TYPE_GAUSSIAN
      Kernel := none
      KernelExt := KernelExt
      KernelModified := 1
      Mode := DimMode.DIM_MODE_3D
      NumberOfCUDADevices := 0
      NumberOfActiveCUDADevices := 0
      CUDADeviceId := -1
      NumberOfMPIRanksToUseCUDA := 0
      EnableCUDA := 0 }
  let self1 : vtkSQKernelConvolution :=
    { self0 with NumberOfCUDADevices := driver.GetNumberOfDevices }
  if self1.NumberOfCUDADevices ≠ 0 then
    let r := self1.SetCUDADeviceId driver 0
    if r.2 ≠ 0 then
      r.1
    else
      r.1.SetNumberOfActiveCUDADevices driver r.1.NumberOfCUDADevices
  else
    self1.SetNumberOfActiveCUDADevices driver self1.NumberOfCUDADevices

/-- A `vtkDataObject` as `RequestData` inspects it: the names of its class and
of its superclasses, which are what `IsA` compares its argument with. -/
structure vtkDataObject where
  ClassNames : List String
deriving DecidableEq, Repr

/-- The method `vtkObjectBase::IsA(name)`: whether `name` is, character for character,
the name of the class of the object or of one of its superclasses. -/
def vtkDataObject.IsA (object : vtkDataObject) (name : String) : Bool :=
  decide (name ∈ object.ClassNames)

/-- What `RequestData` does that is visible from outside: the errors and the
warning it issues, and the processing of an image, whose body (lines
1078-1274, the only place where output arrays are added) is not embedded. -/
inductive RequestDataEvent where
  | ErrorEmptyInputOrOutput
  | ErrorNotStructuredData
  | ErrorMissingGhostCells
  | ErrorKernelNotCreated
  | ProcessImageData
  | WarningTODOStretchedGrids
deriving DecidableEq, Repr

/-- The method `vtkSQKernelConvolution::RequestData` (lines 989-1292): its control flow.
`inData` and `outData` are `none` for null pointers; `inputContainsOutput` is
the result of the ghost-cell test `inputBox.Contains(outputBox)` of line 1058,
made with functions of `CartesianExtent` that are not among the sources.
Returns the instance, the events and the value returned. -/
def vtkSQKernelConvolution.RequestData (num : Numerics) (inData outData : Option vtkDataObject)
    (inputContainsOutput : Bool) (self : vtkSQKernelConvolution) :
    vtkSQKernelConvolution × List RequestDataEvent × Int :=
  match inData, outData with
  | some inData, some _ =>
    let isImage := inData.IsA "vtkImageData"
    let isRecti := inData.IsA "vtkrectilinearGrid"
    if !isImage && !isRecti then
      (self, [RequestDataEvent.ErrorNotStructuredData], 1)
    else if !inputContainsOutput then
      (self, [RequestDataEvent.ErrorMissingGhostCells], 1)
    else
      let r := self.UpdateKernel num
      if r.2 ≠ 0 then
        (r.1, [RequestDataEvent.ErrorKernelNotCreated], 1)
      else if isImage then
        (r.1, [RequestDataEvent.ProcessImageData], 1)
      else if isRecti then
        (r.1, [RequestDataEvent.WarningTODOStretchedGrids], 1)
      else
        (r.1, [], 1)
  | _, _ => (self, [RequestDataEvent.ErrorEmptyInputOrOutput], 1)

/-! ## The compositing engine -/

/-- Modelled from the spec: the merge rule of the compositing engine (IceT,
which is not among the sources). The spec names depth-compare and
alpha-blending as rules and requires of the chosen rule that it be
commutative and associative. -/
structure MergeRule (Sample : Type) where
  merge : Sample → Sample → Sample
  comm : ∀ a b, merge a b = merge b a
  assoc : ∀ a b c, merge (merge a b) c = merge a (merge b c)

/-- Modelled from the spec: the composite of the partial images of the
processes (the compositing of IceT is not among the sources). The images are
merged pixel by pixel, in the order in which the processes contribute,
starting from the placeholder image. -/
def composite {Sample : Type} (rule : MergeRule Sample) (placeholder : List Sample)
    (images : List (List Sample)) : List Sample :=
  images.foldl (fun acc image => List.zipWith rule.merge acc image) placeholder

/-- Modelled from the spec: the depth-compare rule, nearest wins. A sample is
an ordering key and a colour; between two samples the one with the smaller
key wins, and with equal keys the one with the smaller colour, so that the
outcome does not depend on the order of the two. -/
def nearestWins : MergeRule (Nat × Nat) where
  merge := fun a b => if a.1 < b.1 ∨ (a.1 = b.1 ∧ a.2 ≤ b.2) then a else b
  comm := by
    intro a b
    obtain ⟨a1, a2⟩ := a
    obtain ⟨b1, b2⟩ := b
    simp only
    split_ifs with h1 h2 h2
    · have : a1 = b1 ∧ a2 = b2 := by omega
      rw [this.1, this.2]
    · rfl
    · rfl
    · exfalso; omega
  assoc := by
    intro a b c
    obtain ⟨a1, a2⟩ := a
    obtain ⟨b1, b2⟩ := b
    obtain ⟨c1, c2⟩ := c
    simp only
    split_ifs <;> first | rfl | (exfalso; omega)

/-! ## Sample inputs -/

/-- A sample superclass computation: the window's actual size scaled by its
tile-scale, placed at the lower-left corner of the tile viewport. -/
def sampleSuperclass : SuperclassGetTiledSizeAndOrigin := fun rs =>
  some
    { width := rs.Renderer.RenderWindow.ActualSize.1 * rs.Renderer.RenderWindow.TileScale.1
      height := rs.Renderer.RenderWindow.ActualSize.2 * rs.Renderer.RenderWindow.TileScale.2
      originX := if rs.Renderer.RenderWindow.TileViewport.xmin = 0 then 10 else 330
      originY := if rs.Renderer.RenderWindow.TileViewport.ymin = 0 then 20 else 260 }

/-- A superclass computation that does not return. -/
def failingSuperclass : SuperclassGetTiledSizeAndOrigin := fun _ => none

/-- A 640x480 window showing the upper-right tile of a 2x2 display. -/
def sampleWindow : vtkRenderWindow :=
  { TileScale := (2, 2), TileViewport := ⟨1/2, 1/2, 1, 1⟩, ActualSize := (640, 480) }

/-- A renderer covering the left half of `sampleWindow`. -/
def sampleRenderer : vtkRenderer :=
  { Viewport := ⟨0, 0, 1/2, 1⟩, RenderWindow := sampleWindow }

/-- The render state of `sampleRenderer`. -/
def sampleRenderState : vtkRenderState := ⟨sampleRenderer⟩

/-- A composite pass with the given tile dimensions. -/
def samplePass (dx dy : Int) : vtkIceTCompositePass :=
  { TileDimensions := (dx, dy), ImageReductionFactor := 1,
    PhysicalViewport := ⟨0, 0, 1/2, 1⟩,
    LastRenderedTile := { Valid := false, Size := (0, 0), Data := [] } }

/-- A valid 2x1 image. -/
def imageA : vtkRawImage := { Valid := true, Size := (2, 1), Data := [1, 2, 3, 4, 5, 6, 7, 8] }

/-- Another valid image. -/
def imageB : vtkRawImage := { Valid := true, Size := (1, 1), Data := [9, 9, 9, 9] }

/-- An invalid image. -/
def invalidImage : vtkRawImage := { Valid := false, Size := (0, 0), Data := [] }

/-- A tile map with a valid tile on the left half, an invalid tile, and a
valid tile on the right half. -/
def sampleTilesMap : TilesMapType :=
  [(100, { TileImage := imageA, PhysicalViewport := ⟨0, 0, 1/2, 1⟩,
           GlobalViewport := ⟨0, 0, 1/4, 1/2⟩ }),
   (200, { TileImage := invalidImage, PhysicalViewport := ⟨0, 0, 1, 1⟩,
           GlobalViewport := ⟨0, 0, 1, 1⟩ }),
   (300, { TileImage := imageB, PhysicalViewport := ⟨1/2, 0, 1, 1⟩,
           GlobalViewport := ⟨1/4, 0, 1/2, 1/2⟩ })]

/-- A paste that fails (returns `false`) for `imageB` and succeeds otherwise. -/
def samplePush : PushToViewportFn := fun image _ => decide (image ≠ imageB)

/-- Collaborators for the samples: a getter that reads the factor of the
composite pass, a superclass handler that changes nothing, a frame buffer
read-back that yields `imageA`, and `samplePush`. -/
def sampleCollaborators : Collaborators :=
  { GetImageReductionFactor := fun self => self.IceTCompositePass.ImageReductionFactor
    Superclass_HandleEndRender := fun self => self
    Capture := fun _ _ => imageA
    PushToViewport := samplePush
    indeterminate := ⟨0, 0, 0, 0⟩ }

/-- An instance that writes back its images and whose composite pass holds
the given last tile, to be placed on the right half of the window. -/
def sampleInstance (tile : vtkRawImage) : vtkIceTSynchronizedRenderers :=
  { WriteBackImages := true
    Renderer := sampleRenderer
    IceTCompositePass :=
      { TileDimensions := (1, 1), ImageReductionFactor := 1,
        PhysicalViewport := ⟨1/2, 0, 1, 1⟩, LastRenderedTile := tile }
    ImagePastingPass := { Image := invalidImage }
    ImageProcessingPass := none
    ImageReductionFactor := 1
    FullImage := invalidImage
    ReducedImage := invalidImage }

/-- An instance like `sampleInstance` with an image-processing pass set. -/
def sampleProcessingInstance (tile : vtkRawImage) : vtkIceTSynchronizedRenderers :=
  { sampleInstance tile with ImageProcessingPass := some { DelegatePass := none } }

/-- A context in which everything `SetupContext` switches off is on, the
viewport is a corner of the window, and the colour buffer holds two opaque
red pixels. -/
def sampleContext : GraphicsContext :=
  { icetEnabled := [IceTOption.ICET_DISPLAY, IceTOption.Other 7,
      IceTOption.ICET_CORRECT_COLORED_BACKGROUND, IceTOption.ICET_DISPLAY_INFLATE]
    glEnabled := [GLCapability.GL_SCISSOR_TEST, GLCapability.Other 3]
    glViewportBox := (10, 10, 100, 100)
    glClearColorValue := ⟨1, 1, 1, 1⟩
    ColorBuffer := [⟨1, 0, 0, 1⟩, ⟨1, 0, 0, 1⟩] }

/-- A superclass `SetupContext` that switches the display options on and
sets a white clear colour. -/
def sampleSuperclassSetupContext : SuperclassSetupContext := fun _ ctx =>
  { ctx with
    icetEnabled := IceTOption.ICET_DISPLAY :: IceTOption.ICET_CORRECT_COLORED_BACKGROUND ::
      ctx.icetEnabled
    glClearColorValue := ⟨1, 1, 1, 1⟩ }

/-- Two ranks on two hosts whose names start with the same character. -/
def sampleHostNames : List String := ["node1", "node2"]

/-- A CUDA driver that reports two devices and accepts every device id. -/
def sampleDriver : CUDAConvolutionDriver :=
  { GetNumberOfDevices := 2, SetDeviceId := fun _ => 0 }

/-- Numerics for the samples: `n` equally spaced values, and kernel functions
that give 1 everywhere. -/
def sampleNumerics : Numerics :=
  { linspace := fun lo hi n =>
      (List.range n.toNat).map (fun (i : Nat) => lo + (hi - lo) * (i : Double) / ((n : Double) - 1))
    Gaussian := fun _ _ _ _ => 1
    LaplacianOfGaussian := fun _ _ _ _ => 1 }

/-- A filter as constructed outside MPI on a machine with two CUDA devices. -/
def sampleFilter : vtkSQKernelConvolution :=
  vtkSQKernelConvolution.New sampleDriver false [] 0 ⟨1, 0, 1, 0, 1, 0⟩

/-- A rectilinear grid: an object of class `vtkRectilinearGrid`. -/
def sampleRectilinearGrid : vtkDataObject :=
  { ClassNames := ["vtkRectilinearGrid", "vtkDataSet", "vtkDataObject", "vtkObject",
      "vtkObjectBase"] }

/-- An image: an object of class `vtkImageData`. -/
def sampleImageData : vtkDataObject :=
  { ClassNames := ["vtkImageData", "vtkDataSet", "vtkDataObject", "vtkObject",
      "vtkObjectBase"] }

/-- A `GetDimensionMode` that finds a domain two-dimensional in XY when it is
one point thick along the third axis. -/
def sampleGetDimensionMode : CartesianExtent → Int → DimMode := fun ext _ =>
  if ext.klo = ext.khi then DimMode.DIM_MODE_2D_XY else DimMode.DIM_MODE_3D

/-- Partial images of three processes, two pixels each, as (key, colour). -/
def samplePartialImages : List (List (Nat × Nat)) :=
  [[(5, 1), (9, 1)], [(3, 2), (9, 2)], [(7, 3), (2, 3)]]

/-- The sample filter after `UpdateKernel`: it holds the kernel of width 3 for
the 3D mode, and the kernel is not marked modified. -/
def sampleFilterWithKernel : vtkSQKernelConvolution :=
  (sampleFilter.UpdateKernel sampleNumerics).1

/-- The filter with its kernel after `RequestInformation` on an input domain
that is one cell thick along the third axis. -/
def sampleFilterAfterRequestInformation : vtkSQKernelConvolution :=
  (sampleFilterWithKernel.RequestInformation sampleGetDimensionMode ⟨0, 9, 0, 9, 0, 0⟩).1

end ParaView

namespace ParaView

/-! ## `vtkMyCameraPass::GetTiledSizeAndOrigin` -/

/-- An exact result that is in the range of `int` is the value the `int`
holds. -/
theorem wrapInt32_of_inInt32 (x : Int) (h : InInt32 x) : wrapInt32 x = x := by
  unfold InInt32 at h
  unfold wrapInt32
  omega

/-- The value an `int` holds is in the range of `int`. -/
theorem inInt32_wrapInt32 (x : Int) : InInt32 (wrapInt32 x) := by
  unfold InInt32 wrapInt32
  omega

/-- A product that is in the range of `int` is computed exactly. -/
theorem mulInt32_of_inInt32 (a b : Int) (h : InInt32 (a * b)) : mulInt32 a b = a * b :=
  wrapInt32_of_inInt32 _ h

/-- A product by 0 is 0. -/
theorem mulInt32_zero (a : Int) : mulInt32 a 0 = 0 := by
  simp [mulInt32, wrapInt32]

/-- C1: in tile-display mode (`dx > 1` or `dy > 1`) `GetTiledSizeAndOrigin`
returns `(width*dx, height*dy, originX*dx, originY*dy)`, where
`(width, height, originX, originY)` is what the superclass computation yields
on the window with tile-scale forced to `(1,1)` and tile-viewport forced to
`(0,0,1,1)`. The products are those of the C++ `int`s, for every input; they
are the exact products whenever these are in the range of `int`. -/
theorem GetTiledSizeAndOrigin_tile_display
    (Superclass : SuperclassGetTiledSizeAndOrigin) (IceTCompositePass : vtkIceTCompositePass)
    (render_state : vtkRenderState)
    (h : IceTCompositePass.TileDimensions.1 > 1 ∨ IceTCompositePass.TileDimensions.2 > 1) :
    (vtkMyCameraPass.GetTiledSizeAndOrigin Superclass IceTCompositePass render_state).result =
      (Superclass
        ⟨{ render_state.Renderer with
            RenderWindow := { render_state.Renderer.RenderWindow with
              TileScale := (1, 1), TileViewport := ⟨0, 0, 1, 1⟩ } }⟩).map
        (fun r =>
          { width := mulInt32 r.width IceTCompositePass.TileDimensions.1
            height := mulInt32 r.height IceTCompositePass.TileDimensions.2
            originX := mulInt32 r.originX IceTCompositePass.TileDimensions.1
            originY := mulInt32 r.originY IceTCompositePass.TileDimensions.2 }) ∧
    ∀ r : TiledSizeAndOrigin,
      Superclass
        ⟨{ render_state.Renderer with
            RenderWindow := { render_state.Renderer.RenderWindow with
              TileScale := (1, 1), TileViewport := ⟨0, 0, 1, 1⟩ } }⟩ = some r →
      InInt32 (r.width * IceTCompositePass.TileDimensions.1) →
      InInt32 (r.height * IceTCompositePass.TileDimensions.2) →
      InInt32 (r.originX * IceTCompositePass.TileDimensions.1) →
      InInt32 (r.originY * IceTCompositePass.TileDimensions.2) →
      (vtkMyCameraPass.GetTiledSizeAndOrigin Superclass IceTCompositePass render_state).result =
        some
          { width := r.width * IceTCompositePass.TileDimensions.1
            height := r.height * IceTCompositePass.TileDimensions.2
            originX := r.originX * IceTCompositePass.TileDimensions.1
            originY := r.originY * IceTCompositePass.TileDimensions.2 } := by
  have hres :
      (vtkMyCameraPass.GetTiledSizeAndOrigin Superclass IceTCompositePass render_state).result =
      (Superclass
        ⟨{ render_state.Renderer with
            RenderWindow := { render_state.Renderer.RenderWindow with
              TileScale := (1, 1), TileViewport := ⟨0, 0, 1, 1⟩ } }⟩).map
        (fun r =>
          { width := mulInt32 r.width IceTCompositePass.TileDimensions.1
            height := mulInt32 r.height IceTCompositePass.TileDimensions.2
            originX := mulInt32 r.originX IceTCompositePass.TileDimensions.1
            originY := mulInt32 r.originY IceTCompositePass.TileDimensions.2 }) := by
    unfold vtkMyCameraPass.GetTiledSizeAndOrigin
    simp only [if_pos h, vtkRenderer.SetTileScale, vtkRenderer.SetTileViewport, fullViewport]
    cases hS : Superclass
      ⟨{ render_state.Renderer with
          RenderWindow := { render_state.Renderer.RenderWindow with
            TileScale := (1, 1), TileViewport := ⟨0, 0, 1, 1⟩ } }⟩ <;> simp
  refine ⟨hres, ?_⟩
  intro r hr hw hh hx hy
  rw [hres, hr, Option.map_some', mulInt32_of_inInt32 _ _ hw, mulInt32_of_inInt32 _ _ hh,
    mulInt32_of_inInt32 _ _ hx, mulInt32_of_inInt32 _ _ hy]

/-- Witness of C1: a 3x2 tile display; the superclass computation sees
tile-scale `(1,1)` and the full tile viewport, hence `640x480` at `(10,20)`,
and the result is scaled by `(3,2)`. -/
theorem GetTiledSizeAndOrigin_tile_display_witness :
    ((samplePass 3 2).TileDimensions.1 > 1 ∨ (samplePass 3 2).TileDimensions.2 > 1) ∧
    (vtkMyCameraPass.GetTiledSizeAndOrigin sampleSuperclass (samplePass 3 2)
        sampleRenderState).result =
      some { width := 1920, height := 960, originX := 30, originY := 40 } :=
  ⟨by decide,
   (GetTiledSizeAndOrigin_tile_display sampleSuperclass (samplePass 3 2) sampleRenderState
      (by decide)).2 { width := 640, height := 480, originX := 10, originY := 20 }
      (by decide) (by decide) (by decide) (by decide) (by decide)⟩

/-- C2: with tile dimensions `(1,1)` `GetTiledSizeAndOrigin` returns exactly
what the superclass computation yields on the unmodified render state, makes
no call at all (so none that writes the tile-scale or the tile-viewport) and
leaves the render state as it was. -/
theorem GetTiledSizeAndOrigin_single_tile
    (Superclass : SuperclassGetTiledSizeAndOrigin) (IceTCompositePass : vtkIceTCompositePass)
    (render_state : vtkRenderState)
    (h : IceTCompositePass.TileDimensions = (1, 1)) :
    (vtkMyCameraPass.GetTiledSizeAndOrigin Superclass IceTCompositePass render_state).result =
        Superclass render_state ∧
    (vtkMyCameraPass.GetTiledSizeAndOrigin Superclass IceTCompositePass render_state).calls = [] ∧
    (vtkMyCameraPass.GetTiledSizeAndOrigin Superclass IceTCompositePass render_state).state =
        render_state := by
  unfold vtkMyCameraPass.GetTiledSizeAndOrigin
  simp [h]

/-- Witness of C2: on the sample window, whose tile-scale is `(2,2)`, the
superclass result `1280x960` at `(330,260)` is returned unchanged. -/
theorem GetTiledSizeAndOrigin_single_tile_witness :
    (samplePass 1 1).TileDimensions = (1, 1) ∧
    (vtkMyCameraPass.GetTiledSizeAndOrigin sampleSuperclass (samplePass 1 1)
        sampleRenderState).result =
      some { width := 1280, height := 960, originX := 330, originY := 260 } ∧
    (vtkMyCameraPass.GetTiledSizeAndOrigin sampleSuperclass (samplePass 1 1)
        sampleRenderState).calls = [] :=
  ⟨by decide,
   (GetTiledSizeAndOrigin_single_tile sampleSuperclass (samplePass 1 1) sampleRenderState
      (by decide)).1.trans
      (by simp [sampleSuperclass, sampleRenderState, sampleRenderer, sampleWindow]),
   (GetTiledSizeAndOrigin_single_tile sampleSuperclass (samplePass 1 1) sampleRenderState
      (by decide)).2.1⟩

/-- C3: for every window state and all tile dimensions, once
`GetTiledSizeAndOrigin` has returned, the window's tile-scale and
tile-viewport are the ones it had before the call. -/
theorem GetTiledSizeAndOrigin_restores_tile_settings
    (Superclass : SuperclassGetTiledSizeAndOrigin) (IceTCompositePass : vtkIceTCompositePass)
    (render_state : vtkRenderState)
    (hret : (vtkMyCameraPass.GetTiledSizeAndOrigin Superclass IceTCompositePass
      render_state).result.isSome = true) :
    (vtkMyCameraPass.GetTiledSizeAndOrigin Superclass IceTCompositePass
        render_state).state.Renderer.RenderWindow.TileScale =
      render_state.Renderer.RenderWindow.TileScale ∧
    (vtkMyCameraPass.GetTiledSizeAndOrigin Superclass IceTCompositePass
        render_state).state.Renderer.RenderWindow.TileViewport =
      render_state.Renderer.RenderWindow.TileViewport := by
  revert hret
  unfold vtkMyCameraPass.GetTiledSizeAndOrigin
  by_cases h : IceTCompositePass.TileDimensions.1 > 1 ∨ IceTCompositePass.TileDimensions.2 > 1
  · simp only [if_pos h]
    cases hS : Superclass
      ⟨(render_state.Renderer.SetTileScale (1, 1)).SetTileViewport fullViewport⟩ <;>
      simp [vtkRenderer.SetTileScale, vtkRenderer.SetTileViewport]
  · simp [if_neg h]

/-- Witness of C3: a 2x2 tile display over the sample window, whose
tile-scale `(2,2)` and tile-viewport `(1/2,1/2,1,1)` differ from the values
forced during the call. -/
theorem GetTiledSizeAndOrigin_restores_tile_settings_witness :
    (vtkMyCameraPass.GetTiledSizeAndOrigin sampleSuperclass (samplePass 2 2)
        sampleRenderState).result.isSome = true ∧
    (vtkMyCameraPass.GetTiledSizeAndOrigin sampleSuperclass (samplePass 2 2)
        sampleRenderState).state.Renderer.RenderWindow.TileScale = (2, 2) ∧
    (vtkMyCameraPass.GetTiledSizeAndOrigin sampleSuperclass (samplePass 2 2)
        sampleRenderState).state.Renderer.RenderWindow.TileViewport = ⟨1/2, 1/2, 1, 1⟩ :=
  ⟨by simp [vtkMyCameraPass.GetTiledSizeAndOrigin, samplePass, sampleSuperclass],
   (GetTiledSizeAndOrigin_restores_tile_settings sampleSuperclass (samplePass 2 2)
      sampleRenderState
      (by simp [vtkMyCameraPass.GetTiledSizeAndOrigin, samplePass, sampleSuperclass])).1,
   (GetTiledSizeAndOrigin_restores_tile_settings sampleSuperclass (samplePass 2 2)
      sampleRenderState
      (by simp [vtkMyCameraPass.GetTiledSizeAndOrigin, samplePass, sampleSuperclass])).2⟩

/-- C4, counterexample: on a 2x2 tile display, when the superclass
computation does not return, the call ends with the window at tile-scale
`(1,1)` and tile-viewport `(0,0,1,1)` although it had `(2,2)` and
`(1/2,1/2,1,1)` before: nothing undoes the reset on that path. -/
theorem GetTiledSizeAndOrigin_failure_not_restored :
    ((samplePass 2 2).TileDimensions.1 > 1 ∨ (samplePass 2 2).TileDimensions.2 > 1) ∧
    (vtkMyCameraPass.GetTiledSizeAndOrigin failingSuperclass (samplePass 2 2)
        sampleRenderState).result = none ∧
    sampleRenderState.Renderer.RenderWindow.TileScale = (2, 2) ∧
    (vtkMyCameraPass.GetTiledSizeAndOrigin failingSuperclass (samplePass 2 2)
        sampleRenderState).state.Renderer.RenderWindow.TileScale = (1, 1) ∧
    (vtkMyCameraPass.GetTiledSizeAndOrigin failingSuperclass (samplePass 2 2)
        sampleRenderState).state.Renderer.RenderWindow.TileScale ≠
      sampleRenderState.Renderer.RenderWindow.TileScale ∧
    (vtkMyCameraPass.GetTiledSizeAndOrigin failingSuperclass (samplePass 2 2)
        sampleRenderState).state.Renderer.RenderWindow.TileViewport ≠
      sampleRenderState.Renderer.RenderWindow.TileViewport := by
  simp [vtkMyCameraPass.GetTiledSizeAndOrigin, samplePass, failingSuperclass, sampleRenderState,
    sampleRenderer, sampleWindow, vtkRenderer.SetTileScale, vtkRenderer.SetTileViewport,
    fullViewport]
  decide

/-- C4, amended: in tile-display mode the tile-scale and tile-viewport are
restored when the superclass computation returns; when it does not return,
`GetTiledSizeAndOrigin` does not return either, the only calls made are the
two that reset the window, and the window is left at tile-scale `(1,1)` and
tile-viewport `(0,0,1,1)`. -/
theorem GetTiledSizeAndOrigin_tile_display_exit_state
    (Superclass : SuperclassGetTiledSizeAndOrigin) (IceTCompositePass : vtkIceTCompositePass)
    (render_state : vtkRenderState)
    (h : IceTCompositePass.TileDimensions.1 > 1 ∨ IceTCompositePass.TileDimensions.2 > 1) :
    (∀ r, Superclass
        ⟨(render_state.Renderer.SetTileScale (1, 1)).SetTileViewport fullViewport⟩ = some r →
      (vtkMyCameraPass.GetTiledSizeAndOrigin Superclass IceTCompositePass
          render_state).state.Renderer.RenderWindow.TileScale =
        render_state.Renderer.RenderWindow.TileScale ∧
      (vtkMyCameraPass.GetTiledSizeAndOrigin Superclass IceTCompositePass
          render_state).state.Renderer.RenderWindow.TileViewport =
        render_state.Renderer.RenderWindow.TileViewport) ∧
    (Superclass
        ⟨(render_state.Renderer.SetTileScale (1, 1)).SetTileViewport fullViewport⟩ = none →
      (vtkMyCameraPass.GetTiledSizeAndOrigin Superclass IceTCompositePass
          render_state).result = none ∧
      (vtkMyCameraPass.GetTiledSizeAndOrigin Superclass IceTCompositePass
          render_state).calls = [Call.SetTileScale 1 1, Call.SetTileViewport ⟨0, 0, 1, 1⟩] ∧
      (vtkMyCameraPass.GetTiledSizeAndOrigin Superclass IceTCompositePass
          render_state).state.Renderer.RenderWindow.TileScale = (1, 1) ∧
      (vtkMyCameraPass.GetTiledSizeAndOrigin Superclass IceTCompositePass
          render_state).state.Renderer.RenderWindow.TileViewport = ⟨0, 0, 1, 1⟩) := by
  unfold vtkMyCameraPass.GetTiledSizeAndOrigin
  simp only [if_pos h]
  constructor
  · intro r hr
    simp only [hr]
    simp [vtkRenderer.SetTileScale, vtkRenderer.SetTileViewport]
  · intro hn
    simp only [hn]
    simp [vtkRenderer.SetTileScale, vtkRenderer.SetTileViewport, fullViewport]

/-- Witness of the amended C4, on the path where the superclass computation
does not return. -/
theorem GetTiledSizeAndOrigin_tile_display_exit_state_witness :
    ((samplePass 2 2).TileDimensions.1 > 1 ∨ (samplePass 2 2).TileDimensions.2 > 1) ∧
    failingSuperclass
      ⟨(sampleRenderState.Renderer.SetTileScale (1, 1)).SetTileViewport fullViewport⟩ = none ∧
    (vtkMyCameraPass.GetTiledSizeAndOrigin failingSuperclass (samplePass 2 2)
        sampleRenderState).state.Renderer.RenderWindow.TileScale = (1, 1) :=
  ⟨by decide, rfl,
   ((GetTiledSizeAndOrigin_tile_display_exit_state failingSuperclass (samplePass 2 2)
      sampleRenderState (by decide)).2 rfl).2.2.1⟩

/-- C5, counterexample: with the zero tile layout `(0,0)` the call reports
nothing and returns a region, the one of the superclass computation; with
`(0,2)` it returns a region of width 0. -/
theorem GetTiledSizeAndOrigin_zero_tiles_returns_region :
    (vtkMyCameraPass.GetTiledSizeAndOrigin sampleSuperclass (samplePass 0 0)
        sampleRenderState).result =
      some { width := 1280, height := 960, originX := 330, originY := 260 } ∧
    (vtkMyCameraPass.GetTiledSizeAndOrigin sampleSuperclass (samplePass 0 2)
        sampleRenderState).result =
      some { width := 0, height := 960, originX := 0, originY := 40 } := by
  simp [vtkMyCameraPass.GetTiledSizeAndOrigin, samplePass, sampleSuperclass, sampleRenderState,
    sampleRenderer, sampleWindow, vtkRenderer.SetTileScale, vtkRenderer.SetTileViewport,
    fullViewport, mulInt32, wrapInt32]

/-- C5, amended: a tile layout with a zero dimension is not rejected. If the
other dimension is at most 1 the call returns the superclass region of the
unmodified window; if the other dimension exceeds 1 it returns the superclass
region (computed with tile-scale `(1,1)` and the full tile viewport) scaled
by the dimensions, so the extent and origin along the zero dimension are 0.
The scaling along the other dimension is the product of the C++ `int`s, which
is the exact product whenever that is in the range of `int`. -/
theorem GetTiledSizeAndOrigin_zero_dimension
    (Superclass : SuperclassGetTiledSizeAndOrigin) (IceTCompositePass : vtkIceTCompositePass)
    (render_state : vtkRenderState)
    (h0 : IceTCompositePass.TileDimensions.1 = 0 ∨ IceTCompositePass.TileDimensions.2 = 0) :
    (vtkMyCameraPass.GetTiledSizeAndOrigin Superclass IceTCompositePass render_state).result =
      (if IceTCompositePass.TileDimensions.1 > 1 then
        (Superclass
          ⟨(render_state.Renderer.SetTileScale (1, 1)).SetTileViewport fullViewport⟩).map
          (fun r =>
            { width := mulInt32 r.width IceTCompositePass.TileDimensions.1, height := 0
              originX := mulInt32 r.originX IceTCompositePass.TileDimensions.1, originY := 0 })
      else if IceTCompositePass.TileDimensions.2 > 1 then
        (Superclass
          ⟨(render_state.Renderer.SetTileScale (1, 1)).SetTileViewport fullViewport⟩).map
          (fun r =>
            { width := 0, height := mulInt32 r.height IceTCompositePass.TileDimensions.2
              originX := 0, originY := mulInt32 r.originY IceTCompositePass.TileDimensions.2 })
      else
        Superclass render_state) ∧
    (∀ r : TiledSizeAndOrigin,
      (InInt32 (r.width * IceTCompositePass.TileDimensions.1) →
        mulInt32 r.width IceTCompositePass.TileDimensions.1 =
          r.width * IceTCompositePass.TileDimensions.1) ∧
      (InInt32 (r.originX * IceTCompositePass.TileDimensions.1) →
        mulInt32 r.originX IceTCompositePass.TileDimensions.1 =
          r.originX * IceTCompositePass.TileDimensions.1) ∧
      (InInt32 (r.height * IceTCompositePass.TileDimensions.2) →
        mulInt32 r.height IceTCompositePass.TileDimensions.2 =
          r.height * IceTCompositePass.TileDimensions.2) ∧
      (InInt32 (r.originY * IceTCompositePass.TileDimensions.2) →
        mulInt32 r.originY IceTCompositePass.TileDimensions.2 =
          r.originY * IceTCompositePass.TileDimensions.2)) := by
  refine ⟨?_, fun r => ⟨mulInt32_of_inInt32 _ _, mulInt32_of_inInt32 _ _,
    mulInt32_of_inInt32 _ _, mulInt32_of_inInt32 _ _⟩⟩
  unfold vtkMyCameraPass.GetTiledSizeAndOrigin
  by_cases h1 : IceTCompositePass.TileDimensions.1 > 1
  · have h2 : IceTCompositePass.TileDimensions.2 = 0 := by
      rcases h0 with h0 | h0
      · omega
      · exact h0
    simp only [if_pos h1, if_pos (Or.inl h1 :
      IceTCompositePass.TileDimensions.1 > 1 ∨ IceTCompositePass.TileDimensions.2 > 1)]
    cases hS : Superclass
      ⟨(render_state.Renderer.SetTileScale (1, 1)).SetTileViewport fullViewport⟩ <;>
      simp [h2, mulInt32_zero]
  · by_cases h2 : IceTCompositePass.TileDimensions.2 > 1
    · have h3 : IceTCompositePass.TileDimensions.1 = 0 := by
        rcases h0 with h0 | h0
        · exact h0
        · omega
      simp only [if_neg h1, if_pos h2, if_pos (Or.inr h2 :
        IceTCompositePass.TileDimensions.1 > 1 ∨ IceTCompositePass.TileDimensions.2 > 1)]
      cases hS : Superclass
        ⟨(render_state.Renderer.SetTileScale (1, 1)).SetTileViewport fullViewport⟩ <;>
        simp [h3, mulInt32_zero]
    · have h3 : ¬ (IceTCompositePass.TileDimensions.1 > 1 ∨
          IceTCompositePass.TileDimensions.2 > 1) := by
        rintro (h | h)
        · exact h1 h
        · exact h2 h
      simp only [if_neg h1, if_neg h2, if_neg h3]

/-- Witness of the amended C5 on the layout `(0,2)`. -/
theorem GetTiledSizeAndOrigin_zero_dimension_witness :
    ((samplePass 0 2).TileDimensions.1 = 0 ∨ (samplePass 0 2).TileDimensions.2 = 0) ∧
    (vtkMyCameraPass.GetTiledSizeAndOrigin sampleSuperclass (samplePass 0 2)
        sampleRenderState).result =
      some { width := 0, height := 960, originX := 0, originY := 40 } :=
  ⟨by decide,
   (GetTiledSizeAndOrigin_zero_dimension sampleSuperclass (samplePass 0 2) sampleRenderState
      (by decide)).1.trans (by decide)⟩

/-! ## `FlushTiles` and `vtkMyImagePasterPass::Render` -/

/-- One iteration of the loop of `FlushTiles` leaves the renderer as it
found it. -/
theorem FlushTiles_body_state (PushToViewport : PushToViewportFn) (tile : vtkTile)
    (renderer : vtkRenderer) :
    (FlushTiles.body PushToViewport tile renderer).state = renderer := by
  unfold FlushTiles.body
  split <;> rfl

/-- The loop of `FlushTiles` leaves the renderer as it found it. -/
theorem FlushTiles_state (PushToViewport : PushToViewportFn) (TilesMap : TilesMapType)
    (renderer : vtkRenderer) :
    (FlushTiles PushToViewport TilesMap renderer).state = renderer := by
  induction TilesMap generalizing renderer with
  | nil => rfl
  | cons entry rest ih =>
    obtain ⟨k, tile⟩ := entry
    simp only [FlushTiles, ih, FlushTiles_body_state]

/-- Running `FlushTiles` over a map split in two parts is running it over
the first part and then, from the state reached, over the second. -/
theorem FlushTiles_append (PushToViewport : PushToViewportFn) (M₁ M₂ : TilesMapType)
    (renderer : vtkRenderer) :
    (FlushTiles PushToViewport (M₁ ++ M₂) renderer).state =
      (FlushTiles PushToViewport M₂ (FlushTiles PushToViewport M₁ renderer).state).state ∧
    (FlushTiles PushToViewport (M₁ ++ M₂) renderer).calls =
      (FlushTiles PushToViewport M₁ renderer).calls ++
        (FlushTiles PushToViewport M₂ (FlushTiles PushToViewport M₁ renderer).state).calls := by
  induction M₁ generalizing renderer with
  | nil => simp [FlushTiles]
  | cons entry rest ih =>
    obtain ⟨k, tile⟩ := entry
    have h := ih (FlushTiles.body PushToViewport tile renderer).state
    show (FlushTiles PushToViewport ((k, tile) :: (rest ++ M₂)) renderer).state = _ ∧
      (FlushTiles PushToViewport ((k, tile) :: (rest ++ M₂)) renderer).calls = _
    simp only [FlushTiles, List.append_assoc]
    exact ⟨h.1, by rw [h.2]⟩

/-- The pastes of a concatenation of calls. -/
theorem pastes_append (xs ys : List Call) : pastes (xs ++ ys) = pastes xs ++ pastes ys := by
  induction xs with
  | nil => rfl
  | cons c rest ih => cases c <;> simp [pastes, ih]

/-- C6: for every content of the tile map, every renderer and every paste
behaviour (successful or failing pastes alike), the renderer's viewport and
the window's tile-scale are, after `FlushTiles` has processed any number `n`
of entries and after it has returned, equal to their values before the call.
The last conjunct says that the state after `n` entries is the one from which
the remaining entries are processed. -/
theorem FlushTiles_restores_viewport_and_tile_scale (PushToViewport : PushToViewportFn)
    (TilesMap : TilesMapType) (renderer : vtkRenderer) (n : Nat) :
    (FlushTiles PushToViewport (TilesMap.take n) renderer).state.Viewport = renderer.Viewport ∧
    (FlushTiles PushToViewport (TilesMap.take n) renderer).state.RenderWindow.TileScale =
      renderer.RenderWindow.TileScale ∧
    (FlushTiles PushToViewport TilesMap renderer).state.Viewport = renderer.Viewport ∧
    (FlushTiles PushToViewport TilesMap renderer).state.RenderWindow.TileScale =
      renderer.RenderWindow.TileScale ∧
    (FlushTiles PushToViewport TilesMap renderer).calls =
      (FlushTiles PushToViewport (TilesMap.take n) renderer).calls ++
        (FlushTiles PushToViewport (TilesMap.drop n)
          (FlushTiles PushToViewport (TilesMap.take n) renderer).state).calls := by
  refine ⟨by rw [FlushTiles_state], by rw [FlushTiles_state], by rw [FlushTiles_state],
    by rw [FlushTiles_state], ?_⟩
  have h := (FlushTiles_append PushToViewport (TilesMap.take n) (TilesMap.drop n) renderer).2
  rwa [List.take_append_drop] at h

/-- Witness of C6 on the sample map, whose second paste fails: after the
first two entries and at the end the viewport and the tile-scale are the
original ones. -/
theorem FlushTiles_restores_viewport_and_tile_scale_witness :
    (pastes (FlushTiles samplePush sampleTilesMap sampleRenderer).calls).map
        (fun paste => paste.2.2) = [true, false] ∧
    (FlushTiles samplePush (sampleTilesMap.take 2) sampleRenderer).state.Viewport =
      sampleRenderer.Viewport ∧
    (FlushTiles samplePush sampleTilesMap sampleRenderer).state.Viewport =
      sampleRenderer.Viewport ∧
    (FlushTiles samplePush sampleTilesMap sampleRenderer).state.RenderWindow.TileScale =
      sampleRenderer.RenderWindow.TileScale :=
  ⟨by simp [FlushTiles, FlushTiles.body, pastes, sampleTilesMap, samplePush, imageA, imageB,
      invalidImage, vtkRawImage.IsValid],
   (FlushTiles_restores_viewport_and_tile_scale samplePush sampleTilesMap sampleRenderer 2).1,
   (FlushTiles_restores_viewport_and_tile_scale samplePush sampleTilesMap sampleRenderer 2).2.2.1,
   (FlushTiles_restores_viewport_and_tile_scale samplePush sampleTilesMap
      sampleRenderer 2).2.2.2.1⟩

/-- C7: `FlushTiles` performs exactly one paste per entry of the tile map
that holds a valid image, in the order of the map; each paste is of the
entry's image and is made with the renderer's viewport equal to the entry's
`PhysicalViewport` and the window's tile-scale equal to `(1,1)`. -/
theorem FlushTiles_pastes (PushToViewport : PushToViewportFn) (TilesMap : TilesMapType)
    (renderer : vtkRenderer) :
    pastes (FlushTiles PushToViewport TilesMap renderer).calls =
      ((TilesMap.map Prod.snd).filter (fun tile => tile.TileImage.IsValid)).map
        (fun tile =>
          (tile.TileImage,
           ({ Viewport := tile.PhysicalViewport
              RenderWindow := { renderer.RenderWindow with TileScale := (1, 1) } } : vtkRenderer),
           PushToViewport tile.TileImage
             { Viewport := tile.PhysicalViewport
               RenderWindow := { renderer.RenderWindow with TileScale := (1, 1) } })) := by
  induction TilesMap with
  | nil => rfl
  | cons entry rest ih =>
    obtain ⟨k, tile⟩ := entry
    simp only [FlushTiles, pastes_append, FlushTiles_body_state, ih, List.map_cons]
    by_cases hv : tile.TileImage.IsValid = true
    · simp [FlushTiles.body, hv, pastes, vtkRenderer.SetViewport, vtkRenderer.SetTileScale]
    · simp [FlushTiles.body, hv, pastes]

/-- Witness of C7 on the sample map: two valid entries, two pastes, each in
its own physical viewport with tile-scale `(1,1)`. -/
theorem FlushTiles_pastes_witness :
    (pastes (FlushTiles samplePush sampleTilesMap sampleRenderer).calls).map
        (fun paste => (paste.1, paste.2.1.Viewport, paste.2.1.RenderWindow.TileScale)) =
      [(imageA, ⟨0, 0, 1/2, 1⟩, (1, 1)), (imageB, ⟨1/2, 0, 1, 1⟩, (1, 1))] := by
  rw [FlushTiles_pastes]
  simp [sampleTilesMap, imageA, imageB, invalidImage, vtkRawImage.IsValid]

/-- C8: no invalid image is pushed. An entry of the tile map whose image is
invalid causes no call at all (no paste, no write of the viewport or of the
tile-scale) and no change of the renderer; entries with invalid images can be
dropped from the map without changing what `FlushTiles` does; every paste
`FlushTiles` makes is of a valid image; and `vtkMyImagePasterPass::Render`
with an invalid image makes no OpenGL call (neither `glClear` nor
`PushToFrameBuffer`). -/
theorem invalid_image_never_pushed (PushToViewport : PushToViewportFn)
    (TilesMap : TilesMapType) (renderer : vtkRenderer) (tile : vtkTile) (image : vtkRawImage) :
    (FlushTiles.body PushToViewport
        { tile with TileImage := { image with Valid := false } } renderer).calls = [] ∧
    (FlushTiles.body PushToViewport
        { tile with TileImage := { image with Valid := false } } renderer).state = renderer ∧
    (FlushTiles PushToViewport TilesMap renderer).calls =
      (FlushTiles PushToViewport
        (TilesMap.filter (fun entry => entry.2.TileImage.IsValid)) renderer).calls ∧
    (pastes (FlushTiles PushToViewport TilesMap renderer).calls).all
      (fun paste => paste.1.IsValid) = true ∧
    vtkMyImagePasterPass.Render { Image := { image with Valid := false } } = [] := by
  refine ⟨by simp [FlushTiles.body, vtkRawImage.IsValid], FlushTiles_body_state _ _ _,
    ?_, ?_, by simp [vtkMyImagePasterPass.Render, vtkRawImage.IsValid]⟩
  · induction TilesMap with
    | nil => rfl
    | cons entry rest ih =>
      obtain ⟨k, t⟩ := entry
      by_cases hv : t.TileImage.IsValid = true
      · simp only [List.filter_cons, hv, if_true, FlushTiles, FlushTiles_body_state, ih]
      · simp only [List.filter_cons, hv, FlushTiles, FlushTiles_body_state, ih]
        simp [FlushTiles.body, hv]
  · rw [FlushTiles_pastes, List.all_eq_true]
    intro paste hp
    obtain ⟨t, ht, rfl⟩ := List.mem_map.1 hp
    simpa using (List.mem_filter.1 ht).2

/-! ## The tile map and `vtkIceTSynchronizedRenderers::HandleEndRender` -/

/-- After `TilesMap[ptr]` and assignments through the reference, the key has
an entry, and it carries the assignments. -/
theorem TilesMapType.find_subscript_self (indeterminate : Viewport) (ptr : Owner)
    (f : vtkTile → vtkTile) (TilesMap : TilesMapType) :
    ∃ tile, (TilesMap.subscript indeterminate ptr f).find ptr = some (f tile) := by
  induction TilesMap with
  | nil => exact ⟨vtkTile.New indeterminate, by simp [TilesMapType.subscript, TilesMapType.find]⟩
  | cons entry rest ih =>
    obtain ⟨k, tile⟩ := entry
    by_cases h1 : ptr < k
    · exact ⟨vtkTile.New indeterminate, by simp [TilesMapType.subscript, TilesMapType.find, h1]⟩
    · by_cases h2 : ptr = k
      · exact ⟨tile, by simp [TilesMapType.subscript, TilesMapType.find, h2]⟩
      · obtain ⟨t, ht⟩ := ih
        have h3 : ¬ k = ptr := fun h => h2 h.symm
        exact ⟨t, by simp [TilesMapType.subscript, TilesMapType.find, h1, h2, h3, ht]⟩

/-- The statement `TilesMap[ptr]` and assignments through the reference leave the entry of
every other key as it was. -/
theorem TilesMapType.find_subscript_of_ne (indeterminate : Viewport) (ptr : Owner)
    (f : vtkTile → vtkTile) (TilesMap : TilesMapType) (q : Owner) (hq : q ≠ ptr) :
    (TilesMap.subscript indeterminate ptr f).find q = TilesMap.find q := by
  have hq' : ¬ ptr = q := fun h => hq h.symm
  induction TilesMap with
  | nil => simp [TilesMapType.subscript, TilesMapType.find, hq']
  | cons entry rest ih =>
    obtain ⟨k, tile⟩ := entry
    by_cases h1 : ptr < k
    · simp [TilesMapType.subscript, TilesMapType.find, h1, hq']
    · by_cases h2 : ptr = k
      · subst h2
        simp [TilesMapType.subscript, TilesMapType.find, hq']
      · by_cases h3 : k = q
        · subst h3
          simp [TilesMapType.subscript, TilesMapType.find, h1, h2]
        · simp [TilesMapType.subscript, TilesMapType.find, h1, h2, h3, ih]

/-- A tile found under a key is the tile of an entry of the map. -/
theorem TilesMapType.mem_of_find (TilesMap : TilesMapType) (ptr : Owner) (tile : vtkTile)
    (h : TilesMap.find ptr = some tile) : tile ∈ TilesMap.map Prod.snd := by
  induction TilesMap with
  | nil => simp [TilesMapType.find] at h
  | cons entry rest ih =>
    obtain ⟨k, t⟩ := entry
    by_cases hk : k = ptr
    · simp [TilesMapType.find, hk] at h
      simp [h]
    · simp [TilesMapType.find, hk] at h
      simp [ih h]

/-- The method `CaptureRenderedImage` makes no paste into a viewport. -/
theorem CaptureRenderedImage_pastes (ext : Collaborators)
    (self : vtkIceTSynchronizedRenderers) :
    pastes (self.CaptureRenderedImage ext).calls = [] := by
  unfold vtkIceTSynchronizedRenderers.CaptureRenderedImage
  simp only []
  split_ifs <;> first | rfl | (split <;> simp [pastes])

/-- With `WriteBackImages` on, `HandleEndRender` is: the superclass handler,
the capture, the update of the tile map when the captured image is valid, and
`FlushTiles`. -/
theorem HandleEndRender_write_back (ext : Collaborators) (thisPtr : Owner)
    (self : vtkIceTSynchronizedRenderers) (TilesMap : TilesMapType)
    (hW : self.WriteBackImages = true) :
    vtkIceTSynchronizedRenderers.HandleEndRender ext thisPtr self TilesMap =
      { state :=
          ({ (self.captureAtEndRender ext).state with
              Renderer := (FlushTiles ext.PushToViewport
                (if (self.captureAtEndRender ext).result.IsValid then
                  TilesMap.subscript ext.indeterminate thisPtr
                    (fun tile =>
                      { tile with
                        TileImage := (self.captureAtEndRender ext).result,
                        PhysicalViewport :=
                          (self.captureAtEndRender ext).state.IceTCompositePass.PhysicalViewport })
                else TilesMap)
                (self.captureAtEndRender ext).state.Renderer).state },
           if (self.captureAtEndRender ext).result.IsValid then
             TilesMap.subscript ext.indeterminate thisPtr
               (fun tile =>
                 { tile with
                   TileImage := (self.captureAtEndRender ext).result,
                   PhysicalViewport :=
                     (self.captureAtEndRender ext).state.IceTCompositePass.PhysicalViewport })
           else TilesMap)
        calls := Call.Superclass_HandleEndRender :: (self.captureAtEndRender ext).calls ++
          Call.FlushTiles (self.captureAtEndRender ext).state.Renderer ::
            (FlushTiles ext.PushToViewport
              (if (self.captureAtEndRender ext).result.IsValid then
                TilesMap.subscript ext.indeterminate thisPtr
                  (fun tile =>
                    { tile with
                      TileImage := (self.captureAtEndRender ext).result,
                      PhysicalViewport :=
                        (self.captureAtEndRender ext).state.IceTCompositePass.PhysicalViewport })
              else TilesMap)
              (self.captureAtEndRender ext).state.Renderer).calls
        result := () } := by
  have h1 : (self.callSuperclassHandleEndRender ext).WriteBackImages = true := by
    simp [vtkIceTSynchronizedRenderers.callSuperclassHandleEndRender, hW]
  unfold vtkIceTSynchronizedRenderers.HandleEndRender
  simp only [h1, if_true, vtkIceTSynchronizedRenderers.captureAtEndRender]

/-- With `WriteBackImages` on, the pastes of `HandleEndRender` are those of
its `FlushTiles` call. -/
theorem HandleEndRender_pastes (ext : Collaborators) (thisPtr : Owner)
    (self : vtkIceTSynchronizedRenderers) (TilesMap : TilesMapType)
    (hW : self.WriteBackImages = true) :
    pastes (vtkIceTSynchronizedRenderers.HandleEndRender ext thisPtr self TilesMap).calls =
      pastes (FlushTiles ext.PushToViewport
        (vtkIceTSynchronizedRenderers.HandleEndRender ext thisPtr self TilesMap).state.2
        (self.captureAtEndRender ext).state.Renderer).calls := by
  rw [HandleEndRender_write_back ext thisPtr self TilesMap hW]
  have hc : pastes (self.captureAtEndRender ext).calls = [] :=
    CaptureRenderedImage_pastes ext _
  simp only [List.cons_append]
  rw [show ∀ xs : List Call, pastes (Call.Superclass_HandleEndRender :: xs) = pastes xs from
    fun _ => rfl, pastes_append, hc]
  rfl

/-- A valid tile found in the map is pasted by `FlushTiles`, with the
viewport set to its physical viewport and the tile-scale set to `(1,1)`. -/
theorem FlushTiles_pastes_of_find (PushToViewport : PushToViewportFn)
    (TilesMap : TilesMapType) (renderer : vtkRenderer) (ptr : Owner) (tile : vtkTile)
    (hf : TilesMap.find ptr = some tile) (hv : tile.TileImage.IsValid = true) :
    ∃ (r : vtkRenderer) (ok : Bool),
      (tile.TileImage, r, ok) ∈ pastes (FlushTiles PushToViewport TilesMap renderer).calls ∧
      r.Viewport = tile.PhysicalViewport ∧ r.RenderWindow.TileScale = (1, 1) := by
  refine ⟨{ Viewport := tile.PhysicalViewport
            RenderWindow := { renderer.RenderWindow with TileScale := (1, 1) } },
    PushToViewport tile.TileImage
      { Viewport := tile.PhysicalViewport
        RenderWindow := { renderer.RenderWindow with TileScale := (1, 1) } }, ?_, rfl, rfl⟩
  rw [FlushTiles_pastes]
  exact List.mem_map.2 ⟨tile,
    List.mem_filter.2 ⟨TilesMapType.mem_of_find TilesMap ptr tile hf, by simpa using hv⟩, rfl⟩

/-- C9: `HandleEndRender` on the instance `s` with `WriteBackImages` on and a
valid captured image `I` leaves the tile map with an entry for `s` whose
`TileImage` is `I` and whose `PhysicalViewport` is the physical viewport of
the composite pass, and with the entry of every other owner unchanged.
Consequently, when afterwards any other instance `a` handles the end of its
render (with `WriteBackImages` on), the entry of `s` is still the same and
the `FlushTiles` of that call pastes `I` with the viewport set to that
physical viewport and tile-scale `(1,1)`. The map before the call is
arbitrary, so this covers rendering A, then B (as `s`), then A again. -/
theorem HandleEndRender_updates_own_tile_only (ext : Collaborators) (s : Owner)
    (self : vtkIceTSynchronizedRenderers) (R : TilesMapType)
    (hW : self.WriteBackImages = true)
    (hV : (self.captureAtEndRender ext).result.IsValid = true) :
    (∃ tile, (vtkIceTSynchronizedRenderers.HandleEndRender ext s self R).state.2.find s =
        some tile ∧
      tile.TileImage = (self.captureAtEndRender ext).result ∧
      tile.PhysicalViewport =
        (self.captureAtEndRender ext).state.IceTCompositePass.PhysicalViewport) ∧
    (∀ q, q ≠ s →
      (vtkIceTSynchronizedRenderers.HandleEndRender ext s self R).state.2.find q = R.find q) ∧
    (∀ (extA : Collaborators) (a : Owner) (selfA : vtkIceTSynchronizedRenderers),
      a ≠ s → selfA.WriteBackImages = true →
      (vtkIceTSynchronizedRenderers.HandleEndRender extA a selfA
          (vtkIceTSynchronizedRenderers.HandleEndRender ext s self R).state.2).state.2.find s =
        (vtkIceTSynchronizedRenderers.HandleEndRender ext s self R).state.2.find s ∧
      ∃ (r : vtkRenderer) (ok : Bool),
        ((self.captureAtEndRender ext).result, r, ok) ∈
          pastes (vtkIceTSynchronizedRenderers.HandleEndRender extA a selfA
            (vtkIceTSynchronizedRenderers.HandleEndRender ext s self R).state.2).calls ∧
        r.Viewport = (self.captureAtEndRender ext).state.IceTCompositePass.PhysicalViewport ∧
        r.RenderWindow.TileScale = (1, 1)) := by
  have hown : ∃ tile,
      (vtkIceTSynchronizedRenderers.HandleEndRender ext s self R).state.2.find s = some tile ∧
      tile.TileImage = (self.captureAtEndRender ext).result ∧
      tile.PhysicalViewport =
        (self.captureAtEndRender ext).state.IceTCompositePass.PhysicalViewport := by
    rw [HandleEndRender_write_back ext s self R hW]
    simp only [hV, if_true]
    obtain ⟨t, ht⟩ := TilesMapType.find_subscript_self ext.indeterminate s
      (fun tile => { tile with
        TileImage := (self.captureAtEndRender ext).result,
        PhysicalViewport :=
          (self.captureAtEndRender ext).state.IceTCompositePass.PhysicalViewport }) R
    exact ⟨_, ht, rfl, rfl⟩
  refine ⟨hown, ?_, ?_⟩
  · intro q hq
    rw [HandleEndRender_write_back ext s self R hW]
    simp only [hV, if_true]
    exact TilesMapType.find_subscript_of_ne _ _ _ _ q hq
  · intro extA a selfA ha hWA
    obtain ⟨tile, hfind, himg, hvp⟩ := hown
    have hkeep : (vtkIceTSynchronizedRenderers.HandleEndRender extA a selfA
          (vtkIceTSynchronizedRenderers.HandleEndRender ext s self R).state.2).state.2.find s =
        (vtkIceTSynchronizedRenderers.HandleEndRender ext s self R).state.2.find s := by
      rw [HandleEndRender_write_back extA a selfA _ hWA]
      by_cases hA : (selfA.captureAtEndRender extA).result.IsValid = true
      · simp only [hA, if_true]
        exact TilesMapType.find_subscript_of_ne _ _ _ _ s (fun h => ha h.symm)
      · simp only [hA]
        rfl
    refine ⟨hkeep, ?_⟩
    rw [HandleEndRender_pastes extA a selfA _ hWA]
    have hv : tile.TileImage.IsValid = true := by rw [himg]; exact hV
    obtain ⟨r, ok, hmem, hr1, hr2⟩ := FlushTiles_pastes_of_find extA.PushToViewport _
      (selfA.captureAtEndRender extA).state.Renderer s tile (hkeep.trans hfind) hv
    exact ⟨r, ok, himg ▸ hmem, hr1.trans hvp, hr2⟩

/-- Witness of C9: the instance at address 250 captures `imageB`; it gets an
entry with that image, and the entry of owner 100 is untouched. -/
theorem HandleEndRender_updates_own_tile_only_witness :
    (sampleInstance imageB).WriteBackImages = true ∧
    ((sampleInstance imageB).captureAtEndRender sampleCollaborators).result.IsValid = true ∧
    (∃ tile,
      (vtkIceTSynchronizedRenderers.HandleEndRender sampleCollaborators 250
        (sampleInstance imageB) sampleTilesMap).state.2.find 250 = some tile ∧
      tile.TileImage = ((sampleInstance imageB).captureAtEndRender sampleCollaborators).result ∧
      tile.PhysicalViewport =
        ((sampleInstance imageB).captureAtEndRender
          sampleCollaborators).state.IceTCompositePass.PhysicalViewport) ∧
    (vtkIceTSynchronizedRenderers.HandleEndRender sampleCollaborators 250
      (sampleInstance imageB) sampleTilesMap).state.2.find 100 = sampleTilesMap.find 100 ∧
    (∃ (r : vtkRenderer) (ok : Bool),
      (((sampleInstance imageB).captureAtEndRender sampleCollaborators).result, r, ok) ∈
        pastes (vtkIceTSynchronizedRenderers.HandleEndRender sampleCollaborators 100
          (sampleInstance imageA)
          (vtkIceTSynchronizedRenderers.HandleEndRender sampleCollaborators 250
            (sampleInstance imageB) sampleTilesMap).state.2).calls ∧
      r.Viewport = ((sampleInstance imageB).captureAtEndRender
        sampleCollaborators).state.IceTCompositePass.PhysicalViewport ∧
      r.RenderWindow.TileScale = (1, 1)) :=
  ⟨rfl, rfl,
   (HandleEndRender_updates_own_tile_only sampleCollaborators 250 (sampleInstance imageB)
      sampleTilesMap rfl rfl).1,
   (HandleEndRender_updates_own_tile_only sampleCollaborators 250 (sampleInstance imageB)
      sampleTilesMap rfl rfl).2.1 100 (by decide),
   ((HandleEndRender_updates_own_tile_only sampleCollaborators 250 (sampleInstance imageB)
      sampleTilesMap rfl rfl).2.2 sampleCollaborators 100 (sampleInstance imageA)
      (by decide) rfl).2⟩

/-- C10: `HandleEndRender` with `WriteBackImages` on and an invalid captured
image returns, leaves the tile map exactly as it was, and still calls
`FlushTiles` on the renderer: its calls are the superclass handler, those of
the capture, and one `FlushTiles` of the unchanged map. The instance is left
as the capture left it. -/
theorem HandleEndRender_invalid_capture (ext : Collaborators) (thisPtr : Owner)
    (self : vtkIceTSynchronizedRenderers) (R : TilesMapType)
    (hW : self.WriteBackImages = true)
    (hI : (self.captureAtEndRender ext).result.IsValid = false) :
    (vtkIceTSynchronizedRenderers.HandleEndRender ext thisPtr self R).state.2 = R ∧
    (vtkIceTSynchronizedRenderers.HandleEndRender ext thisPtr self R).calls =
      Call.Superclass_HandleEndRender :: (self.captureAtEndRender ext).calls ++
        Call.FlushTiles (self.captureAtEndRender ext).state.Renderer ::
          (FlushTiles ext.PushToViewport R (self.captureAtEndRender ext).state.Renderer).calls ∧
    Call.FlushTiles (self.captureAtEndRender ext).state.Renderer ∈
      (vtkIceTSynchronizedRenderers.HandleEndRender ext thisPtr self R).calls ∧
    (vtkIceTSynchronizedRenderers.HandleEndRender ext thisPtr self R).state.1 =
      (self.captureAtEndRender ext).state := by
  rw [HandleEndRender_write_back ext thisPtr self R hW]
  simp only [hI, FlushTiles_state]
  refine ⟨by simp, by simp, by simp, ?_⟩
  simp

/-- Witness of C10: the instance at address 300 has no tile to contribute;
its entry in the sample map keeps `imageB`. -/
theorem HandleEndRender_invalid_capture_witness :
    (sampleInstance invalidImage).WriteBackImages = true ∧
    ((sampleInstance invalidImage).captureAtEndRender sampleCollaborators).result.IsValid =
      false ∧
    (vtkIceTSynchronizedRenderers.HandleEndRender sampleCollaborators 300
      (sampleInstance invalidImage) sampleTilesMap).state.2 = sampleTilesMap :=
  ⟨rfl, rfl,
   (HandleEndRender_invalid_capture sampleCollaborators 300 (sampleInstance invalidImage)
      sampleTilesMap rfl rfl).1⟩

/-- The method `CaptureRenderedImage` never invokes `::FlushTiles`. -/
theorem CaptureRenderedImage_no_FlushTiles (ext : Collaborators)
    (self : vtkIceTSynchronizedRenderers) :
    (self.CaptureRenderedImage ext).calls.countP Call.isFlushTiles = 0 := by
  unfold vtkIceTSynchronizedRenderers.CaptureRenderedImage
  simp only []
  split_ifs <;> first | rfl | (split <;> simp [Call.isFlushTiles])

/-- The calls made inside `FlushTiles` are not invocations of `::FlushTiles`. -/
theorem FlushTiles_no_FlushTiles (PushToViewport : PushToViewportFn) (TilesMap : TilesMapType)
    (renderer : vtkRenderer) :
    (FlushTiles PushToViewport TilesMap renderer).calls.countP Call.isFlushTiles = 0 := by
  induction TilesMap generalizing renderer with
  | nil => rfl
  | cons entry rest ih =>
    obtain ⟨k, tile⟩ := entry
    simp only [FlushTiles, List.countP_append, ih, Nat.add_zero]
    unfold FlushTiles.body
    split <;> simp [Call.isFlushTiles]

/-- C11: `HandleEndRender` touches the tile map and invokes `FlushTiles`
exactly when `WriteBackImages` is on. With `WriteBackImages` off (and a
superclass handler that leaves the flag off) the map is unchanged, the only
call is the superclass handler, nothing is pasted and `FlushTiles` is not
invoked. With `WriteBackImages` on, the map is the old one with the entry of
the instance set when the captured image is valid, `FlushTiles` is invoked
exactly once, and it runs after that update, on the updated map. -/
theorem HandleEndRender_write_back_iff (ext : Collaborators) (thisPtr : Owner)
    (self : vtkIceTSynchronizedRenderers) (R : TilesMapType)
    (hS : self.WriteBackImages = false →
      (ext.Superclass_HandleEndRender self).WriteBackImages = false) :
    (self.WriteBackImages = false →
      (vtkIceTSynchronizedRenderers.HandleEndRender ext thisPtr self R).state.2 = R ∧
      (vtkIceTSynchronizedRenderers.HandleEndRender ext thisPtr self R).calls =
        [Call.Superclass_HandleEndRender] ∧
      pastes (vtkIceTSynchronizedRenderers.HandleEndRender ext thisPtr self R).calls = [] ∧
      (vtkIceTSynchronizedRenderers.HandleEndRender ext thisPtr self R).calls.countP
        Call.isFlushTiles = 0) ∧
    (self.WriteBackImages = true →
      (vtkIceTSynchronizedRenderers.HandleEndRender ext thisPtr self R).state.2 =
        (if (self.captureAtEndRender ext).result.IsValid then
          R.subscript ext.indeterminate thisPtr
            (fun tile =>
              { tile with
                TileImage := (self.captureAtEndRender ext).result,
                PhysicalViewport :=
                  (self.captureAtEndRender ext).state.IceTCompositePass.PhysicalViewport })
        else R) ∧
      (vtkIceTSynchronizedRenderers.HandleEndRender ext thisPtr self R).calls =
        Call.Superclass_HandleEndRender :: (self.captureAtEndRender ext).calls ++
          Call.FlushTiles (self.captureAtEndRender ext).state.Renderer ::
            (FlushTiles ext.PushToViewport
              (vtkIceTSynchronizedRenderers.HandleEndRender ext thisPtr self R).state.2
              (self.captureAtEndRender ext).state.Renderer).calls ∧
      (vtkIceTSynchronizedRenderers.HandleEndRender ext thisPtr self R).calls.countP
        Call.isFlushTiles = 1) := by
  constructor
  · intro hW
    have h1 : (self.callSuperclassHandleEndRender ext).WriteBackImages = false := by
      simp [vtkIceTSynchronizedRenderers.callSuperclassHandleEndRender, hW, hS hW]
    unfold vtkIceTSynchronizedRenderers.HandleEndRender
    simp [h1, pastes, Call.isFlushTiles]
  · intro hW
    rw [HandleEndRender_write_back ext thisPtr self R hW]
    refine ⟨rfl, rfl, ?_⟩
    have hc := CaptureRenderedImage_no_FlushTiles ext (self.callSuperclassHandleEndRender ext)
    simp only [List.countP_cons, List.countP_append, FlushTiles_no_FlushTiles,
      Call.isFlushTiles]
    simp only [vtkIceTSynchronizedRenderers.captureAtEndRender, hc]
    simp

/-- Witness of C11: the sample instance with `WriteBackImages` off leaves the
sample map alone and pastes nothing; with it on, it invokes `FlushTiles`
once. -/
theorem HandleEndRender_write_back_iff_witness :
    ({ sampleInstance imageB with WriteBackImages := false } :
        vtkIceTSynchronizedRenderers).WriteBackImages = false ∧
    (vtkIceTSynchronizedRenderers.HandleEndRender sampleCollaborators 250
      { sampleInstance imageB with WriteBackImages := false } sampleTilesMap).state.2 =
        sampleTilesMap ∧
    pastes (vtkIceTSynchronizedRenderers.HandleEndRender sampleCollaborators 250
      { sampleInstance imageB with WriteBackImages := false } sampleTilesMap).calls = [] ∧
    (sampleInstance imageB).WriteBackImages = true ∧
    (vtkIceTSynchronizedRenderers.HandleEndRender sampleCollaborators 250
      (sampleInstance imageB) sampleTilesMap).calls.countP Call.isFlushTiles = 1 :=
  ⟨rfl,
   ((HandleEndRender_write_back_iff sampleCollaborators 250
      { sampleInstance imageB with WriteBackImages := false } sampleTilesMap
      (fun _ => rfl)).1 rfl).1,
   ((HandleEndRender_write_back_iff sampleCollaborators 250
      { sampleInstance imageB with WriteBackImages := false } sampleTilesMap
      (fun _ => rfl)).1 rfl).2.2.1,
   rfl,
   ((HandleEndRender_write_back_iff sampleCollaborators 250 (sampleInstance imageB)
      sampleTilesMap (fun h => absurd h (by decide))).2 rfl).2.2⟩

/-! ## `EraseTile` -/

/-- A key that is not among the keys of the map has no entry. -/
theorem TilesMapType.find_eq_none_of_not_mem (TilesMap : TilesMapType) (ptr : Owner)
    (h : ptr ∉ TilesMap.map Prod.fst) : TilesMap.find ptr = none := by
  induction TilesMap with
  | nil => rfl
  | cons entry rest ih =>
    obtain ⟨k, tile⟩ := entry
    simp only [List.map_cons, List.mem_cons, not_or] at h
    have hk : ¬ k = ptr := fun e => h.1 e.symm
    simp [TilesMapType.find, hk, ih h.2]

/-- A key without entry is not among the keys of the map. -/
theorem TilesMapType.not_mem_of_find_eq_none (TilesMap : TilesMapType) (ptr : Owner)
    (h : TilesMap.find ptr = none) : ptr ∉ TilesMap.map Prod.fst := by
  induction TilesMap with
  | nil => simp
  | cons entry rest ih =>
    obtain ⟨k, tile⟩ := entry
    by_cases hk : k = ptr
    · simp [TilesMapType.find, hk] at h
    · simp only [TilesMapType.find, hk, if_false] at h
      simp only [List.map_cons, List.mem_cons, not_or]
      exact ⟨fun e => hk e.symm, ih h⟩

/-- Erasing a key that is not among the keys changes nothing. -/
theorem EraseTile_of_not_mem (ptr : Owner) (TilesMap : TilesMapType)
    (h : ptr ∉ TilesMap.map Prod.fst) : EraseTile ptr TilesMap = TilesMap := by
  induction TilesMap with
  | nil => rfl
  | cons entry rest ih =>
    obtain ⟨k, tile⟩ := entry
    simp only [List.map_cons, List.mem_cons, not_or] at h
    have hk : ¬ k = ptr := fun e => h.1 e.symm
    simp [EraseTile, hk, ih h.2]

/-- The keys left by `EraseTile` are keys of the map it was given. -/
theorem EraseTile_keys_subset (ptr : Owner) (TilesMap : TilesMapType) (q : Owner)
    (h : q ∈ (EraseTile ptr TilesMap).map Prod.fst) : q ∈ TilesMap.map Prod.fst := by
  induction TilesMap with
  | nil => simp [EraseTile] at h
  | cons entry rest ih =>
    obtain ⟨k, tile⟩ := entry
    by_cases hk : k = ptr
    · simp only [EraseTile, hk, if_true] at h
      simp [h]
    · simp only [EraseTile, hk, if_false, List.map_cons, List.mem_cons] at h
      rcases h with h | h
      · simp [h]
      · simp [ih h]

/-- In a well-formed map, the erased key is not among the keys left. -/
theorem EraseTile_not_mem (ptr : Owner) (TilesMap : TilesMapType) (hR : TilesMap.Sorted) :
    ptr ∉ (EraseTile ptr TilesMap).map Prod.fst := by
  induction TilesMap with
  | nil => simp [EraseTile]
  | cons entry rest ih =>
    obtain ⟨k, tile⟩ := entry
    have hR' : List.Pairwise (fun a b => a < b) (k :: rest.map Prod.fst) := hR
    rw [List.pairwise_cons] at hR'
    by_cases hk : k = ptr
    · simp only [EraseTile, hk, if_true]
      intro hmem
      have hlt := hR'.1 ptr hmem
      rw [hk] at hlt
      exact lt_irrefl _ hlt
    · simp only [EraseTile, hk, if_false, List.map_cons, List.mem_cons, not_or]
      exact ⟨fun e => hk e.symm, ih hR'.2⟩

/-- The map left by `EraseTile` is well-formed when the map given is. -/
theorem EraseTile_sorted (ptr : Owner) (TilesMap : TilesMapType) (hR : TilesMap.Sorted) :
    (EraseTile ptr TilesMap).Sorted := by
  induction TilesMap with
  | nil => exact hR
  | cons entry rest ih =>
    obtain ⟨k, tile⟩ := entry
    have hR' : List.Pairwise (fun a b => a < b) (k :: rest.map Prod.fst) := hR
    rw [List.pairwise_cons] at hR'
    by_cases hk : k = ptr
    · simp only [EraseTile, hk, if_true]
      exact hR'.2
    · simp only [EraseTile, hk, if_false]
      show List.Pairwise (fun a b => a < b) (k :: (EraseTile ptr rest).map Prod.fst)
      rw [List.pairwise_cons]
      exact ⟨fun q hq => hR'.1 q (EraseTile_keys_subset ptr rest q hq), ih hR'.2⟩

/-- `EraseTile` leaves the entry of every other key as it was. -/
theorem EraseTile_find_of_ne (ptr : Owner) (TilesMap : TilesMapType) (q : Owner)
    (hq : q ≠ ptr) : (EraseTile ptr TilesMap).find q = TilesMap.find q := by
  induction TilesMap with
  | nil => rfl
  | cons entry rest ih =>
    obtain ⟨k, tile⟩ := entry
    by_cases hk : k = ptr
    · have hkq : ¬ k = q := fun e => hq (e.symm.trans hk)
      simp [EraseTile, hk, TilesMapType.find, hkq]
      subst hk
      simp [hkq]
    · by_cases hkq : k = q
      · subst hkq
        simp [EraseTile, hk, TilesMapType.find]
      · simp [EraseTile, hk, TilesMapType.find, hkq, ih]

/-- The keys after `TilesMap[ptr]` are `ptr` and the keys there were. -/
theorem TilesMapType.mem_keys_subscript (indeterminate : Viewport) (ptr : Owner)
    (f : vtkTile → vtkTile) (TilesMap : TilesMapType) (q : Owner)
    (h : q ∈ (TilesMap.subscript indeterminate ptr f).map Prod.fst) :
    q = ptr ∨ q ∈ TilesMap.map Prod.fst := by
  induction TilesMap with
  | nil => simpa [TilesMapType.subscript] using h
  | cons entry rest ih =>
    obtain ⟨k, tile⟩ := entry
    by_cases h1 : ptr < k
    · simp only [TilesMapType.subscript, h1, if_true, List.map_cons, List.mem_cons] at h
      simpa using h
    · by_cases h2 : ptr = k
      · simp only [TilesMapType.subscript, h1, h2, if_true, if_false, List.map_cons] at h
        exact Or.inr (by simpa using h)
      · simp only [TilesMapType.subscript, h1, h2, if_false, List.map_cons, List.mem_cons] at h
        rcases h with h | h
        · exact Or.inr (by simp [h])
        · rcases ih h with h | h
          · exact Or.inl h
          · exact Or.inr (by simp [h])

/-- The statement `TilesMap[ptr]` keeps the map well-formed: the maps
`HandleEndRender` and `EraseTile` build from the empty map are well-formed. -/
theorem TilesMapType.subscript_sorted (indeterminate : Viewport) (ptr : Owner)
    (f : vtkTile → vtkTile) (TilesMap : TilesMapType) (hR : TilesMap.Sorted) :
    (TilesMap.subscript indeterminate ptr f).Sorted := by
  induction TilesMap with
  | nil => simp [TilesMapType.subscript, TilesMapType.Sorted]
  | cons entry rest ih =>
    obtain ⟨k, tile⟩ := entry
    have hR' : List.Pairwise (fun a b => a < b) (k :: rest.map Prod.fst) := hR
    rw [List.pairwise_cons] at hR'
    by_cases h1 : ptr < k
    · simp only [TilesMapType.subscript, h1, if_true]
      show List.Pairwise (fun a b => a < b) (ptr :: k :: rest.map Prod.fst)
      rw [List.pairwise_cons]
      refine ⟨?_, hR⟩
      intro q hq
      rcases List.mem_cons.1 hq with hq | hq
      · rw [hq]; exact h1
      · exact lt_trans h1 (hR'.1 q hq)
    · by_cases h2 : ptr = k
      · subst h2
        simp only [TilesMapType.subscript, lt_irrefl, if_true, if_false]
        exact hR
      · simp only [TilesMapType.subscript, h1, h2, if_false]
        show List.Pairwise (fun a b => a < b)
          (k :: (TilesMapType.subscript indeterminate ptr f rest).map Prod.fst)
        rw [List.pairwise_cons]
        refine ⟨?_, ih hR'.2⟩
        intro q hq
        rcases TilesMapType.mem_keys_subscript indeterminate ptr f rest q hq with hq | hq
        · rw [hq]
          exact lt_of_le_of_ne (not_lt.1 h1) (fun e => h2 e.symm)
        · exact hR'.1 q hq

/-- C12: for every tile map `R` (a `std::map`, hence with strictly increasing
keys) and every owner `p`, `EraseTile(p)`, which is what the destructor of the
instance at `p` does to the map, yields a well-formed map without entry for
`p` and with the entry of every other owner unchanged; when `p` has no entry
the map is unchanged; erasing twice is erasing once. -/
theorem EraseTile_removes_only_own_entry (R : TilesMapType) (p : Owner) (hR : R.Sorted) :
    vtkIceTSynchronizedRenderers.Destructor p R = EraseTile p R ∧
    (EraseTile p R).find p = none ∧
    (∀ q, q ≠ p → (EraseTile p R).find q = R.find q) ∧
    (R.find p = none → EraseTile p R = R) ∧
    EraseTile p (EraseTile p R) = EraseTile p R ∧
    (EraseTile p R).Sorted :=
  ⟨rfl,
   TilesMapType.find_eq_none_of_not_mem _ _ (EraseTile_not_mem p R hR),
   fun q hq => EraseTile_find_of_ne p R q hq,
   fun h => EraseTile_of_not_mem p R (TilesMapType.not_mem_of_find_eq_none R p h),
   EraseTile_of_not_mem p _ (EraseTile_not_mem p R hR),
   EraseTile_sorted p R hR⟩

/-- Witness of C12: erasing owner 200 from the sample map. -/
theorem EraseTile_removes_only_own_entry_witness :
    sampleTilesMap.Sorted ∧
    (EraseTile 200 sampleTilesMap).find 200 = none ∧
    (EraseTile 200 sampleTilesMap).find 300 = sampleTilesMap.find 300 ∧
    EraseTile 200 (EraseTile 200 sampleTilesMap) = EraseTile 200 sampleTilesMap :=
  ⟨by decide,
   (EraseTile_removes_only_own_entry sampleTilesMap 200 (by decide)).2.1,
   (EraseTile_removes_only_own_entry sampleTilesMap 200 (by decide)).2.2.1 300 (by decide),
   (EraseTile_removes_only_own_entry sampleTilesMap 200 (by decide)).2.2.2.2.1⟩

/-! ## `vtkIceTSynchronizedRenderers::CaptureRenderedImage` -/

/-- Assigning through `rawImage` changes one of the two image buffers only. -/
theorem assignRawImage_other_fields (self : vtkIceTSynchronizedRenderers) (full : Bool)
    (image : vtkRawImage) :
    (self.assignRawImage full image).Renderer = self.Renderer ∧
    (self.assignRawImage full image).IceTCompositePass = self.IceTCompositePass ∧
    (self.assignRawImage full image).ImagePastingPass = self.ImagePastingPass ∧
    (self.assignRawImage full image).ImageProcessingPass = self.ImageProcessingPass := by
  cases full <;> simp [vtkIceTSynchronizedRenderers.assignRawImage]

/-- Assigning through `rawImage` leaves the renderer alone. -/
@[simp] theorem assignRawImage_Renderer (self : vtkIceTSynchronizedRenderers) (full : Bool)
    (image : vtkRawImage) : (self.assignRawImage full image).Renderer = self.Renderer :=
  (assignRawImage_other_fields self full image).1

/-- Assigning through `rawImage` leaves the composite pass alone. -/
@[simp] theorem assignRawImage_IceTCompositePass (self : vtkIceTSynchronizedRenderers)
    (full : Bool) (image : vtkRawImage) :
    (self.assignRawImage full image).IceTCompositePass = self.IceTCompositePass :=
  (assignRawImage_other_fields self full image).2.1

/-- Assigning through `rawImage` leaves the paster pass alone. -/
@[simp] theorem assignRawImage_ImagePastingPass (self : vtkIceTSynchronizedRenderers)
    (full : Bool) (image : vtkRawImage) :
    (self.assignRawImage full image).ImagePastingPass = self.ImagePastingPass :=
  (assignRawImage_other_fields self full image).2.2.1

/-- Assigning through `rawImage` leaves the image-processing pass alone. -/
@[simp] theorem assignRawImage_ImageProcessingPass (self : vtkIceTSynchronizedRenderers)
    (full : Bool) (image : vtkRawImage) :
    (self.assignRawImage full image).ImageProcessingPass = self.ImageProcessingPass :=
  (assignRawImage_other_fields self full image).2.2.2

/-- C13: in `CaptureRenderedImage`, when the selected image buffer is not
valid and the composite pass supplies a valid tile `T`: with an
image-processing pass set, the paster pass becomes the delegate of the
processing pass and is given `T`, the processing pass is rendered (with the
renderer on the origin-anchored physical viewport, tile-scale `(1,1)` and the
full tile viewport), and the image returned is the capture of the renderer
made right after that pass; without an image-processing pass the image
returned is `T` and no call is made. -/
theorem CaptureRenderedImage_with_valid_tile (ext : Collaborators)
    (self : vtkIceTSynchronizedRenderers)
    (hbuf : (if ext.GetImageReductionFactor self = 1 then self.FullImage
      else self.ReducedImage).IsValid = false)
    (hT : self.IceTCompositePass.LastRenderedTile.IsValid = true) :
    (∀ pass, self.ImageProcessingPass = some pass →
      (self.CaptureRenderedImage ext).calls =
        [Call.SetDelegatePass PassId.ImagePastingPass,
         Call.SetImage self.IceTCompositePass.LastRenderedTile,
         Call.SetViewport
           ⟨0, 0,
            self.IceTCompositePass.PhysicalViewport.xmax -
              self.IceTCompositePass.PhysicalViewport.xmin,
            self.IceTCompositePass.PhysicalViewport.ymax -
              self.IceTCompositePass.PhysicalViewport.ymin⟩,
         Call.SetTileScale 1 1,
         Call.SetTileViewport ⟨0, 0, 1, 1⟩,
         Call.UpdateViewport
           { Viewport :=
               ⟨0, 0,
                self.IceTCompositePass.PhysicalViewport.xmax -
                  self.IceTCompositePass.PhysicalViewport.xmin,
                self.IceTCompositePass.PhysicalViewport.ymax -
                  self.IceTCompositePass.PhysicalViewport.ymin⟩
             RenderWindow :=
               { self.Renderer.RenderWindow with
                 TileScale := (1, 1), TileViewport := ⟨0, 0, 1, 1⟩ } },
         Call.glPushAttrib,
         Call.ImageProcessingPass_Render
           { pass with DelegatePass := some PassId.ImagePastingPass }
           { Image := self.IceTCompositePass.LastRenderedTile }
           { Viewport :=
               ⟨0, 0,
                self.IceTCompositePass.PhysicalViewport.xmax -
                  self.IceTCompositePass.PhysicalViewport.xmin,
                self.IceTCompositePass.PhysicalViewport.ymax -
                  self.IceTCompositePass.PhysicalViewport.ymin⟩
             RenderWindow :=
               { self.Renderer.RenderWindow with
                 TileScale := (1, 1), TileViewport := ⟨0, 0, 1, 1⟩ } },
         Call.ReleaseGraphicsResources,
         Call.glPopAttrib,
         Call.Capture
           { Viewport :=
               ⟨0, 0,
                self.IceTCompositePass.PhysicalViewport.xmax -
                  self.IceTCompositePass.PhysicalViewport.xmin,
                self.IceTCompositePass.PhysicalViewport.ymax -
                  self.IceTCompositePass.PhysicalViewport.ymin⟩
             RenderWindow :=
               { self.Renderer.RenderWindow with
                 TileScale := (1, 1), TileViewport := ⟨0, 0, 1, 1⟩ } },
         Call.SetTileScale self.Renderer.RenderWindow.TileScale.1
           self.Renderer.RenderWindow.TileScale.2,
         Call.SetTileViewport self.Renderer.RenderWindow.TileViewport,
         Call.SetViewport self.Renderer.Viewport] ∧
      (self.CaptureRenderedImage ext).result =
        ext.Capture ((self.CaptureRenderedImage ext).calls.take 10)
          { Viewport :=
              ⟨0, 0,
               self.IceTCompositePass.PhysicalViewport.xmax -
                 self.IceTCompositePass.PhysicalViewport.xmin,
               self.IceTCompositePass.PhysicalViewport.ymax -
                 self.IceTCompositePass.PhysicalViewport.ymin⟩
            RenderWindow :=
              { self.Renderer.RenderWindow with
                TileScale := (1, 1), TileViewport := ⟨0, 0, 1, 1⟩ } } ∧
      (self.CaptureRenderedImage ext).state.ImagePastingPass.Image =
        self.IceTCompositePass.LastRenderedTile ∧
      (self.CaptureRenderedImage ext).state.ImageProcessingPass =
        some { pass with DelegatePass := some PassId.ImagePastingPass }) ∧
    (self.ImageProcessingPass = none →
      (self.CaptureRenderedImage ext).result = self.IceTCompositePass.LastRenderedTile ∧
      (self.CaptureRenderedImage ext).calls = []) := by
  have hsel : (!(if decide (ext.GetImageReductionFactor self = 1) = true then self.FullImage
      else self.ReducedImage).IsValid) = true := by
    by_cases h : ext.GetImageReductionFactor self = 1
    · simp only [h, if_true] at hbuf
      simp [h, hbuf]
    · simp only [h, if_false] at hbuf
      simp [h, hbuf]
  have hT' : (!self.IceTCompositePass.LastRenderedTile.IsValid) = false := by simp [hT]
  constructor
  · intro pass hp
    unfold vtkIceTSynchronizedRenderers.CaptureRenderedImage
    simp only [hsel, hT', if_true, Bool.false_eq_true, if_false, assignRawImage_Renderer,
      assignRawImage_IceTCompositePass, assignRawImage_ImagePastingPass,
      assignRawImage_ImageProcessingPass, hp]
    simp [vtkRenderer.SetViewport, vtkRenderer.SetTileScale, vtkRenderer.SetTileViewport,
      fullViewport, vtkMyImagePasterPass.SetImage]
  · intro hp
    unfold vtkIceTSynchronizedRenderers.CaptureRenderedImage
    simp only [hsel, hT', if_true, Bool.false_eq_true, if_false,
      assignRawImage_ImageProcessingPass, hp]
    simp

/-- Witness of C13 on the branch with an image-processing pass: the tile is
`imageB`, and the image returned is the one read back from the frame buffer,
`imageA`. -/
theorem CaptureRenderedImage_with_valid_tile_witness :
    (if sampleCollaborators.GetImageReductionFactor (sampleProcessingInstance imageB) = 1
      then (sampleProcessingInstance imageB).FullImage
      else (sampleProcessingInstance imageB).ReducedImage).IsValid = false ∧
    (sampleProcessingInstance imageB).IceTCompositePass.LastRenderedTile.IsValid = true ∧
    (sampleProcessingInstance imageB).ImageProcessingPass = some { DelegatePass := none } ∧
    ((sampleProcessingInstance imageB).CaptureRenderedImage
      sampleCollaborators).state.ImagePastingPass.Image = imageB ∧
    ((sampleProcessingInstance imageB).CaptureRenderedImage sampleCollaborators).result =
      imageA :=
  ⟨rfl, rfl, rfl,
   ((CaptureRenderedImage_with_valid_tile sampleCollaborators (sampleProcessingInstance imageB)
      rfl rfl).1 _ rfl).2.2.1,
   ((CaptureRenderedImage_with_valid_tile sampleCollaborators (sampleProcessingInstance imageB)
      rfl rfl).1 _ rfl).2.1⟩

/-- C14: on every branch of `CaptureRenderedImage` (cached image, no tile, no
processing pass, processing pass set) the renderer's viewport and its
window's tile-scale and tile-viewport are, when it returns, the ones they
were before the call. -/
theorem CaptureRenderedImage_restores_renderer (ext : Collaborators)
    (self : vtkIceTSynchronizedRenderers) :
    (self.CaptureRenderedImage ext).state.Renderer.Viewport = self.Renderer.Viewport ∧
    (self.CaptureRenderedImage ext).state.Renderer.RenderWindow.TileScale =
      self.Renderer.RenderWindow.TileScale ∧
    (self.CaptureRenderedImage ext).state.Renderer.RenderWindow.TileViewport =
      self.Renderer.RenderWindow.TileViewport := by
  unfold vtkIceTSynchronizedRenderers.CaptureRenderedImage
  simp only []
  split_ifs <;> (try split) <;>
    simp [vtkRenderer.SetViewport, vtkRenderer.SetTileScale, vtkRenderer.SetTileViewport]

/-- Witness of C14 on the branch with an image-processing pass, where the
viewport, the tile-scale and the tile-viewport are all rewritten in between:
the renderer ends as `sampleRenderer`. -/
theorem CaptureRenderedImage_restores_renderer_witness :
    Call.SetTileScale 1 1 ∈
      ((sampleProcessingInstance imageB).CaptureRenderedImage sampleCollaborators).calls ∧
    ((sampleProcessingInstance imageB).CaptureRenderedImage
      sampleCollaborators).state.Renderer.Viewport = sampleRenderer.Viewport ∧
    ((sampleProcessingInstance imageB).CaptureRenderedImage
      sampleCollaborators).state.Renderer.RenderWindow.TileScale = (2, 2) :=
  ⟨by simp [vtkIceTSynchronizedRenderers.CaptureRenderedImage, sampleProcessingInstance,
      sampleInstance, sampleCollaborators, vtkIceTSynchronizedRenderers.assignRawImage,
      invalidImage, imageB, vtkRawImage.IsValid],
   (CaptureRenderedImage_restores_renderer sampleCollaborators
      (sampleProcessingInstance imageB)).1,
   (CaptureRenderedImage_restores_renderer sampleCollaborators
      (sampleProcessingInstance imageB)).2.1⟩

/-! ## `vtkPVIceTCompositePass::SetupContext` -/

/-- After `icetDisable(option)` the option is not enabled. -/
theorem icetIsEnabled_icetDisable_self (option : IceTOption) (ctx : GraphicsContext) :
    icetIsEnabled option (icetDisable option ctx) = false := by
  simp [icetIsEnabled, icetDisable, List.mem_filter]

/-- An option that is not enabled stays so through `icetDisable` of any
option. -/
theorem icetIsEnabled_icetDisable_of_false (option other : IceTOption) (ctx : GraphicsContext)
    (h : icetIsEnabled option ctx = false) :
    icetIsEnabled option (icetDisable other ctx) = false := by
  simp only [icetIsEnabled, decide_eq_false_iff_not] at h
  simp [icetIsEnabled, icetDisable, List.mem_filter, h]

/-- C15: after `vtkPVIceTCompositePass::SetupContext`, whatever the context
was before and whatever the superclass `SetupContext` left behind,
`ICET_DISPLAY`, `ICET_DISPLAY_INFLATE` and `ICET_CORRECT_COLORED_BACKGROUND`
are all disabled. -/
theorem SetupContext_disables_display_options (Superclass : SuperclassSetupContext)
    (render_state : vtkRenderState) (ctx : GraphicsContext) :
    icetIsEnabled IceTOption.ICET_DISPLAY
      (vtkPVIceTCompositePass.SetupContext Superclass render_state ctx) = false ∧
    icetIsEnabled IceTOption.ICET_DISPLAY_INFLATE
      (vtkPVIceTCompositePass.SetupContext Superclass render_state ctx) = false ∧
    icetIsEnabled IceTOption.ICET_CORRECT_COLORED_BACKGROUND
      (vtkPVIceTCompositePass.SetupContext Superclass render_state ctx) = false := by
  have h1 := icetIsEnabled_icetDisable_self IceTOption.ICET_DISPLAY (Superclass render_state ctx)
  have h2 := icetIsEnabled_icetDisable_of_false _ IceTOption.ICET_DISPLAY_INFLATE _ h1
  have h3 := icetIsEnabled_icetDisable_of_false _ IceTOption.ICET_CORRECT_COLORED_BACKGROUND _ h2
  have h4 := icetIsEnabled_icetDisable_self IceTOption.ICET_DISPLAY_INFLATE
    (icetDisable IceTOption.ICET_DISPLAY (Superclass render_state ctx))
  have h5 := icetIsEnabled_icetDisable_of_false _ IceTOption.ICET_CORRECT_COLORED_BACKGROUND _ h4
  have h6 := icetIsEnabled_icetDisable_self IceTOption.ICET_CORRECT_COLORED_BACKGROUND
    (icetDisable IceTOption.ICET_DISPLAY_INFLATE
      (icetDisable IceTOption.ICET_DISPLAY (Superclass render_state ctx)))
  exact ⟨h3, h5, h6⟩

/-- Witness of C15: the sample superclass switches two of the options on and
the sample context has all three on; afterwards only the unrelated option is
left enabled. -/
theorem SetupContext_disables_display_options_witness :
    icetIsEnabled IceTOption.ICET_DISPLAY
      (sampleSuperclassSetupContext sampleRenderState sampleContext) = true ∧
    icetIsEnabled IceTOption.ICET_DISPLAY
      (vtkPVIceTCompositePass.SetupContext sampleSuperclassSetupContext sampleRenderState
        sampleContext) = false ∧
    (vtkPVIceTCompositePass.SetupContext sampleSuperclassSetupContext sampleRenderState
      sampleContext).icetEnabled = [IceTOption.Other 7] :=
  ⟨by decide,
   (SetupContext_disables_display_options sampleSuperclassSetupContext sampleRenderState
      sampleContext).1,
   by decide⟩

/-- C16, counterexample: on the sample 640x480 window, with a colour buffer
holding two opaque red pixels, `SetupContext` sets the viewport, the scissor
test and the clear colour, and the colour buffer still holds the two red
pixels: it has not been cleared to transparent black. -/
theorem SetupContext_does_not_clear :
    sampleRenderState.Renderer.RenderWindow.ActualSize = (640, 480) ∧
    (vtkPVIceTCompositePass.SetupContext sampleSuperclassSetupContext sampleRenderState
      sampleContext).glViewportBox = (0, 0, 640, 480) ∧
    (vtkPVIceTCompositePass.SetupContext sampleSuperclassSetupContext sampleRenderState
      sampleContext).ColorBuffer = [⟨1, 0, 0, 1⟩, ⟨1, 0, 0, 1⟩] ∧
    (vtkPVIceTCompositePass.SetupContext sampleSuperclassSetupContext sampleRenderState
      sampleContext).ColorBuffer ≠ [⟨0, 0, 0, 0⟩, ⟨0, 0, 0, 0⟩] := by
  decide

/-- C16, amended: after `SetupContext` on a window of actual size `(w, h)`
the OpenGL viewport is `(0, 0, w, h)`, the scissor test is disabled and the
clear colour is transparent black `(0,0,0,0)`. `SetupContext` does not clear:
the colour buffer is as the superclass `SetupContext` left it, and it is the
next clear that makes every pixel transparent black. -/
theorem SetupContext_viewport_scissor_clear_color (Superclass : SuperclassSetupContext)
    (render_state : vtkRenderState) (ctx : GraphicsContext) :
    (vtkPVIceTCompositePass.SetupContext Superclass render_state ctx).glViewportBox =
      (0, 0, render_state.Renderer.RenderWindow.ActualSize.1,
        render_state.Renderer.RenderWindow.ActualSize.2) ∧
    glIsEnabled GLCapability.GL_SCISSOR_TEST
      (vtkPVIceTCompositePass.SetupContext Superclass render_state ctx) = false ∧
    (vtkPVIceTCompositePass.SetupContext Superclass render_state ctx).glClearColorValue =
      ⟨0, 0, 0, 0⟩ ∧
    (vtkPVIceTCompositePass.SetupContext Superclass render_state ctx).ColorBuffer =
      (Superclass render_state ctx).ColorBuffer ∧
    (glClearColorBuffer
        (vtkPVIceTCompositePass.SetupContext Superclass render_state ctx)).ColorBuffer =
      List.replicate (Superclass render_state ctx).ColorBuffer.length ⟨0, 0, 0, 0⟩ := by
  refine ⟨rfl, ?_, rfl, rfl, ?_⟩
  · simp [vtkPVIceTCompositePass.SetupContext, glIsEnabled, glDisable, glClearColor, glViewport,
      icetDisable, List.mem_filter]
  · simp [vtkPVIceTCompositePass.SetupContext, glClearColorBuffer, glDisable, glClearColor,
      glViewport, icetDisable, List.map_const']

/-! ## `vtkIceTSynchronizedRenderers::SetImageReductionFactor` -/

/-- C17: for every integer `v`, `SetImageReductionFactor(v)` hands `v` to
the setter of the composite pass and does nothing else: it does not call the
superclass method. With the setter of the pass storing what it is given, the
factor of the pass is `v` afterwards and the instance is the old one with
that single field of its pass replaced; the renderer (its viewport in
particular) and the reduction factor held by the superclass, which drives the
viewport-shrinking reduction, are untouched, and so is the renderer's
viewport after a `CaptureRenderedImage` that follows. -/
theorem SetImageReductionFactor_sets_pass_factor_only (self : vtkIceTSynchronizedRenderers)
    (v : Int) :
    self.SetImageReductionFactor v =
      { self with IceTCompositePass := self.IceTCompositePass.SetImageReductionFactor v } ∧
    (self.SetImageReductionFactor v).IceTCompositePass.ImageReductionFactor = v ∧
    self.SetImageReductionFactor v =
      { self with
        IceTCompositePass := { self.IceTCompositePass with ImageReductionFactor := v } } ∧
    (self.SetImageReductionFactor v).Renderer = self.Renderer ∧
    (self.SetImageReductionFactor v).Renderer.Viewport = self.Renderer.Viewport ∧
    (self.SetImageReductionFactor v).ImageReductionFactor = self.ImageReductionFactor ∧
    (∀ ext : Collaborators,
      ((self.SetImageReductionFactor v).CaptureRenderedImage ext).state.Renderer.Viewport =
        self.Renderer.Viewport) := by
  refine ⟨rfl, rfl, rfl, rfl, rfl, rfl, ?_⟩
  intro ext
  unfold vtkIceTSynchronizedRenderers.CaptureRenderedImage
  simp only []
  split_ifs <;> (try split) <;>
    simp [vtkRenderer.SetViewport, vtkRenderer.SetTileScale, vtkRenderer.SetTileViewport,
      vtkIceTSynchronizedRenderers.SetImageReductionFactor]

/-- C18: on an instance whose reduction factor is 1 (the one stored in the
composite pass and the one the getter reports), `SetImageReductionFactor(2)`
followed by `SetImageReductionFactor(1)` gives back the original instance,
hence the same factor and the same renderer viewport; `CaptureRenderedImage`
then behaves as on the original instance, and the buffer it selects is
`FullImage`. -/
theorem SetImageReductionFactor_two_then_one (self : vtkIceTSynchronizedRenderers)
    (ext : Collaborators)
    (h1 : self.IceTCompositePass.ImageReductionFactor = 1)
    (h2 : ext.GetImageReductionFactor self = 1) :
    (self.SetImageReductionFactor 2).SetImageReductionFactor 1 = self ∧
    ((self.SetImageReductionFactor 2).SetImageReductionFactor
      1).IceTCompositePass.ImageReductionFactor = self.IceTCompositePass.ImageReductionFactor ∧
    ((self.SetImageReductionFactor 2).SetImageReductionFactor 1).Renderer.Viewport =
      self.Renderer.Viewport ∧
    ((self.SetImageReductionFactor 2).SetImageReductionFactor 1).CaptureRenderedImage ext =
      self.CaptureRenderedImage ext ∧
    (if ext.GetImageReductionFactor
          ((self.SetImageReductionFactor 2).SetImageReductionFactor 1) = 1
      then ((self.SetImageReductionFactor 2).SetImageReductionFactor 1).FullImage
      else ((self.SetImageReductionFactor 2).SetImageReductionFactor 1).ReducedImage) =
      self.FullImage := by
  have hself : (self.SetImageReductionFactor 2).SetImageReductionFactor 1 = self := by
    obtain ⟨w, r, pass, paster, proc, f, full, reduced⟩ := self
    obtain ⟨dims, factor, pv, tile⟩ := pass
    simp only at h1
    subst h1
    rfl
  refine ⟨hself, ?_, ?_, ?_, ?_⟩
  · rw [hself]
  · rw [hself]
  · rw [hself]
  · rw [hself]
    simp [h2]

/-- Witness of C18 on the sample instance, whose getter reads the factor of
the composite pass: in between, with factor 2, the factor differs from 1. -/
theorem SetImageReductionFactor_two_then_one_witness :
    (sampleInstance imageB).IceTCompositePass.ImageReductionFactor = 1 ∧
    sampleCollaborators.GetImageReductionFactor (sampleInstance imageB) = 1 ∧
    sampleCollaborators.GetImageReductionFactor
      ((sampleInstance imageB).SetImageReductionFactor 2) = 2 ∧
    ((sampleInstance imageB).SetImageReductionFactor 2).SetImageReductionFactor 1 =
      sampleInstance imageB :=
  ⟨rfl, rfl, rfl,
   (SetImageReductionFactor_two_then_one (sampleInstance imageB) sampleCollaborators
      rfl rfl).1⟩

/-! ## `vtkSQKernelConvolution`: discovery of the host topology -/

/-- The count found under a key after a count has been stored. -/
theorem CountMapType.find_assign (counts : CountMapType) (key : String) (value : Int)
    (key' : String) :
    (CountMapType.assign key value counts).find key' =
      if key = key' then some value else counts.find key' := by
  induction counts with
  | nil =>
    by_cases h : key = key' <;> simp [CountMapType.assign, CountMapType.find, h]
  | cons entry rest ih =>
    obtain ⟨k, c⟩ := entry
    by_cases hk : k = key
    · subst hk
      by_cases h : k = key' <;> simp [CountMapType.assign, CountMapType.find, h]
    · by_cases h : key = key'
      · subst h
        simp [CountMapType.assign, CountMapType.find, hk, ih]
      · by_cases hk' : k = key'
        · subst hk'
          simp [CountMapType.assign, CountMapType.find, hk, h]
        · simp [CountMapType.assign, CountMapType.find, hk, hk', h, ih]

/-- The first loop, started with `counts` holding the number of occurrences
of every key in the positions `pre` already processed, ends with `counts`
holding the number of occurrences in all positions, and gives each position
the number of earlier positions with the same key. -/
theorem assignHostRanks_spec (keys : List String) :
    ∀ (counts : CountMapType) (pre : List String),
      (∀ k, (counts.find k).getD 0 = ((pre.count k : Nat) : Int)) →
      (∀ k, ((assignHostRanks keys counts).1.find k).getD 0 =
        (((pre ++ keys).count k : Nat) : Int)) ∧
      (∀ (i : Nat) (hi : i < keys.length),
        (assignHostRanks keys counts).2[i]? =
          some ((((pre ++ keys.take i).count keys[i] : Nat)) : Int)) := by
  induction keys with
  | nil =>
    intro counts pre h
    exact ⟨by simpa [assignHostRanks] using h, fun i hi => absurd hi (by simp)⟩
  | cons key rest ih =>
    intro counts pre h
    have hsecond : (match counts.find key with
        | none => (1 : Int)
        | some c => c + 1) = ((pre.count key : Nat) : Int) + 1 := by
      have hk := h key
      cases hf : counts.find key with
      | none => simp [hf] at hk ⊢; omega
      | some c => simp [hf] at hk ⊢; omega
    have hcounts : ∀ k, ((CountMapType.assign key
        (match counts.find key with
          | none => (1 : Int)
          | some c => c + 1) counts).find k).getD 0 =
        (((pre ++ [key]).count k : Nat) : Int) := by
      intro k
      rw [CountMapType.find_assign, hsecond]
      by_cases hk : key = k
      · subst hk
        simp
      · have hk' : (key == k) = false := by simpa using hk
        simp [hk, h k, List.count_singleton, hk']
    obtain ⟨ih1, ih2⟩ := ih _ (pre ++ [key]) hcounts
    constructor
    · intro k
      have := ih1 k
      simpa [assignHostRanks] using this
    · intro i hi
      cases i with
      | zero =>
        simp only [assignHostRanks, List.getElem?_cons_zero, List.take_zero, List.append_nil,
          List.getElem_cons_zero, hsecond]
        simp
      | succ j =>
        have hj : j < rest.length := by simpa using hi
        have := ih2 j hj
        simpa [assignHostRanks] using this

/-- What the discovery computes for rank `i`: the host size is the number of
ranks whose key equals the key of rank `i`, the host rank is the number of
such ranks below `i`. The key of a rank is the first character of its host
name. -/
theorem discoverHostTopology_getElem? (hostNames : List String) (i : Nat)
    (hi : i < hostNames.length) :
    (discoverHostTopology hostNames)[i]? =
      some
        { HostSize :=
            (((hostNames.map keyOfHostName).count (keyOfHostName hostNames[i]) : Nat) : Int)
          HostRank :=
            ((((hostNames.map keyOfHostName).take i).count
              (keyOfHostName hostNames[i]) : Nat) : Int) } := by
  have hspec := assignHostRanks_spec (hostNames.map keyOfHostName) [] [] (by simp [CountMapType.find])
  have hi' : i < (hostNames.map keyOfHostName).length := by simpa using hi
  have h2 := hspec.2 i hi'
  have h1 := hspec.1 (keyOfHostName hostNames[i])
  simp only [List.nil_append, List.getElem_map] at h1 h2
  simp only [discoverHostTopology, List.getElem?_zipWith, assignHostSizes, List.getElem?_map,
    List.getElem?_eq_getElem hi, Option.map_some', h2, h1]

/-- A key occurs fewer times before position `i` than in the whole list when
it is the key at position `i`. -/
theorem count_take_lt_count (keys : List String) (i : Nat) (hi : i < keys.length) :
    (keys.take i).count keys[i] < keys.count keys[i] := by
  have h : keys.count keys[i] = (keys.take i).count keys[i] + (keys.drop i).count keys[i] := by
    rw [← List.count_append, List.take_append_drop]
  rw [h, List.drop_eq_getElem_cons hi, List.count_cons_self]
  omega

/-- C19: for every assignment of host names to the ranks of a world of any
size, the topology discovery gives every rank `i` a `HostRank` and a
`HostSize` with `0 ≤ HostRank < HostSize`; so do the values a rank holds after
the constructor, with or without MPI initialised. -/
theorem discoverHostTopology_rank_lt_size (hostNames : List String) (i : Nat)
    (hi : i < hostNames.length) :
    (∃ t, (discoverHostTopology hostNames)[i]? = some t ∧
      0 ≤ t.HostRank ∧ t.HostRank < t.HostSize) ∧
    (∀ mpiOk : Bool,
      0 ≤ (constructorHostTopology mpiOk hostNames i).HostRank ∧
      (constructorHostTopology mpiOk hostNames i).HostRank <
        (constructorHostTopology mpiOk hostNames i).HostSize) := by
  have hget := discoverHostTopology_getElem? hostNames i hi
  have hi' : i < (hostNames.map keyOfHostName).length := by simpa using hi
  have hlt := count_take_lt_count (hostNames.map keyOfHostName) i hi'
  simp only [List.getElem_map] at hlt
  constructor
  · exact ⟨_, hget, by simp, by simpa using hlt⟩
  · intro mpiOk
    cases mpiOk with
    | false => simp [constructorHostTopology]
    | true =>
      simp only [constructorHostTopology, if_true, List.getD_eq_getElem?_getD, hget,
        Option.getD_some]
      exact ⟨by simp, by simpa using hlt⟩

/-- Witness of C19: five ranks on three hosts; rank 3, the third one whose
name starts with `a`, gets host rank 2 of 3. -/
theorem discoverHostTopology_rank_lt_size_witness :
    3 < ["a1", "b1", "a1", "a1", "c1"].length ∧
    (discoverHostTopology ["a1", "b1", "a1", "a1", "c1"])[3]? =
      some { HostSize := 3, HostRank := 2 } ∧
    (∃ t, (discoverHostTopology ["a1", "b1", "a1", "a1", "c1"])[3]? = some t ∧
      0 ≤ t.HostRank ∧ t.HostRank < t.HostSize) :=
  ⟨by decide, by decide,
   (discoverHostTopology_rank_lt_size ["a1", "b1", "a1", "a1", "c1"] 3 (by decide)).1⟩

/-- C20, the code at a failing input: two ranks on the hosts `node1` and
`node2`. Each host name is the name of one rank only, but the keys the code
counts are the first characters, which are equal, so both ranks get host size
2 (and the second one host rank 1). -/
theorem discoverHostTopology_counts_first_characters :
    discoverHostTopology sampleHostNames =
      [{ HostSize := 2, HostRank := 0 }, { HostSize := 2, HostRank := 1 }] ∧
    ranksOnSameHost sampleHostNames 0 = 1 ∧
    ranksOnSameHost sampleHostNames 1 = 1 ∧
    sampleHostNames.map keyOfHostName = ["n", "n"] := by
  decide

/-! ## The compositing engine -/

/-- Merging two images into an accumulated one gives the same result in
either order. -/
theorem zipWith_merge_right_comm {Sample : Type} (rule : MergeRule Sample) :
    ∀ (acc a b : List Sample),
      List.zipWith rule.merge (List.zipWith rule.merge acc a) b =
        List.zipWith rule.merge (List.zipWith rule.merge acc b) a := by
  intro acc
  induction acc with
  | nil => intro a b; simp
  | cons x rest ih =>
    intro a b
    cases a with
    | nil => cases b <;> simp
    | cons y a' =>
      cases b with
      | nil => simp
      | cons z b' =>
        simp only [List.zipWith_cons_cons, List.cons.injEq]
        refine ⟨?_, ih a' b'⟩
        rw [rule.assoc, rule.comm y z, ← rule.assoc]

/-- C21: under a merge rule that is commutative and associative, the
composite of the partial images of the processes is the same, pixel for
pixel, for every permutation of the order in which the processes contribute;
hence a last rendered tile made from it, and what `CaptureRenderedImage` does
with that tile, do not depend on the order either. -/
theorem composite_perm {Sample : Type} (rule : MergeRule Sample) (placeholder : List Sample)
    (images₁ images₂ : List (List Sample)) (hperm : images₁.Perm images₂) :
    composite rule placeholder images₁ = composite rule placeholder images₂ ∧
    ∀ (toTile : List Sample → vtkRawImage) (ext : Collaborators)
      (self : vtkIceTSynchronizedRenderers),
      ({ self with
          IceTCompositePass :=
            { self.IceTCompositePass with
              LastRenderedTile := toTile (composite rule placeholder images₁) } } :
        vtkIceTSynchronizedRenderers).CaptureRenderedImage ext =
      ({ self with
          IceTCompositePass :=
            { self.IceTCompositePass with
              LastRenderedTile := toTile (composite rule placeholder images₂) } } :
        vtkIceTSynchronizedRenderers).CaptureRenderedImage ext := by
  have h : composite rule placeholder images₁ = composite rule placeholder images₂ := by
    unfold composite
    exact List.Perm.foldl_eq' hperm
      (fun a _ b _ acc => zipWith_merge_right_comm rule acc a b) placeholder
  refine ⟨h, ?_⟩
  intro toTile ext self
  rw [h]

/-- Witness of C21: three processes contributing in two different orders
under the nearest-wins rule; the composite has the nearest sample of every
pixel. -/
theorem composite_perm_witness :
    samplePartialImages.Perm samplePartialImages.reverse ∧
    composite nearestWins [(100, 0), (100, 0)] samplePartialImages = [(3, 2), (2, 3)] ∧
    composite nearestWins [(100, 0), (100, 0)] samplePartialImages =
      composite nearestWins [(100, 0), (100, 0)] samplePartialImages.reverse :=
  ⟨(List.reverse_perm _).symm, by decide,
   (composite_perm nearestWins [(100, 0), (100, 0)] samplePartialImages
      samplePartialImages.reverse (List.reverse_perm _).symm).1⟩

/-! ## `vtkSQKernelConvolution`: host rank -/

/-- C22, the code at a failing input: two ranks on the hosts `node1` and
`node2`. No rank below rank 1 is on the host of rank 1, but the code keys the
hosts by the first character of their names, so rank 1 gets host rank 1; the
two ranks, each alone on its host, get the host ranks 0 and 1. -/
theorem discoverHostTopology_host_rank_by_first_character :
    (discoverHostTopology sampleHostNames)[1]? = some { HostSize := 2, HostRank := 1 } ∧
    ranksBelowOnSameHost sampleHostNames 1 = 0 ∧
    ranksOnSameHost sampleHostNames 1 = 1 := by
  decide

/-! ## `vtkSQKernelConvolution`: CUDA settings -/

/-- The number of active devices is never -1 when the number of devices is
not: the invariant of the states the setter is called in. -/
theorem SetNumberOfActiveCUDADevices_ne_neg_one (driver : CUDAConvolutionDriver) (n : Int)
    (self : vtkSQKernelConvolution) (hN : self.NumberOfCUDADevices ≠ -1)
    (ha : self.NumberOfActiveCUDADevices ≠ -1) :
    (self.SetNumberOfActiveCUDADevices driver n).NumberOfActiveCUDADevices ≠ -1 ∧
    (self.SetNumberOfActiveCUDADevices driver n).NumberOfCUDADevices =
      self.NumberOfCUDADevices := by
  unfold vtkSQKernelConvolution.SetNumberOfActiveCUDADevices
    vtkSQKernelConvolution.SetCUDADeviceId vtkSQKernelConvolution.Modified
  simp only []
  split_ifs <;> simp_all

/-- C23: with `HostRank ≥ 0`, `N ≥ 1` devices and a request `n ≥ -1`, in a
state where the active count is not -1 (it never is, see
`SetNumberOfActiveCUDADevices_ne_neg_one`), after
`SetNumberOfActiveCUDADevices(n)` the active count `a` is `N` when `n = -1`
and `min(n, N)` otherwise, so `a ≤ N`; and when the call has changed `a` to a
non-zero value, `CUDADeviceId = HostRank mod a`, so `0 ≤ CUDADeviceId < a`. -/
theorem SetNumberOfActiveCUDADevices_count_and_device (driver : CUDAConvolutionDriver)
    (n : Int) (self : vtkSQKernelConvolution)
    (hrank : 0 ≤ self.HostRank) (hN : 1 ≤ self.NumberOfCUDADevices) (hn : -1 ≤ n)
    (ha : self.NumberOfActiveCUDADevices ≠ -1) :
    (self.SetNumberOfActiveCUDADevices driver n).NumberOfActiveCUDADevices =
      (if n = -1 then self.NumberOfCUDADevices else min n self.NumberOfCUDADevices) ∧
    (self.SetNumberOfActiveCUDADevices driver n).NumberOfActiveCUDADevices ≤
      self.NumberOfCUDADevices ∧
    ((self.SetNumberOfActiveCUDADevices driver n).NumberOfActiveCUDADevices ≠
        self.NumberOfActiveCUDADevices →
      (self.SetNumberOfActiveCUDADevices driver n).NumberOfActiveCUDADevices ≠ 0 →
      (self.SetNumberOfActiveCUDADevices driver n).CUDADeviceId =
        self.HostRank %
          (self.SetNumberOfActiveCUDADevices driver n).NumberOfActiveCUDADevices ∧
      0 ≤ (self.SetNumberOfActiveCUDADevices driver n).CUDADeviceId ∧
      (self.SetNumberOfActiveCUDADevices driver n).CUDADeviceId <
        (self.SetNumberOfActiveCUDADevices driver n).NumberOfActiveCUDADevices) := by
  have hcount : (self.SetNumberOfActiveCUDADevices driver n).NumberOfActiveCUDADevices =
      (if n = -1 then self.NumberOfCUDADevices else min n self.NumberOfCUDADevices) := by
    unfold vtkSQKernelConvolution.SetNumberOfActiveCUDADevices
      vtkSQKernelConvolution.SetCUDADeviceId vtkSQKernelConvolution.Modified
    simp only []
    by_cases h1 : n = -1
    · subst h1
      have hmin : min (-1) self.NumberOfCUDADevices = -1 := by omega
      simp only [hmin, if_true]
      split_ifs <;> simp_all
    · have hmin : min n self.NumberOfCUDADevices ≠ -1 := by omega
      simp only [h1, if_false, hmin]
      split_ifs <;> simp_all
  have hpos : 0 ≤ (self.SetNumberOfActiveCUDADevices driver n).NumberOfActiveCUDADevices := by
    rw [hcount]
    split_ifs <;> omega
  refine ⟨hcount, ?_, ?_⟩
  · rw [hcount]
    split_ifs <;> omega
  · intro hchanged hne
    have hid : (self.SetNumberOfActiveCUDADevices driver n).CUDADeviceId =
        self.HostRank.tmod
          (self.SetNumberOfActiveCUDADevices driver n).NumberOfActiveCUDADevices := by
      revert hchanged hne
      unfold vtkSQKernelConvolution.SetNumberOfActiveCUDADevices
        vtkSQKernelConvolution.SetCUDADeviceId vtkSQKernelConvolution.Modified
      simp only []
      split_ifs <;> simp_all
    rw [Int.tmod_eq_emod hrank hpos] at hid
    have hlt : 0 < (self.SetNumberOfActiveCUDADevices driver n).NumberOfActiveCUDADevices :=
      lt_of_le_of_ne hpos (Ne.symm hne)
    refine ⟨hid, ?_, ?_⟩
    · rw [hid]; exact Int.emod_nonneg _ hne
    · rw [hid]; exact Int.emod_lt_of_pos _ hlt

/-- Witness of C23: the sample filter has two devices, both active; with host
rank 3 a request for one device leaves one active device and device id 0. -/
theorem SetNumberOfActiveCUDADevices_count_and_device_witness :
    (0 : Int) ≤ ({ sampleFilter with HostRank := 3 } : vtkSQKernelConvolution).HostRank ∧
    ({ sampleFilter with HostRank := 3 } : vtkSQKernelConvolution).NumberOfCUDADevices = 2 ∧
    ({ sampleFilter with HostRank := 3 } :
      vtkSQKernelConvolution).NumberOfActiveCUDADevices = 2 ∧
    (({ sampleFilter with HostRank := 3 } :
      vtkSQKernelConvolution).SetNumberOfActiveCUDADevices sampleDriver
        1).NumberOfActiveCUDADevices = (if (1 : Int) = -1 then 2 else min 1 2) ∧
    (({ sampleFilter with HostRank := 3 } :
      vtkSQKernelConvolution).SetNumberOfActiveCUDADevices sampleDriver 1).CUDADeviceId = 0 :=
  ⟨by decide, by decide, by decide,
   (SetNumberOfActiveCUDADevices_count_and_device sampleDriver 1
      { sampleFilter with HostRank := 3 } (by decide) (by decide) (by decide) (by decide)).1,
   by decide⟩

/-! ## `vtkSQKernelConvolution::UpdateKernel`: the indices written -/

/-- Consecutive blocks of `b` consecutive numbers make one block. -/
theorem flatMap_range'_blocks (b c : Nat) :
    ∀ n : Nat, (List.range n).flatMap (fun j => List.range' (c + b * j) b) =
      List.range' c (b * n) := by
  intro n
  induction n with
  | zero => simp
  | succ n ih =>
    rw [List.range_succ, List.flatMap_append, ih, List.flatMap_singleton]
    have h := List.range'_append c (b * n) b 1
    rw [Nat.one_mul] at h
    rw [h, Nat.mul_succ, Nat.add_comm]

/-- The exact values `W*W*k + W*j + i` over the loop nest with `w` iterations
of the two inner loops and `h` of the outer one are `0, 1, ..., w*w*h - 1`, in
this order. -/
theorem loopNest_map_exact (w h : Nat) :
    (UpdateKernel.loopNest (w : Int) (h : Int)).map
        (fun kji => (w : Int) * (w : Int) * kji.1 + (w : Int) * kji.2.1 + kji.2.2) =
      (List.range (w * w * h)).map (fun (q : Nat) => (q : Int)) := by
  have inner : ∀ k j : Nat,
      (List.range w).map
          (fun (i : Nat) => (w : Int) * (w : Int) * (k : Int) + (w : Int) * (j : Int) + (i : Int)) =
        (List.range' (w * w * k + w * j) w).map (fun (q : Nat) => (q : Int)) := by
    intro k j
    have h0 : List.range' (w * w * k + w * j) w =
        (List.range w).map (fun i => (w * w * k + w * j) + i) := by
      rw [List.range_eq_range', List.map_add_range', Nat.add_zero]
    rw [h0, List.map_map]
    apply List.map_congr_left
    intro i _
    simp
  have middle : ∀ k : Nat,
      (List.range w).flatMap (fun (j : Nat) =>
        (List.range w).map
          (fun (i : Nat) =>
            (w : Int) * (w : Int) * (k : Int) + (w : Int) * (j : Int) + (i : Int))) =
        (List.range' (w * w * k) (w * w)).map (fun (q : Nat) => (q : Int)) := by
    intro k
    rw [← flatMap_range'_blocks w (w * w * k) w, List.map_flatMap]
    congr 1
    funext j
    exact inner k j
  unfold UpdateKernel.loopNest
  simp only [Int.toNat_ofNat, List.map_flatMap, List.map_map]
  have outer : (List.range h).flatMap (fun (k : Nat) =>
      (List.range w).flatMap (fun (j : Nat) =>
        (List.range w).map
          (fun (i : Nat) =>
            (w : Int) * (w : Int) * (k : Int) + (w : Int) * (j : Int) + (i : Int)))) =
      (List.range (w * w * h)).map (fun (q : Nat) => (q : Int)) := by
    rw [List.range_eq_range' (w * w * h), ← flatMap_range'_blocks (w * w) 0 h,
      List.map_flatMap]
    congr 1
    funext k
    rw [middle k, Nat.zero_add]
  exact outer

/-- The counters of the loop nest are below the bounds of the loops. -/
theorem mem_loopNest (w h : Nat) (kji : Int × Int × Int)
    (hmem : kji ∈ UpdateKernel.loopNest (w : Int) (h : Int)) :
    ∃ k j i : Nat, k < h ∧ j < w ∧ i < w ∧ kji = ((k : Int), (j : Int), (i : Int)) := by
  unfold UpdateKernel.loopNest at hmem
  simp only [Int.toNat_ofNat, List.mem_flatMap, List.mem_map, List.mem_range] at hmem
  obtain ⟨k, hk, j, hj, i, hi, rfl⟩ := hmem
  exact ⟨k, j, i, hk, hj, hi, rfl⟩

/-- When `w*w*h` is in the range of `int`, the `int` arithmetic of the index
`q` is exact inside the loop nest. -/
theorem UpdateKernel_q_exact (w h k j i : Nat) (hk : k < h) (hj : j < w) (hi : i < w)
    (hrange : w * w * h ≤ 2147483647) :
    UpdateKernel.q (w : Int) ((k : Int), (j : Int), (i : Int)) =
      (w : Int) * (w : Int) * (k : Int) + (w : Int) * (j : Int) + (i : Int) := by
  have e1 : w * w * (k + 1) ≤ w * w * h := Nat.mul_le_mul_left _ hk
  have e2 : w * (j + 1) ≤ w * w := Nat.mul_le_mul_left _ hj
  have e1' : w * w * k + w * w ≤ 2147483647 := by
    have : w * w * (k + 1) = w * w * k + w * w := by ring
    omega
  have e2' : w * j + w ≤ w * w := by
    have : w * (j + 1) = w * j + w := by ring
    omega
  have c1 : ((w * w : Nat) : Int) = (w : Int) * (w : Int) := by push_cast; rfl
  have c2 : ((w * w * k : Nat) : Int) = (w : Int) * (w : Int) * (k : Int) := by push_cast; rfl
  have c3 : ((w * j : Nat) : Int) = (w : Int) * (j : Int) := by push_cast; rfl
  have b1 : ((w * w * k : Nat) : Int) + ((w * w : Nat) : Int) ≤ 2147483647 := by
    exact_mod_cast e1'
  have b2 : ((w * j : Nat) : Int) + (w : Int) ≤ ((w * w : Nat) : Int) := by
    exact_mod_cast e2'
  have n1 : (0 : Int) ≤ ((w * w : Nat) : Int) := Int.ofNat_nonneg _
  have n2 : (0 : Int) ≤ ((w * w * k : Nat) : Int) := Int.ofNat_nonneg _
  have n3 : (0 : Int) ≤ ((w * j : Nat) : Int) := Int.ofNat_nonneg _
  have n4 : (0 : Int) ≤ (i : Int) := Int.ofNat_nonneg _
  have n5 : (0 : Int) ≤ (w : Int) := Int.ofNat_nonneg _
  have hi' : (i : Int) < (w : Int) := by exact_mod_cast hi
  rw [c1] at b1 b2 n1
  rw [c2] at b1 n2
  rw [c3] at b2 n3
  unfold UpdateKernel.q
  simp only [mulInt32, addInt32]
  rw [wrapInt32_of_inInt32 ((w : Int) * (w : Int)) ⟨by omega, by omega⟩,
    wrapInt32_of_inInt32 ((w : Int) * (w : Int) * (k : Int)) ⟨by omega, by omega⟩,
    wrapInt32_of_inInt32 ((w : Int) * (j : Int)) ⟨by omega, by omega⟩,
    wrapInt32_of_inInt32 ((w : Int) * (w : Int) * (k : Int) + (w : Int) * (j : Int))
      ⟨by omega, by omega⟩,
    wrapInt32_of_inInt32
      ((w : Int) * (w : Int) * (k : Int) + (w : Int) * (j : Int) + (i : Int))
      ⟨by omega, by omega⟩]

/-- When `w*w*h` is in the range of `int`, the indices written by the loop
nest with `w` iterations of the two inner loops and `h` of the outer one are
`0, 1, ..., w*w*h - 1`, in this order. -/
theorem loopNest_map_q (w h : Nat) (hrange : w * w * h ≤ 2147483647) :
    (UpdateKernel.loopNest (w : Int) (h : Int)).map (UpdateKernel.q (w : Int)) =
      (List.range (w * w * h)).map (fun (q : Nat) => (q : Int)) := by
  rw [← loopNest_map_exact w h]
  apply List.map_congr_left
  intro kji hmem
  obtain ⟨k, j, i, hk, hj, hi, rfl⟩ := mem_loopNest w h kji hmem
  exact UpdateKernel_q_exact w h k j i hk hj hi hrange

/-- The number of points of the kernel extent for an odd width and one of the
four modes: the width on each of the axes the mode keeps. -/
theorem UpdateKernel_extent_Size (W : Int) (Mode : DimMode) (hW : 1 ≤ W) (hodd : W % 2 = 1)
    (hMode : Mode = DimMode.DIM_MODE_3D ∨ Mode = DimMode.DIM_MODE_2D_XY ∨
      Mode = DimMode.DIM_MODE_2D_XZ ∨ Mode = DimMode.DIM_MODE_2D_YZ) :
    (UpdateKernel.extent W Mode).Size = W * W * UpdateKernel.H W Mode := by
  have h2 : 2 * W.tdiv 2 + 1 = W := by
    rw [Int.tdiv_eq_ediv (by omega) (by omega)]
    omega
  have hlen : W.tdiv 2 - -W.tdiv 2 + 1 = W := by omega
  rcases hMode with h | h | h | h <;> subst h <;>
    simp only [UpdateKernel.extent, UpdateKernel.H, CartesianExtent.Size, hlen] <;> simp

/-- Writing through the loop nest keeps the length of the array, keeps what
was written before, and leaves a value at every index written inside the
array. -/
theorem foldl_store_initialised (value : Int × Int × Int → Double)
    (q : Int × Int × Int → Int) (l : List (Int × Int × Int)) :
    ∀ (arr : List (Option Double)) (norm : Double),
      ((l.foldl (fun acc kji => (UpdateKernel.store acc.1 (q kji) (value kji), acc.2 + value kji))
        (arr, norm)).1.length = arr.length) ∧
      (∀ p : Nat, p < arr.length →
        ((∃ v, arr[p]? = some (some v)) ∨ (p : Int) ∈ l.map q) →
        ∃ v, (l.foldl
          (fun acc kji => (UpdateKernel.store acc.1 (q kji) (value kji), acc.2 + value kji))
          (arr, norm)).1[p]? = some (some v)) := by
  induction l with
  | nil =>
    intro arr norm
    refine ⟨rfl, ?_⟩
    intro p _ h
    rcases h with h | h
    · exact h
    · simp at h
  | cons kji rest ih =>
    intro arr norm
    have hlen : (UpdateKernel.store arr (q kji) (value kji)).length = arr.length := by
      unfold UpdateKernel.store
      split_ifs
      · rw [List.length_set]
      · rfl
    obtain ⟨ih1, ih2⟩ := ih (UpdateKernel.store arr (q kji) (value kji)) (norm + value kji)
    simp only [List.foldl_cons]
    refine ⟨by rw [ih1, hlen], ?_⟩
    intro p hp h
    apply ih2 p (by rw [hlen]; exact hp)
    by_cases hq : q kji = (p : Int)
    · left
      refine ⟨value kji, ?_⟩
      unfold UpdateKernel.store
      rw [hq, if_pos (Int.ofNat_nonneg p), Int.toNat_ofNat, List.getElem?_set]
      simp [hp]
    · rcases h with h | h
      · left
        obtain ⟨v, hv⟩ := h
        refine ⟨v, ?_⟩
        unfold UpdateKernel.store
        split_ifs with h0
        · have hne : (q kji).toNat ≠ p := by
            intro hp'
            apply hq
            rw [← hp', Int.toNat_of_nonneg h0]
          rw [List.getElem?_set]
          simp [hne, hv]
        · exact hv
      · right
        simp only [List.map_cons, List.mem_cons] at h
        rcases h with h | h
        · exact absurd h.symm hq
        · exact h

/-- C29, amended: on a filter with an odd `KernelWidth` `W ≥ 1`, one of the modes 3D,
2D_XY, 2D_XZ and 2D_YZ, the kernel type Gaussian or LoG, and `W*W*H` in the
range of `int` (`H = W` in 3D and 1 in 2D), the number of points of
`KernelExt` is `size = W*W*H`, and the indices `q = W*W*k + W*j + i` written
by the loops of `UpdateKernel` are, in the order of the writes,
`0, 1, ..., size - 1`. So every index written is in `[0, size)`, no index is
written twice and every index of `[0, size)` is written; and `UpdateKernel`,
run on the filter with the kernel marked modified, returns 0, stores that
extent and leaves a kernel of `size` entries, every one of which holds a
value. -/
theorem UpdateKernel_writes_cover_kernel (num : Numerics) (self : vtkSQKernelConvolution)
    (hW : 1 ≤ self.KernelWidth) (hodd : self.KernelWidth % 2 = 1)
    (hMode : self.Mode = DimMode.DIM_MODE_3D ∨ self.Mode = DimMode.DIM_MODE_2D_XY ∨
      self.Mode = DimMode.DIM_MODE_2D_XZ ∨ self.Mode = DimMode.DIM_MODE_2D_YZ)
    (hType : self.KernelType = KernelTypeId.KERNEL_TYPE_GAUSSIAN ∨
      self.KernelType = KernelTypeId.KERNEL_TYPE_LOG)
    (hmod : self.KernelModified ≠ 0)
    (hrange : self.KernelWidth * self.KernelWidth *
      UpdateKernel.H self.KernelWidth self.Mode ≤ 2147483647) :
    (UpdateKernel.extent self.KernelWidth self.Mode).Size =
      self.KernelWidth * self.KernelWidth * UpdateKernel.H self.KernelWidth self.Mode ∧
    UpdateKernel.writtenIndices self.KernelWidth self.Mode =
      (List.range (UpdateKernel.extent self.KernelWidth self.Mode).Size.toNat).map
        (fun (q : Nat) => (q : Int)) ∧
    (∀ q ∈ UpdateKernel.writtenIndices self.KernelWidth self.Mode,
      0 ≤ q ∧ q < (UpdateKernel.extent self.KernelWidth self.Mode).Size) ∧
    (UpdateKernel.writtenIndices self.KernelWidth self.Mode).Nodup ∧
    (∀ q : Int, 0 ≤ q → q < (UpdateKernel.extent self.KernelWidth self.Mode).Size →
      q ∈ UpdateKernel.writtenIndices self.KernelWidth self.Mode) ∧
    (self.UpdateKernel num).2 = 0 ∧
    (self.UpdateKernel num).1.KernelExt = UpdateKernel.extent self.KernelWidth self.Mode ∧
    (self.UpdateKernel num).1.KernelModified = 0 ∧
    (∃ kernel : List (Option Double),
      (self.UpdateKernel num).1.Kernel = some kernel ∧
      kernel.length = (UpdateKernel.extent self.KernelWidth self.Mode).Size.toNat ∧
      ∀ e ∈ kernel, e ≠ none) := by
  have hsize := UpdateKernel_extent_Size self.KernelWidth self.Mode hW hodd hMode
  obtain ⟨w, hw⟩ : ∃ w : Nat, self.KernelWidth = (w : Int) :=
    ⟨self.KernelWidth.toNat, (Int.toNat_of_nonneg (by omega)).symm⟩
  obtain ⟨h, hH⟩ : ∃ h : Nat, UpdateKernel.H self.KernelWidth self.Mode = (h : Int) := by
    unfold UpdateKernel.H
    split_ifs
    · exact ⟨w, hw⟩
    · exact ⟨1, rfl⟩
  have hcast : self.KernelWidth * self.KernelWidth * UpdateKernel.H self.KernelWidth self.Mode =
      ((w * w * h : Nat) : Int) := by
    rw [hw] at hH ⊢
    rw [hH]
    push_cast
    rfl
  have hrange' : w * w * h ≤ 2147483647 := by
    rw [hcast] at hrange
    exact_mod_cast hrange
  have hnat : (UpdateKernel.extent self.KernelWidth self.Mode).Size.toNat = w * w * h := by
    rw [hsize, hcast, Int.toNat_ofNat]
  have hsizeInt : (UpdateKernel.extent self.KernelWidth self.Mode).Size =
      ((w * w * h : Nat) : Int) := by
    rw [hsize, hcast]
  have hidx : UpdateKernel.writtenIndices self.KernelWidth self.Mode =
      (List.range (UpdateKernel.extent self.KernelWidth self.Mode).Size.toNat).map
        (fun (q : Nat) => (q : Int)) := by
    unfold UpdateKernel.writtenIndices
    rw [hH, hnat, hw]
    exact loopNest_map_q w h hrange'
  have hfilled : ∀ value : Int × Int × Int → Double,
      (UpdateKernel.fill self.KernelWidth self.Mode value
        (List.replicate (UpdateKernel.extent self.KernelWidth self.Mode).Size.toNat none)).1.length =
          (UpdateKernel.extent self.KernelWidth self.Mode).Size.toNat ∧
      ∀ e ∈ (UpdateKernel.fill self.KernelWidth self.Mode value
        (List.replicate (UpdateKernel.extent self.KernelWidth self.Mode).Size.toNat none)).1,
        e ≠ none := by
    intro value
    have hfill := foldl_store_initialised value (UpdateKernel.q self.KernelWidth)
      (UpdateKernel.loopNest self.KernelWidth (UpdateKernel.H self.KernelWidth self.Mode))
      (List.replicate (UpdateKernel.extent self.KernelWidth self.Mode).Size.toNat none) 0
    have hlen : (UpdateKernel.fill self.KernelWidth self.Mode value
        (List.replicate (UpdateKernel.extent self.KernelWidth self.Mode).Size.toNat none)).1.length =
        (UpdateKernel.extent self.KernelWidth self.Mode).Size.toNat := by
      simpa [UpdateKernel.fill] using hfill.1
    refine ⟨hlen, ?_⟩
    intro e he
    obtain ⟨p, hp, hpe⟩ := List.mem_iff_getElem.1 he
    have hp' : p < (UpdateKernel.extent self.KernelWidth self.Mode).Size.toNat := by
      rw [← hlen]; exact hp
    have hmem : (p : Int) ∈
        (UpdateKernel.loopNest self.KernelWidth
          (UpdateKernel.H self.KernelWidth self.Mode)).map (UpdateKernel.q self.KernelWidth) := by
      have h1 : (UpdateKernel.loopNest self.KernelWidth
          (UpdateKernel.H self.KernelWidth self.Mode)).map (UpdateKernel.q self.KernelWidth) =
          UpdateKernel.writtenIndices self.KernelWidth self.Mode := rfl
      rw [h1, hidx]
      exact List.mem_map.2 ⟨p, List.mem_range.2 hp', rfl⟩
    obtain ⟨v, hv⟩ := hfill.2 p (by simpa using hp') (Or.inr hmem)
    have hget : (UpdateKernel.fill self.KernelWidth self.Mode value
        (List.replicate (UpdateKernel.extent self.KernelWidth self.Mode).Size.toNat none)).1[p]? =
        some (some v) := hv
    rw [List.getElem?_eq_getElem hp] at hget
    have : e = some v := by rw [← hpe]; exact Option.some.inj hget
    rw [this]
    exact Option.some_ne_none v
  have hmethod : ∃ (value : Int × Int × Int → Double) (kernelNorm : Double),
      self.UpdateKernel num =
        ({ self with
            Kernel := some
              ((UpdateKernel.fill self.KernelWidth self.Mode value
                (List.replicate (UpdateKernel.extent self.KernelWidth self.Mode).Size.toNat
                  none)).1.map (fun entry => entry.map (fun v => v / kernelNorm)))
            KernelExt := UpdateKernel.extent self.KernelWidth self.Mode
            KernelModified := 0 }, 0) := by
    rcases hType with ht | ht
    · refine ⟨fun kji =>
          num.Gaussian (UpdateKernel.x (num.linspace (-1) 1 self.KernelWidth) self.Mode kji)
            1 (0, 0, 0) (11 / 20),
        (UpdateKernel.fill self.KernelWidth self.Mode
          (fun kji =>
            num.Gaussian (UpdateKernel.x (num.linspace (-1) 1 self.KernelWidth) self.Mode kji)
              1 (0, 0, 0) (11 / 20))
          (List.replicate (UpdateKernel.extent self.KernelWidth self.Mode).Size.toNat none)).2,
        ?_⟩
      simp [vtkSQKernelConvolution.UpdateKernel, hmod, ht]
    · refine ⟨fun kji =>
          num.LaplacianOfGaussian
            (UpdateKernel.x (num.linspace (-1) 1 self.KernelWidth) self.Mode kji)
            1 (0, 0, 0) (11 / 20),
        (UpdateKernel.fill self.KernelWidth self.Mode
          (fun kji =>
            num.LaplacianOfGaussian
              (UpdateKernel.x (num.linspace (-1) 1 self.KernelWidth) self.Mode kji)
              1 (0, 0, 0) (11 / 20))
          (List.replicate (UpdateKernel.extent self.KernelWidth self.Mode).Size.toNat none)).2,
        ?_⟩
      simp [vtkSQKernelConvolution.UpdateKernel, hmod, ht]
  obtain ⟨value, kernelNorm, hrun⟩ := hmethod
  refine ⟨hsize, hidx, ?_, ?_, ?_, ?_, ?_, ?_, ?_⟩
  · intro q hq
    rw [hidx] at hq
    obtain ⟨p, hp, rfl⟩ := List.mem_map.1 hq
    have := List.mem_range.1 hp
    rw [hnat] at this
    rw [hsizeInt]
    exact ⟨Int.ofNat_nonneg p, by exact_mod_cast this⟩
  · rw [hidx]
    exact (List.nodup_range _).map (fun a b hab => by exact_mod_cast hab)
  · intro q h0 hlt
    rw [hidx]
    refine List.mem_map.2 ⟨q.toNat, List.mem_range.2 ?_, Int.toNat_of_nonneg h0⟩
    rw [hsizeInt] at hlt
    rw [hnat]
    omega
  · rw [hrun]
  · rw [hrun]
  · rw [hrun]
  · refine ⟨_, by rw [hrun], ?_, ?_⟩
    · rw [List.length_map]
      exact (hfilled value).1
    · intro e he
      obtain ⟨x, hx, rfl⟩ := List.mem_map.1 he
      have hxne := (hfilled value).2 x hx
      cases x with
      | none => exact absurd rfl hxne
      | some v => simp

/-- Witness of C29: the sample filter (width 3, mode 3D, Gaussian, kernel
marked modified); the kernel has 27 points, and `UpdateKernel` returns 0 and
leaves a kernel in which every entry holds a value. -/
theorem UpdateKernel_writes_cover_kernel_witness :
    (1 : Int) ≤ sampleFilter.KernelWidth ∧ sampleFilter.KernelWidth % 2 = 1 ∧
    sampleFilter.Mode = DimMode.DIM_MODE_3D ∧
    sampleFilter.KernelType = KernelTypeId.KERNEL_TYPE_GAUSSIAN ∧
    sampleFilter.KernelModified ≠ 0 ∧
    (UpdateKernel.extent sampleFilter.KernelWidth sampleFilter.Mode).Size = 27 ∧
    UpdateKernel.writtenIndices 3 DimMode.DIM_MODE_2D_XZ = [0, 1, 2, 3, 4, 5, 6, 7, 8] ∧
    (sampleFilter.UpdateKernel sampleNumerics).2 = 0 :=
  ⟨by decide, by decide, by decide, by decide, by decide, by decide, by decide,
   (UpdateKernel_writes_cover_kernel sampleNumerics sampleFilter (by decide) (by decide)
      (Or.inl (by decide)) (Or.inl (by decide)) (by decide) (by decide)).2.2.2.2.2.1⟩

/-- C29, counterexample: the odd width 1291 in the 3D mode. The kernel has
`1291^3 = 2151685171` points, more than the largest `int`. The last iteration
of the loops, `k = j = i = 1290`, has the index 2151685170 in exact arithmetic;
the `int` the code computes is `-2143282126`, so not every index written is in
`[0, size)`. -/
theorem UpdateKernel_index_beyond_int :
    (1 : Int) ≤ 1291 ∧ (1291 : Int) % 2 = 1 ∧
    (UpdateKernel.extent 1291 DimMode.DIM_MODE_3D).Size = 2151685171 ∧
    (1291 : Int) * 1291 * 1290 + 1291 * 1290 + 1290 = 2151685170 ∧
    UpdateKernel.q 1291 (1290, 1290, 1290) = -2143282126 ∧
    UpdateKernel.q 1291 (1290, 1290, 1290) ∈
      UpdateKernel.writtenIndices 1291 DimMode.DIM_MODE_3D ∧
    ¬ (∀ q ∈ UpdateKernel.writtenIndices 1291 DimMode.DIM_MODE_3D,
      0 ≤ q ∧ q < (UpdateKernel.extent 1291 DimMode.DIM_MODE_3D).Size) := by
  have hmem : UpdateKernel.q 1291 (1290, 1290, 1290) ∈
      UpdateKernel.writtenIndices 1291 DimMode.DIM_MODE_3D := by
    unfold UpdateKernel.writtenIndices
    refine List.mem_map.2 ⟨(1290, 1290, 1290), ?_, rfl⟩
    unfold UpdateKernel.loopNest
    simp only [List.mem_flatMap, List.mem_map, List.mem_range]
    exact ⟨1290, by decide, 1290, by decide, 1290, by decide, rfl⟩
  have hq : UpdateKernel.q 1291 (1290, 1290, 1290) = -2143282126 := by decide
  refine ⟨by decide, by decide, by decide, by decide, hq, hmem, ?_⟩
  intro hall
  have h := (hall _ hmem).1
  rw [hq] at h
  exact absurd h (by decide)

/-! ## `vtkSQKernelConvolution::SetKernelWidth` -/

/-- C24, the code at a failing input: on a filter with the default width 3,
`SetKernelWidth(4)` issues no error and stores the even width 4 (and marks the
kernel modified, also on a filter whose kernel was up to date); so does
`Initialize` with `stencil_width="4"`. The test of line 667 is on the width
held before the call: once the width is even, every later change, to an odd
width too, is rejected with the message that the width must be odd. -/
theorem SetKernelWidth_accepts_even_width :
    sampleFilter.KernelWidth = 3 ∧
    (sampleFilter.SetKernelWidth 4).2 = [] ∧
    (sampleFilter.SetKernelWidth 4).1.KernelWidth = 4 ∧
    sampleFilterWithKernel.KernelModified = 0 ∧
    (sampleFilterWithKernel.SetKernelWidth 4).1.KernelWidth = 4 ∧
    (sampleFilterWithKernel.SetKernelWidth 4).1.KernelModified = 1 ∧
    (sampleFilter.SetKernelWidth 4).1.SetKernelWidth 5 =
      ((sampleFilter.SetKernelWidth 4).1, ["KernelWidth must be odd."]) ∧
    (sampleFilter.Initialize sampleDriver
      (some { stencil_width := some 4, kernel_type := none,
              number_of_mpi_ranks_to_use_cuda := none,
              number_of_active_cuda_devices := none })).1.KernelWidth = 4 := by
  decide

/-! ## `vtkSQKernelConvolution::RequestData` -/

/-- C25, the code at a failing input: for an input of class
`vtkRectilinearGrid` with enough ghost cells, `RequestData` issues the error
for data that is not structured and returns, without the warning of the
rectilinear-grid branch: line 1021 asks `IsA("vtkrectilinearGrid")`, with a
small `r`, which no class is named. -/
theorem RequestData_rejects_rectilinear_grid :
    sampleRectilinearGrid.IsA "vtkRectilinearGrid" = true ∧
    sampleRectilinearGrid.IsA "vtkrectilinearGrid" = false ∧
    sampleFilter.RequestData sampleNumerics (some sampleRectilinearGrid)
        (some sampleRectilinearGrid) true =
      (sampleFilter, [RequestDataEvent.ErrorNotStructuredData], 1) ∧
    RequestDataEvent.WarningTODOStretchedGrids ∉
      (sampleFilter.RequestData sampleNumerics (some sampleRectilinearGrid)
        (some sampleRectilinearGrid) true).2.1 := by
  decide

/-! ## `vtkIceTSynchronizedRenderers::CaptureRenderedImage`: the viewport of the processing pass -/

/-- C26: when `CaptureRenderedImage` runs the image-processing pass (selected
buffer not valid, valid tile, pass set) and the physical viewport
`(x0, y0, x1, y1)` of the composite pass is well-formed, the viewport it sets
on the renderer, and the renderer has while the pass is rendered, is
`(0, 0, x1-x0, y1-y0)`: its origin is `(0,0)`, it is well-formed, it is inside
the unit square, and its width and height are those of the physical
viewport. -/
theorem CaptureRenderedImage_processing_viewport (ext : Collaborators)
    (self : vtkIceTSynchronizedRenderers) (pass : vtkImageProcessingPass)
    (hbuf : (if ext.GetImageReductionFactor self = 1 then self.FullImage
      else self.ReducedImage).IsValid = false)
    (hT : self.IceTCompositePass.LastRenderedTile.IsValid = true)
    (hp : self.ImageProcessingPass = some pass)
    (hx0 : 0 ≤ self.IceTCompositePass.PhysicalViewport.xmin)
    (hx : self.IceTCompositePass.PhysicalViewport.xmin ≤
      self.IceTCompositePass.PhysicalViewport.xmax)
    (hx1 : self.IceTCompositePass.PhysicalViewport.xmax ≤ 1)
    (hy0 : 0 ≤ self.IceTCompositePass.PhysicalViewport.ymin)
    (hy : self.IceTCompositePass.PhysicalViewport.ymin ≤
      self.IceTCompositePass.PhysicalViewport.ymax)
    (hy1 : self.IceTCompositePass.PhysicalViewport.ymax ≤ 1) :
    (self.CaptureRenderedImage ext).calls[2]? =
      some (Call.SetViewport
        ⟨0, 0,
         self.IceTCompositePass.PhysicalViewport.xmax -
           self.IceTCompositePass.PhysicalViewport.xmin,
         self.IceTCompositePass.PhysicalViewport.ymax -
           self.IceTCompositePass.PhysicalViewport.ymin⟩) ∧
    (∃ renderer : vtkRenderer,
      (self.CaptureRenderedImage ext).calls[7]? =
        some (Call.ImageProcessingPass_Render
          { pass with DelegatePass := some PassId.ImagePastingPass }
          { Image := self.IceTCompositePass.LastRenderedTile } renderer) ∧
      renderer.Viewport =
        ⟨0, 0,
         self.IceTCompositePass.PhysicalViewport.xmax -
           self.IceTCompositePass.PhysicalViewport.xmin,
         self.IceTCompositePass.PhysicalViewport.ymax -
           self.IceTCompositePass.PhysicalViewport.ymin⟩) ∧
    (0 : Double) ≤ self.IceTCompositePass.PhysicalViewport.xmax -
      self.IceTCompositePass.PhysicalViewport.xmin ∧
    self.IceTCompositePass.PhysicalViewport.xmax -
      self.IceTCompositePass.PhysicalViewport.xmin ≤ 1 ∧
    (0 : Double) ≤ self.IceTCompositePass.PhysicalViewport.ymax -
      self.IceTCompositePass.PhysicalViewport.ymin ∧
    self.IceTCompositePass.PhysicalViewport.ymax -
      self.IceTCompositePass.PhysicalViewport.ymin ≤ 1 := by
  have hsel : (!(if decide (ext.GetImageReductionFactor self = 1) = true then self.FullImage
      else self.ReducedImage).IsValid) = true := by
    by_cases h : ext.GetImageReductionFactor self = 1
    · simp only [h, if_true] at hbuf
      simp [h, hbuf]
    · simp only [h, if_false] at hbuf
      simp [h, hbuf]
  have hT' : (!self.IceTCompositePass.LastRenderedTile.IsValid) = false := by simp [hT]
  have hcalls : (self.CaptureRenderedImage ext).calls =
      [Call.SetDelegatePass PassId.ImagePastingPass,
       Call.SetImage self.IceTCompositePass.LastRenderedTile,
       Call.SetViewport
         ⟨0, 0,
          self.IceTCompositePass.PhysicalViewport.xmax -
            self.IceTCompositePass.PhysicalViewport.xmin,
          self.IceTCompositePass.PhysicalViewport.ymax -
            self.IceTCompositePass.PhysicalViewport.ymin⟩,
       Call.SetTileScale 1 1,
       Call.SetTileViewport ⟨0, 0, 1, 1⟩,
       Call.UpdateViewport
         { Viewport :=
             ⟨0, 0,
              self.IceTCompositePass.PhysicalViewport.xmax -
                self.IceTCompositePass.PhysicalViewport.xmin,
              self.IceTCompositePass.PhysicalViewport.ymax -
                self.IceTCompositePass.PhysicalViewport.ymin⟩
           RenderWindow :=
             { self.Renderer.RenderWindow with
               TileScale := (1, 1), TileViewport := ⟨0, 0, 1, 1⟩ } },
       Call.glPushAttrib,
       Call.ImageProcessingPass_Render
         { pass with DelegatePass := some PassId.ImagePastingPass }
         { Image := self.IceTCompositePass.LastRenderedTile }
         { Viewport :=
             ⟨0, 0,
              self.IceTCompositePass.PhysicalViewport.xmax -
                self.IceTCompositePass.PhysicalViewport.xmin,
              self.IceTCompositePass.PhysicalViewport.ymax -
                self.IceTCompositePass.PhysicalViewport.ymin⟩
           RenderWindow :=
             { self.Renderer.RenderWindow with
               TileScale := (1, 1), TileViewport := ⟨0, 0, 1, 1⟩ } },
       Call.ReleaseGraphicsResources,
       Call.glPopAttrib,
       Call.Capture
         { Viewport :=
             ⟨0, 0,
              self.IceTCompositePass.PhysicalViewport.xmax -
                self.IceTCompositePass.PhysicalViewport.xmin,
              self.IceTCompositePass.PhysicalViewport.ymax -
                self.IceTCompositePass.PhysicalViewport.ymin⟩
           RenderWindow :=
             { self.Renderer.RenderWindow with
               TileScale := (1, 1), TileViewport := ⟨0, 0, 1, 1⟩ } },
       Call.SetTileScale self.Renderer.RenderWindow.TileScale.1
         self.Renderer.RenderWindow.TileScale.2,
       Call.SetTileViewport self.Renderer.RenderWindow.TileViewport,
       Call.SetViewport self.Renderer.Viewport] := by
    unfold vtkIceTSynchronizedRenderers.CaptureRenderedImage
    simp only [hsel, hT', if_true, Bool.false_eq_true, if_false, assignRawImage_Renderer,
      assignRawImage_IceTCompositePass, assignRawImage_ImagePastingPass,
      assignRawImage_ImageProcessingPass, hp]
    simp [vtkRenderer.SetViewport, vtkRenderer.SetTileScale, vtkRenderer.SetTileViewport,
      fullViewport, vtkMyImagePasterPass.SetImage]
  refine ⟨by rw [hcalls]; rfl, ⟨_, by rw [hcalls]; rfl, rfl⟩, ?_, ?_, ?_, ?_⟩
  · linarith
  · linarith
  · linarith
  · linarith

/-- Witness of C26: the sample instance with an image-processing pass; its
physical viewport is the right half of the unit square, and the viewport set
for the pass is the left half. -/
theorem CaptureRenderedImage_processing_viewport_witness :
    (sampleProcessingInstance imageB).IceTCompositePass.PhysicalViewport = ⟨1/2, 0, 1, 1⟩ ∧
    ((sampleProcessingInstance imageB).CaptureRenderedImage sampleCollaborators).calls[2]? =
      some (Call.SetViewport
        ⟨0, 0,
         (sampleProcessingInstance imageB).IceTCompositePass.PhysicalViewport.xmax -
           (sampleProcessingInstance imageB).IceTCompositePass.PhysicalViewport.xmin,
         (sampleProcessingInstance imageB).IceTCompositePass.PhysicalViewport.ymax -
           (sampleProcessingInstance imageB).IceTCompositePass.PhysicalViewport.ymin⟩) ∧
    (sampleProcessingInstance imageB).IceTCompositePass.PhysicalViewport.xmax -
      (sampleProcessingInstance imageB).IceTCompositePass.PhysicalViewport.xmin = 1/2 :=
  ⟨rfl,
   (CaptureRenderedImage_processing_viewport sampleCollaborators
      (sampleProcessingInstance imageB) { DelegatePass := none } rfl rfl rfl
      (by norm_num [sampleProcessingInstance, sampleInstance])
      (by norm_num [sampleProcessingInstance, sampleInstance])
      (by norm_num [sampleProcessingInstance, sampleInstance])
      (by norm_num [sampleProcessingInstance, sampleInstance])
      (by norm_num [sampleProcessingInstance, sampleInstance])
      (by norm_num [sampleProcessingInstance, sampleInstance])).1,
   by norm_num [sampleProcessingInstance, sampleInstance]⟩

/-! ## `vtkSQKernelConvolution`: the kernel and the parameters it is made from -/

/-- A kernel that is not marked modified is not computed again. -/
theorem UpdateKernel_of_not_modified (num : Numerics) (self : vtkSQKernelConvolution)
    (h : self.KernelModified = 0) : self.UpdateKernel num = (self, 0) := by
  simp [vtkSQKernelConvolution.UpdateKernel, h]

/-- C27, the code at a failing input: a filter holding the up-to-date kernel
for width 3 in the 3D mode (27 points, extent `[-1,1]` on the three axes)
gets, through `RequestInformation` on a domain one cell thick along the third
axis, the mode 2D_XY, and the kernel is still not marked modified (line 874
assigns `Mode` and nothing else; `SetMode` with the same mode marks it). The
kernel extent `UpdateKernel` computes from the width and the mode now held has
one point on the third axis, and the kernel 9 points; the ones stored are the
old ones, and `UpdateKernel` returns without computing anything. -/
theorem RequestInformation_leaves_stale_kernel :
    sampleFilterWithKernel.KernelModified = 0 ∧
    sampleFilterWithKernel.Mode = DimMode.DIM_MODE_3D ∧
    sampleFilterAfterRequestInformation.Mode = DimMode.DIM_MODE_2D_XY ∧
    sampleFilterAfterRequestInformation.KernelWidth = sampleFilterWithKernel.KernelWidth ∧
    sampleFilterAfterRequestInformation.KernelType = sampleFilterWithKernel.KernelType ∧
    sampleFilterAfterRequestInformation.KernelModified = 0 ∧
    (sampleFilterWithKernel.SetMode DimMode.DIM_MODE_2D_XY).KernelModified = 1 ∧
    sampleFilterAfterRequestInformation.KernelExt = ⟨-1, 1, -1, 1, -1, 1⟩ ∧
    UpdateKernel.extent sampleFilterAfterRequestInformation.KernelWidth
      sampleFilterAfterRequestInformation.Mode = ⟨-1, 1, -1, 1, 0, 0⟩ ∧
    sampleFilterAfterRequestInformation.Kernel.map List.length = some 27 ∧
    (({ sampleFilterAfterRequestInformation with KernelModified := 1 } :
      vtkSQKernelConvolution).UpdateKernel sampleNumerics).1.Kernel.map List.length = some 9 ∧
    sampleFilterAfterRequestInformation.UpdateKernel sampleNumerics =
      (sampleFilterAfterRequestInformation, 0) := by
  refine ⟨by decide, by decide, by decide, by decide, by decide, by decide, by decide,
    by decide, by decide, by decide, by decide, ?_⟩
  exact UpdateKernel_of_not_modified _ _ (by decide)

/-! ## `vtkSQKernelConvolution`: `EnableCUDA` -/

/-- C28, the code at a failing input: on a machine with two CUDA devices the
constructed filter has two active devices; after
`SetAllMPIRanksToUseCUDA(1)` and then `SetNumberOfActiveCUDADevices(0)`
`EnableCUDA` is 1 and the number of active devices is 0, and so it is after
`Initialize` with `number_of_mpi_ranks_to_use_cuda="1"` and
`number_of_active_cuda_devices="0"`: `SetNumberOfActiveCUDADevices` never
writes `EnableCUDA`. -/
theorem SetNumberOfActiveCUDADevices_keeps_EnableCUDA :
    sampleFilter.NumberOfCUDADevices = 2 ∧
    sampleFilter.NumberOfActiveCUDADevices = 2 ∧
    sampleFilter.EnableCUDA = 0 ∧
    (sampleFilter.SetAllMPIRanksToUseCUDA 1).EnableCUDA = 1 ∧
    ((sampleFilter.SetAllMPIRanksToUseCUDA 1).SetNumberOfActiveCUDADevices sampleDriver
      0).EnableCUDA = 1 ∧
    ((sampleFilter.SetAllMPIRanksToUseCUDA 1).SetNumberOfActiveCUDADevices sampleDriver
      0).NumberOfActiveCUDADevices = 0 ∧
    (sampleFilter.Initialize sampleDriver
      (some { stencil_width := none, kernel_type := none,
              number_of_mpi_ranks_to_use_cuda := some 1,
              number_of_active_cuda_devices := some 0 })).1.EnableCUDA = 1 ∧
    (sampleFilter.Initialize sampleDriver
      (some { stencil_width := none, kernel_type := none,
              number_of_mpi_ranks_to_use_cuda := some 1,
              number_of_active_cuda_devices := some 0 })).1.NumberOfActiveCUDADevices = 0 := by
  decide

/-- C30: for every state and every `n` other than the value of
`NumberOfMPIRanksToUseCUDA` held, after `SetNumberOfMPIRanksToUseCUDA(n)`:
when `n = -1`, `EnableCUDA = 1` exactly when the number of active devices is
not 0; otherwise `EnableCUDA = 1` exactly when the number of active devices is
not 0 and `HostRank < n`. The call stores `n`, leaves the number of active
devices and the host rank alone, and `EnableCUDA` is 0 or 1. A call with the
value held changes nothing. -/
theorem SetNumberOfMPIRanksToUseCUDA_EnableCUDA (n : Int) (self : vtkSQKernelConvolution)
    (hn : n ≠ self.NumberOfMPIRanksToUseCUDA) :
    (n = -1 →
      ((self.SetNumberOfMPIRanksToUseCUDA n).EnableCUDA = 1 ↔
        self.NumberOfActiveCUDADevices ≠ 0)) ∧
    (n ≠ -1 →
      ((self.SetNumberOfMPIRanksToUseCUDA n).EnableCUDA = 1 ↔
        (self.NumberOfActiveCUDADevices ≠ 0 ∧ self.HostRank < n))) ∧
    ((self.SetNumberOfMPIRanksToUseCUDA n).EnableCUDA = 0 ∨
      (self.SetNumberOfMPIRanksToUseCUDA n).EnableCUDA = 1) ∧
    (self.SetNumberOfMPIRanksToUseCUDA n).NumberOfMPIRanksToUseCUDA = n ∧
    (self.SetNumberOfMPIRanksToUseCUDA n).NumberOfActiveCUDADevices =
      self.NumberOfActiveCUDADevices ∧
    (self.SetNumberOfMPIRanksToUseCUDA n).HostRank = self.HostRank ∧
    self.SetNumberOfMPIRanksToUseCUDA self.NumberOfMPIRanksToUseCUDA = self := by
  refine ⟨?_, ?_, ?_, ?_, ?_, ?_, ?_⟩
  · intro h1
    subst h1
    unfold vtkSQKernelConvolution.SetNumberOfMPIRanksToUseCUDA
      vtkSQKernelConvolution.SetAllMPIRanksToUseCUDA vtkSQKernelConvolution.Modified
    simp only [if_neg hn]
    split_ifs <;> simp_all
  · intro h1
    unfold vtkSQKernelConvolution.SetNumberOfMPIRanksToUseCUDA
      vtkSQKernelConvolution.SetAllMPIRanksToUseCUDA vtkSQKernelConvolution.Modified
    simp only [if_neg hn, if_neg h1]
    split_ifs <;> simp_all
  all_goals
    unfold vtkSQKernelConvolution.SetNumberOfMPIRanksToUseCUDA
      vtkSQKernelConvolution.SetAllMPIRanksToUseCUDA vtkSQKernelConvolution.Modified
    simp only []
    split_ifs <;> simp_all

/-- Witness of C30: the sample filter (host rank 0, two active devices, 0
ranks to use CUDA) asked for one rank to use CUDA enables CUDA. -/
theorem SetNumberOfMPIRanksToUseCUDA_EnableCUDA_witness :
    (1 : Int) ≠ sampleFilter.NumberOfMPIRanksToUseCUDA ∧
    sampleFilter.NumberOfActiveCUDADevices = 2 ∧
    sampleFilter.HostRank = 0 ∧
    (sampleFilter.SetNumberOfMPIRanksToUseCUDA 1).EnableCUDA = 1 ∧
    ((sampleFilter.SetNumberOfMPIRanksToUseCUDA 1).EnableCUDA = 1 ↔
      (sampleFilter.NumberOfActiveCUDADevices ≠ 0 ∧ sampleFilter.HostRank < 1)) :=
  ⟨by decide, by decide, by decide, by decide,
   (SetNumberOfMPIRanksToUseCUDA_EnableCUDA 1 sampleFilter (by decide)).2.1 (by decide)⟩

end ParaView
